import Mathlib

/-!
Shallow embedding of the ZEL decoder core (zel_context.c, zel_frame.c,
zel_palette.c, zel_parse.c of the split implementation, which is the one the
claims reference).  Machine integers are modelled as `Nat` with explicit
`% 2^w` exactly where the C code performs wrapping unsigned arithmetic
(`uint32_t` accumulation, the `(uint8_t)` cast); `size_t` arithmetic in the
code is always guarded against wraparound, so it is modelled as exact `Nat`
arithmetic.  Pointer out-parameters become returned values; a function that
reports a `ZELResult` and fills out-parameters returns a tuple whose tail
components carry the caller-visible value of those out-parameters (the
caller-side initial value when the callee leaves them unwritten).  Memory
allocation (`malloc`/`realloc` of scratch arenas) is assumed to succeed, so
the `ZEL_ERR_OUT_OF_MEMORY` and null-scratch `ZEL_ERR_INTERNAL` paths are not
modelled.  LZ4 is external to the repository and is modelled as an abstract
pure oracle argument, exactly as the spec prescribes for the LZ4 boundary.
-/

/-- Result codes of `zel.h`.  `ZEL_ERR_READ_FAILED` models the stream
short-read error code of the header (whose original name cannot be used
here); no claim mentions it. -/
inductive ZELResult where
  | ZEL_OK
  | ZEL_ERR_INVALID_ARGUMENT
  | ZEL_ERR_INVALID_MAGIC
  | ZEL_ERR_UNSUPPORTED_VERSION
  | ZEL_ERR_UNSUPPORTED_FORMAT
  | ZEL_ERR_CORRUPT_DATA
  | ZEL_ERR_OUT_OF_MEMORY
  | ZEL_ERR_OUT_OF_BOUNDS
  | ZEL_ERR_READ_FAILED
  | ZEL_ERR_INTERNAL
deriving DecidableEq, Repr

open ZELResult

/-- ZEL_COLOR_RGB565_LE of the `ZELColorEncoding` enum. -/
def ZEL_COLOR_RGB565_LE : Nat := 0

/-- ZEL_COLOR_RGB565_BE of the `ZELColorEncoding` enum. -/
def ZEL_COLOR_RGB565_BE : Nat := 1

/-- ZEL_COLOR_FORMAT_INDEXED8 of the `ZELColorFormat` enum. -/
def ZEL_COLOR_FORMAT_INDEXED8 : Nat := 0

/-- ZEL_COMPRESSION_NONE of the `ZELCompressionType` enum. -/
def ZEL_COMPRESSION_NONE : Nat := 0

/-- ZEL_COMPRESSION_LZ4 of the `ZELCompressionType` enum. -/
def ZEL_COMPRESSION_LZ4 : Nat := 1

/-- 2^32, the modulus of `uint32_t` arithmetic. -/
def U32MOD : Nat := 4294967296

/-- INT32_MAX, the signed-32-bit limit checked before calling LZ4. -/
def INT32_MAXN : Nat := 2147483647

/-- UINT16_MAX. -/
def UINT16_MAXN : Nat := 65535

/-- One byte of a byte source: bytes are `uint8_t`, hence the `% 256`;
reading past the end of the materialised buffer yields 0 (such reads are
always guarded by range checks in the code). -/
def zelByteAt (d : List Nat) (i : Nat) : Nat := d.getD i 0 % 256

/-- `zelLe16` of zel_internal.h, applied at offset `i` of a byte list. -/
def zelLe16At (d : List Nat) (i : Nat) : Nat :=
  zelByteAt d i + 256 * zelByteAt d (i + 1)

/-- `zelLe32` of zel_internal.h, applied at offset `i` of a byte list.
This is also the value a host-endian `memcpy` into a `uint32_t` yields. -/
def zelLe32At (d : List Nat) (i : Nat) : Nat :=
  zelByteAt d i + 256 * zelByteAt d (i + 1) + 65536 * zelByteAt d (i + 2)
    + 16777216 * zelByteAt d (i + 3)

/-- `entryCount` consecutive little-endian u16 palette entries starting at
byte offset `i`. -/
def zelU16ListAt (d : List Nat) (i count : Nat) : List Nat :=
  (List.range count).map (fun k => zelLe16At d (i + 2 * k))

/-- The bit-packed `ZELHeaderFlags` byte, unpacked as in `zelParseFileHeader`. -/
structure ZELHeaderFlags where
  hasGlobalPalette : Bool
  hasFrameLocalPalettes : Bool
  hasFrameIndexTable : Bool
  reserved : Nat
deriving DecidableEq, Repr, Inhabited

/-- The bit-packed `ZELFrameFlags` byte, unpacked as in
`zelParseFrameIndexEntry` / `zelParseFrameHeader`. -/
structure ZELFrameFlags where
  keyframe : Bool
  hasLocalPalette : Bool
  usePreviousFrameAsBase : Bool
  reserved : Nat
deriving DecidableEq, Repr, Inhabited

/-- `ZELFileHeader` of zel.h (packed size 34 bytes).  The 10 reserved tail
bytes carry no information and are dropped. -/
structure ZELFileHeader where
  magic : List Nat
  version : Nat
  headerSize : Nat
  width : Nat
  height : Nat
  zoneWidth : Nat
  zoneHeight : Nat
  colorFormat : Nat
  flags : ZELHeaderFlags
  frameCount : Nat
  defaultFrameDuration : Nat
deriving DecidableEq, Repr, Inhabited

/-- `ZELFrameIndexEntry` of zel.h (packed size 11 bytes). -/
structure ZELFrameIndexEntry where
  frameOffset : Nat
  frameSize : Nat
  flags : ZELFrameFlags
  frameDuration : Nat
deriving DecidableEq, Repr, Inhabited

/-- `ZELFrameHeader` of zel.h (packed size 14 bytes). -/
structure ZELFrameHeader where
  blockType : Nat
  headerSize : Nat
  flags : ZELFrameFlags
  zoneCount : Nat
  compressionType : Nat
  referenceFrameIndex : Nat
  localPaletteEntryCount : Nat
deriving DecidableEq, Repr, Inhabited

/-- `ZELPaletteHeader` of zel.h (packed size 8 bytes). -/
structure ZELPaletteHeader where
  paletteType : Nat
  headerSize : Nat
  entryCount : Nat
  colorEncoding : Nat
deriving DecidableEq, Repr, Inhabited

/-- Unpacking of a `ZELFrameFlags` byte (`zelParseFrameIndexEntry`). -/
def zelParseFrameFlags (f : Nat) : ZELFrameFlags :=
  { keyframe := f % 2 = 1
    hasLocalPalette := f / 2 % 2 = 1
    usePreviousFrameAsBase := f / 4 % 2 = 1
    reserved := f / 8 % 32 }

/-- `zelParseFileHeader` of zel_parse.c, reading at byte offset `off`.
This is also the layout a host-endian `memcpy` into the packed struct
produces, which is how zel_context.c reads the header. -/
def zelParseFileHeader (d : List Nat) (off : Nat) : ZELFileHeader :=
  { magic := [zelByteAt d off, zelByteAt d (off + 1), zelByteAt d (off + 2),
              zelByteAt d (off + 3)]
    version := zelLe16At d (off + 4)
    headerSize := zelLe16At d (off + 6)
    width := zelLe16At d (off + 8)
    height := zelLe16At d (off + 10)
    zoneWidth := zelLe16At d (off + 12)
    zoneHeight := zelLe16At d (off + 14)
    colorFormat := zelByteAt d (off + 16)
    flags :=
      { hasGlobalPalette := zelByteAt d (off + 17) % 2 = 1
        hasFrameLocalPalettes := zelByteAt d (off + 17) / 2 % 2 = 1
        hasFrameIndexTable := zelByteAt d (off + 17) / 4 % 2 = 1
        reserved := zelByteAt d (off + 17) / 8 % 32 }
    frameCount := zelLe32At d (off + 18)
    defaultFrameDuration := zelLe16At d (off + 22) }

/-- `zelParsePaletteHeader` of zel_parse.c at byte offset `off`. -/
def zelParsePaletteHeader (d : List Nat) (off : Nat) : ZELPaletteHeader :=
  { paletteType := zelByteAt d off
    headerSize := zelByteAt d (off + 1)
    entryCount := zelLe16At d (off + 2)
    colorEncoding := zelByteAt d (off + 4) }

/-- `zelParseFrameHeader` of zel_parse.c at byte offset `off`. -/
def zelParseFrameHeader (d : List Nat) (off : Nat) : ZELFrameHeader :=
  { blockType := zelByteAt d off
    headerSize := zelByteAt d (off + 1)
    flags := zelParseFrameFlags (zelByteAt d (off + 2))
    zoneCount := zelLe16At d (off + 3)
    compressionType := zelByteAt d (off + 5)
    referenceFrameIndex := zelLe16At d (off + 6)
    localPaletteEntryCount := zelLe16At d (off + 8) }

/-- `zelParseFrameIndexEntry` of zel_parse.c at byte offset `off`. -/
def zelParseFrameIndexEntry (d : List Nat) (off : Nat) : ZELFrameIndexEntry :=
  { frameOffset := zelLe32At d off
    frameSize := zelLe32At d (off + 4)
    flags := zelParseFrameFlags (zelByteAt d (off + 8))
    frameDuration := zelLe16At d (off + 9) }

/-- `struct ZELContext` of zel_internal.h, memory-backed variant: `data`
is the borrowed file buffer and `ctx->size == data.length`.  The scratch
arenas (`zoneScratch`, `frameDataScratch`, `paletteScratch`) carry no
semantic state and are not modelled; the converted-global-palette cache and
its marker are, because the palette claims are about them. -/
structure ZELContext where
  data : List Nat
  header : ZELFileHeader
  frameIndexTable : List ZELFrameIndexEntry
  globalPaletteRaw : Option (List Nat)
  globalPaletteCount : Nat
  globalPaletteEncoding : Nat
  globalPaletteConverted : List Nat
  globalPaletteConvertedEncoding : Nat
  hasCustomOutputEncoding : Bool
  outputColorEncoding : Nat
deriving DecidableEq, Repr, Inhabited

/-- `ctx->size` of the memory-backed context. -/
def ZELContext.size (ctx : ZELContext) : Nat := ctx.data.length

/-- `zelIsValidColorEncoding` of zel_context.c (argument is a `uint8_t`). -/
def zelIsValidColorEncoding (encoding : Nat) : Bool :=
  encoding == ZEL_COLOR_RGB565_LE || encoding == ZEL_COLOR_RGB565_BE

/-- `zelSwapRgb565` of zel_context.c: for a `uint16_t` value,
`((value & 0x00FF) << 8) | ((value & 0xFF00) >> 8)`. -/
def zelSwapRgb565 (value : Nat) : Nat :=
  value % 256 * 256 + value / 256 % 256

/-- `zelRangeFits` of zel_context.c: the guarded overflow-free range
predicate.  The subtraction `limit - length` is taken only under the guard
`length ≤ limit`, exactly as in the code. -/
def zelRangeFits (offset length limit : Nat) : Bool :=
  if length > limit then false
  else decide (offset ≤ limit - length)

/-- `zelSelectOutputEncoding` of zel_context.c. -/
def zelSelectOutputEncoding (ctx : ZELContext) (sourceEncoding : Nat) : Nat :=
  if ctx.hasCustomOutputEncoding then ctx.outputColorEncoding
  else sourceEncoding

/-- `zelSetOutputColorEncoding` of zel_context.c.  The argument is the
caller-supplied `ZELColorEncoding` integer; the code validates its
`(uint8_t)` cast, modelled by `% 256`, and stores the uncast value. -/
def zelSetOutputColorEncoding (ctx : ZELContext) (encoding : Nat) : ZELContext :=
  if ¬ zelIsValidColorEncoding (encoding % 256) then ctx
  else if ¬ ctx.hasCustomOutputEncoding ∨ ctx.outputColorEncoding ≠ encoding then
    { ctx with
      outputColorEncoding := encoding
      hasCustomOutputEncoding := true
      globalPaletteConvertedEncoding := 255 }
  else ctx

/-- `zelGetOutputColorEncoding` of zel_context.c (non-null context). -/
def zelGetOutputColorEncoding (ctx : ZELContext) : Nat :=
  if ctx.hasCustomOutputEncoding then ctx.outputColorEncoding
  else ctx.globalPaletteEncoding

/-- Where a returned palette pointer points, distinguishing the raw global
entries (a borrow of the on-disk data) from the context-owned conversion
cache and the per-call local variants. -/
inductive ZELPalettePtr where
  | rawGlobal
  | convertedGlobal
  | localBorrow
  | localScratch
deriving DecidableEq, Repr

/-- The `(outEntries, outCount)` pair a palette query fills, together with
the identity of the buffer the entries pointer refers to. -/
structure ZELPaletteView where
  ptr : ZELPalettePtr
  entries : List Nat
  count : Nat
deriving DecidableEq, Repr

instance : Inhabited ZELPaletteView := ⟨⟨ZELPalettePtr.rawGlobal, [], 0⟩⟩

/-- `zelConvertPaletteEncoding` of zel_palette.c: `count` entries, copied
when the encodings agree, byte-swapped otherwise. -/
def zelConvertPaletteEncoding (src : List Nat) (count srcEncoding dstEncoding : Nat) :
    List Nat :=
  if srcEncoding = dstEncoding then (List.range count).map (fun i => src.getD i 0)
  else (List.range count).map (fun i => zelSwapRgb565 (src.getD i 0))

/-- `zelResolveGlobalPalette` of zel_palette.c.  Returns the result code,
the context after the call (the conversion cache may have been filled), and
the palette view.  The grow-only capacity bookkeeping of the conversion
buffer is not modelled (realloc is assumed to succeed). -/
def zelResolveGlobalPalette (ctx : ZELContext) :
    ZELResult × ZELContext × ZELPaletteView :=
  match ctx.globalPaletteRaw with
  | none => (ZEL_ERR_OUT_OF_BOUNDS, ctx, default)
  | some raw =>
    let desired := zelSelectOutputEncoding ctx ctx.globalPaletteEncoding
    if desired = ctx.globalPaletteEncoding then
      (ZEL_OK, ctx, ⟨ZELPalettePtr.rawGlobal, raw, ctx.globalPaletteCount⟩)
    else
      let ctx1 :=
        if ctx.globalPaletteConvertedEncoding ≠ desired then
          { ctx with
            globalPaletteConverted :=
              zelConvertPaletteEncoding raw ctx.globalPaletteCount
                ctx.globalPaletteEncoding desired
            globalPaletteConvertedEncoding := desired }
        else ctx
      (ZEL_OK, ctx1,
        ⟨ZELPalettePtr.convertedGlobal, ctx1.globalPaletteConverted,
          ctx.globalPaletteCount⟩)

/-- `zelGetGlobalPalette` of zel_palette.c (non-null arguments). -/
def zelGetGlobalPalette (ctx : ZELContext) :
    ZELResult × ZELContext × ZELPaletteView :=
  zelResolveGlobalPalette ctx

/-- `zelResolveLocalPalette` of zel_palette.c.  The palette scratch arena is
per-call and carries no state across calls, so the context is unchanged. -/
def zelResolveLocalPalette (ctx : ZELContext) (ph : ZELPaletteHeader)
    (paletteData : List Nat) : ZELResult × ZELContext × ZELPaletteView :=
  let desired := zelSelectOutputEncoding ctx ph.colorEncoding
  if desired = ph.colorEncoding then
    (ZEL_OK, ctx, ⟨ZELPalettePtr.localBorrow, paletteData, ph.entryCount⟩)
  else
    (ZEL_OK, ctx,
      ⟨ZELPalettePtr.localScratch,
        zelConvertPaletteEncoding paletteData ph.entryCount ph.colorEncoding desired,
        ph.entryCount⟩)

/-- `zelGetFramePalette` of zel_palette.c (non-null arguments,
memory-backed context, allocation assumed to succeed). -/
def zelGetFramePalette (ctx : ZELContext) (frameIndex : Nat) :
    ZELResult × ZELContext × ZELPaletteView :=
  if frameIndex ≥ ctx.header.frameCount then (ZEL_ERR_OUT_OF_BOUNDS, ctx, default)
  else
    let fi := ctx.frameIndexTable.getD frameIndex default
    if ¬ fi.flags.hasLocalPalette then zelResolveGlobalPalette ctx
    else if fi.frameSize = 0 then (ZEL_ERR_CORRUPT_DATA, ctx, default)
    else if ¬ zelRangeFits fi.frameOffset fi.frameSize ctx.size then
      (ZEL_ERR_CORRUPT_DATA, ctx, default)
    else
      let frameEnd := fi.frameOffset + fi.frameSize
      if ¬ zelRangeFits fi.frameOffset 14 ctx.size then
        (ZEL_ERR_CORRUPT_DATA, ctx, default)
      else
        let fh := zelParseFrameHeader ctx.data fi.frameOffset
        if fh.localPaletteEntryCount = 0 then (ZEL_ERR_CORRUPT_DATA, ctx, default)
        else
          let phOffset := fi.frameOffset + fh.headerSize
          if phOffset > frameEnd ∨ ¬ zelRangeFits phOffset 8 ctx.size
              ∨ 8 > frameEnd - phOffset then
            (ZEL_ERR_CORRUPT_DATA, ctx, default)
          else
            let ph := zelParsePaletteHeader ctx.data phOffset
            if ph.headerSize < 8 then (ZEL_ERR_CORRUPT_DATA, ctx, default)
            else if ¬ zelIsValidColorEncoding ph.colorEncoding then
              (ZEL_ERR_UNSUPPORTED_FORMAT, ctx, default)
            else if ph.entryCount = 0 then (ZEL_ERR_CORRUPT_DATA, ctx, default)
            else
              let paletteDataOffset := phOffset + ph.headerSize
              let paletteBytes := ph.entryCount * 2
              if ¬ zelRangeFits paletteDataOffset paletteBytes ctx.size then
                (ZEL_ERR_CORRUPT_DATA, ctx, default)
              else if paletteDataOffset > frameEnd
                  ∨ paletteBytes > frameEnd - paletteDataOffset then
                (ZEL_ERR_CORRUPT_DATA, ctx, default)
              else
                zelResolveLocalPalette ctx ph
                  (zelU16ListAt ctx.data paletteDataOffset ph.entryCount)

/-- `zelGetFrameDurationMs` of zel_frame.c: the out-parameter is 0 when the
call fails (callers initialise it to 0 and the callee does not write it). -/
def zelGetFrameDurationMs (ctx : ZELContext) (frameIndex : Nat) : ZELResult × Nat :=
  if frameIndex ≥ ctx.header.frameCount then (ZEL_ERR_OUT_OF_BOUNDS, 0)
  else
    let fi := ctx.frameIndexTable.getD frameIndex default
    if fi.frameDuration ≠ 0 then (ZEL_OK, fi.frameDuration)
    else (ZEL_OK, ctx.header.defaultFrameDuration)

/-- The loop of `zelGetTotalDurationMs`: frame counter `i`, `uint32_t`
accumulator `total`, and the number of frames still to add. -/
def zelTotalAux (ctx : ZELContext) : Nat → Nat → Nat → ZELResult × Nat
  | _, total, 0 => (ZEL_OK, total)
  | i, total, r + 1 =>
    let rd := zelGetFrameDurationMs ctx i
    if rd.fst ≠ ZEL_OK then (rd.fst, 0)
    else zelTotalAux ctx (i + 1) ((total + rd.snd) % U32MOD) r

/-- `zelGetTotalDurationMs` of zel_context.c (non-null arguments). -/
def zelGetTotalDurationMs (ctx : ZELContext) : ZELResult × Nat :=
  zelTotalAux ctx 0 0 ctx.header.frameCount

/-- The scan loop of `zelFindFrameByTimeMs`: time already reduced modulo the
total duration, the total (used by the defensive fallthrough), frame counter
`i`, `uint32_t` accumulator, and remaining frame count.  Returns
`(result, outFrameIndex, outFrameStartMs)`. -/
def zelFindAux (ctx : ZELContext) (t total : Nat) : Nat → Nat → Nat → ZELResult × Nat × Nat
  | _, _, 0 => (ZEL_OK, ctx.header.frameCount - 1, total - 1)
  | i, accum, r + 1 =>
    let rd := zelGetFrameDurationMs ctx i
    if rd.fst ≠ ZEL_OK then (rd.fst, 0, 0)
    else
      let next := (accum + rd.snd) % U32MOD
      if t < next then (ZEL_OK, i, accum)
      else zelFindAux ctx t total (i + 1) next r

/-- `zelFindFrameByTimeMs` of zel_context.c (non-null arguments). -/
def zelFindFrameByTimeMs (ctx : ZELContext) (timeMs : Nat) : ZELResult × Nat × Nat :=
  let rt := zelGetTotalDurationMs ctx
  if rt.fst ≠ ZEL_OK then (rt.fst, 0, 0)
  else if rt.snd = 0 then (ZEL_ERR_CORRUPT_DATA, 0, 0)
  else zelFindAux ctx (timeMs % rt.snd) rt.snd 0 0 ctx.header.frameCount

/-- The per-frame duration `zelGetFrameDurationMs` reports inside its
bounds: the frame-index entry duration when non-zero, else the file default.
Spec-side abbreviation used to state the timeline claims. -/
def zelEffectiveDuration (ctx : ZELContext) (i : Nat) : Nat :=
  let fi := ctx.frameIndexTable.getD i default
  if fi.frameDuration ≠ 0 then fi.frameDuration else ctx.header.defaultFrameDuration

/-- Stated from the spec: the total duration is the sum over all frames of
the effective per-frame duration, accumulated in `uint32_t`. -/
def zelSpecTotalDuration (ctx : ZELContext) : Nat :=
  ((List.range ctx.header.frameCount).map (zelEffectiveDuration ctx)).sum % U32MOD

/-- `ZELZoneLayout` of zel_internal.h. -/
structure ZELZoneLayout where
  zoneWidth : Nat
  zoneHeight : Nat
  zonesPerRow : Nat
  zonesPerCol : Nat
  zoneCount : Nat
  zonePixelBytes : Nat
deriving DecidableEq, Repr, Inhabited

/-- `ZELFrameZoneStream` of zel_internal.h: the per-decode frame view.
`frameData` is the materialised frame byte slice (for a memory-backed
context, `data + frameOffset` for `frameSize` bytes). -/
structure ZELFrameZoneStream where
  header : ZELFrameHeader
  frameOffset : Nat
  frameSize : Nat
  zoneDataOffset : Nat
  frameDataEnd : Nat
  layout : ZELZoneLayout
  frameData : List Nat
deriving DecidableEq, Repr, Inhabited

/-- `zelComputeZoneLayout` of zel_frame.c (non-null arguments). -/
def zelComputeZoneLayout (ctx : ZELContext) : ZELResult × ZELZoneLayout :=
  if ctx.header.zoneWidth = 0 ∨ ctx.header.zoneHeight = 0 then
    (ZEL_ERR_CORRUPT_DATA, default)
  else if ctx.header.width % ctx.header.zoneWidth ≠ 0
      ∨ ctx.header.height % ctx.header.zoneHeight ≠ 0 then
    (ZEL_ERR_CORRUPT_DATA, default)
  else
    let zonesPerRow := ctx.header.width / ctx.header.zoneWidth
    let zonesPerCol := ctx.header.height / ctx.header.zoneHeight
    let zoneCount := zonesPerRow * zonesPerCol
    if zonesPerRow = 0 ∨ zonesPerCol = 0 ∨ zoneCount = 0 then
      (ZEL_ERR_CORRUPT_DATA, default)
    else if zoneCount > UINT16_MAXN then (ZEL_ERR_UNSUPPORTED_FORMAT, default)
    else
      let zonePixelBytes := ctx.header.zoneWidth * ctx.header.zoneHeight
      if zonePixelBytes = 0 then (ZEL_ERR_CORRUPT_DATA, default)
      else
        (ZEL_OK,
          ⟨ctx.header.zoneWidth, ctx.header.zoneHeight, zonesPerRow, zonesPerCol,
            zoneCount, zonePixelBytes⟩)

/-- The local-palette skip of `zelInitFrameZoneStream` (the body of the
`fh.flags.hasLocalPalette` branch): returns the relative offset just past
the local palette entries. -/
def zelSkipLocalPalette (frameBytes : List Nat) (frameSize relOffset : Nat) :
    ZELResult × Nat :=
  if frameSize - relOffset < 8 then (ZEL_ERR_CORRUPT_DATA, 0)
  else
    let ph := zelParsePaletteHeader frameBytes relOffset
    if ph.headerSize < 8 ∨ ph.entryCount = 0 then (ZEL_ERR_CORRUPT_DATA, 0)
    else if ph.headerSize > frameSize - relOffset then (ZEL_ERR_CORRUPT_DATA, 0)
    else
      let paletteDataRel := relOffset + ph.headerSize
      let paletteBytes := ph.entryCount * 2
      if paletteBytes > frameSize - paletteDataRel then (ZEL_ERR_CORRUPT_DATA, 0)
      else (ZEL_OK, paletteDataRel + paletteBytes)

/-- `zelInitFrameZoneStream` of zel_frame.c (memory-backed context:
`frameBytes` borrows `data + frameOffset`). -/
def zelInitFrameZoneStream (ctx : ZELContext) (frameIndex : Nat) :
    ZELResult × ZELFrameZoneStream :=
  if frameIndex ≥ ctx.header.frameCount then (ZEL_ERR_OUT_OF_BOUNDS, default)
  else
    let fi := ctx.frameIndexTable.getD frameIndex default
    if fi.frameSize = 0 then (ZEL_ERR_CORRUPT_DATA, default)
    else if ¬ (zelRangeFits fi.frameOffset 14 ctx.size
        ∧ zelRangeFits fi.frameOffset fi.frameSize ctx.size) then
      (ZEL_ERR_CORRUPT_DATA, default)
    else
      let frameBytes := (ctx.data.drop fi.frameOffset).take fi.frameSize
      if fi.frameSize < 14 then (ZEL_ERR_CORRUPT_DATA, default)
      else
        let fh := zelParseFrameHeader frameBytes 0
        if fh.headerSize < 14 ∨ fh.headerSize > fi.frameSize then
          (ZEL_ERR_CORRUPT_DATA, default)
        else
          let r1 :=
            if fh.flags.hasLocalPalette then
              zelSkipLocalPalette frameBytes fi.frameSize fh.headerSize
            else (ZEL_OK, fh.headerSize)
          if r1.fst ≠ ZEL_OK then (r1.fst, default)
          else
            let relOffset := r1.snd
            if relOffset > fi.frameSize then (ZEL_ERR_CORRUPT_DATA, default)
            else
              let rl := zelComputeZoneLayout ctx
              if rl.fst ≠ ZEL_OK then (rl.fst, default)
              else
                let layout := rl.snd
                if layout.zoneCount = 0
                    ∨ fh.zoneCount ≠ layout.zoneCount % 65536 then
                  (ZEL_ERR_CORRUPT_DATA, default)
                else
                  (ZEL_OK,
                    ⟨fh, fi.frameOffset, fi.frameSize, fi.frameOffset + relOffset,
                      fi.frameOffset + fi.frameSize, layout, frameBytes⟩)

/-- `zelReadZoneChunkAtCursor` of zel_frame.c.  Returns
`(result, cursor after the call, payload offset relative to frameData,
chunkSize)`; the cursor is advanced past the size word before the
`chunkSize` validation, exactly as in the code, and the last two components
are 0 when the out-parameters are left unwritten. -/
def zelReadZoneChunkAtCursor (s : ZELFrameZoneStream) (cursor : Nat) :
    ZELResult × Nat × Nat × Nat :=
  if cursor < s.frameOffset ∨ cursor > s.frameDataEnd then
    (ZEL_ERR_CORRUPT_DATA, cursor, 0, 0)
  else
    let relOffset := cursor - s.frameOffset
    if s.frameSize - relOffset < 4 then (ZEL_ERR_CORRUPT_DATA, cursor, 0, 0)
    else
      let chunkSize := zelLe32At s.frameData relOffset
      let relOffset2 := relOffset + 4
      let cursor2 := cursor + 4
      if chunkSize = 0 then (ZEL_ERR_CORRUPT_DATA, cursor2, 0, 0)
      else if relOffset2 > s.frameSize ∨ chunkSize > s.frameSize - relOffset2 then
        (ZEL_ERR_CORRUPT_DATA, cursor2, 0, 0)
      else (ZEL_OK, cursor2 + chunkSize, relOffset2, chunkSize)

/-- The loop of `zelLocateZoneChunk`: `steps` further reads after the one at
`cursor`; the value of the last read is returned. -/
def zelLocateZoneChunkAux (s : ZELFrameZoneStream) : Nat → Nat → ZELResult × Nat × Nat × Nat
  | cursor, 0 => zelReadZoneChunkAtCursor s cursor
  | cursor, steps + 1 =>
    let rc := zelReadZoneChunkAtCursor s cursor
    if rc.fst ≠ ZEL_OK then rc
    else zelLocateZoneChunkAux s rc.snd.fst steps

/-- `zelLocateZoneChunk` of zel_frame.c: `targetZone + 1` sequential reads
from `zoneDataOffset`. -/
def zelLocateZoneChunk (s : ZELFrameZoneStream) (targetZone : Nat) :
    ZELResult × Nat × Nat × Nat :=
  zelLocateZoneChunkAux s s.zoneDataOffset targetZone

/-- The LZ4 boundary, as the spec prescribes: an external pure function
taking the compressed bytes and the destination capacity, returning the
decoded bytes or an error (`none` models a negative return of
`LZ4_decompress_safe`). -/
def ZELLz4 : Type := List Nat → Nat → Option (List Nat)

/-- `zelAccessZonePixels` of zel_frame.c (scratch allocation assumed to
succeed, so the null-scratch `ZEL_ERR_INTERNAL` branch is unreachable).
Returns the zone's index raster as a function from pixel offset to byte. -/
def zelAccessZonePixels (s : ZELFrameZoneStream) (lz4 : ZELLz4)
    (payloadRel chunkSize : Nat) : ZELResult × (Nat → Nat) :=
  let zoneBytes := s.layout.zonePixelBytes
  if s.header.compressionType = ZEL_COMPRESSION_NONE then
    if chunkSize ≠ zoneBytes then (ZEL_ERR_CORRUPT_DATA, fun _ => 0)
    else (ZEL_OK, fun k => zelByteAt s.frameData (payloadRel + k))
  else if s.header.compressionType = ZEL_COMPRESSION_LZ4 then
    if zoneBytes > INT32_MAXN then (ZEL_ERR_UNSUPPORTED_FORMAT, fun _ => 0)
    else if chunkSize > INT32_MAXN then (ZEL_ERR_CORRUPT_DATA, fun _ => 0)
    else
      match lz4 ((s.frameData.drop payloadRel).take chunkSize) zoneBytes with
      | none => (ZEL_ERR_CORRUPT_DATA, fun _ => 0)
      | some out =>
        if out.length ≠ zoneBytes then (ZEL_ERR_CORRUPT_DATA, fun _ => 0)
        else (ZEL_OK, fun k => out.getD k 0)
  else (ZEL_ERR_UNSUPPORTED_FORMAT, fun _ => 0)

/-- A destination raster: flat pixel (or byte) offset to stored value.
Whole-frame destinations use `y * stride + x`; zone-sized destinations use
stride `zoneWidth`. -/
abbrev ZELBuf := Nat → Nat

/-- One store into a destination buffer. -/
def zelBufWrite (b : ZELBuf) (i v : Nat) : ZELBuf :=
  fun p => if p = i then v else b p

/-- `zelZoneIndexToCoordinates` of zel_frame.c: `(zoneX, zoneY)`. -/
def zelZoneIndexToCoordinates (layout : ZELZoneLayout) (zoneIndex : Nat) : Nat × Nat :=
  ((zoneIndex % layout.zonesPerRow) * layout.zoneWidth,
    (zoneIndex / layout.zonesPerRow) * layout.zoneHeight)

/-- One row `memcpy` of `zelBlitZoneIndices`: `n` bytes from
`src (srcBase + k)` to destination offset `dstBase + k`. -/
def zelCopyRow (src : ZELBuf) (srcBase : Nat) (dst : ZELBuf) (dstBase : Nat) :
    Nat → ZELBuf
  | 0 => dst
  | n + 1 =>
    zelBufWrite (zelCopyRow src srcBase dst dstBase n) (dstBase + n)
      (src (srcBase + n))

/-- The row loop of `zelBlitZoneIndices` over the first `n` rows. -/
def zelBlitRowsIndices (layout : ZELZoneLayout) (zoneX zoneY : Nat)
    (zonePixels : ZELBuf) (dst : ZELBuf) (stride : Nat) : Nat → ZELBuf
  | 0 => dst
  | r + 1 =>
    zelCopyRow zonePixels (r * layout.zoneWidth)
      (zelBlitRowsIndices layout zoneX zoneY zonePixels dst stride r)
      ((zoneY + r) * stride + zoneX) layout.zoneWidth

/-- `zelBlitZoneIndices` of zel_frame.c. -/
def zelBlitZoneIndices (layout : ZELZoneLayout) (zoneIndex : Nat)
    (zonePixels : ZELBuf) (dst : ZELBuf) (dstStrideBytes : Nat) : ZELBuf :=
  let c := zelZoneIndexToCoordinates layout zoneIndex
  zelBlitRowsIndices layout c.fst c.snd zonePixels dst dstStrideBytes
    layout.zoneHeight

/-- The column loop of one `zelBlitZoneRgb` row, starting at column `col`
with `n` columns left: validates each index against `paletteCount` and
stops, leaving the destination partially written, at the first failure. -/
def zelBlitRowRgb (src : ZELBuf) (srcBase : Nat) (palette : List Nat)
    (paletteCount : Nat) (dst : ZELBuf) (dstBase : Nat) :
    Nat → Nat → ZELResult × ZELBuf
  | _, 0 => (ZEL_OK, dst)
  | col, n + 1 =>
    let idx := src (srcBase + col)
    if idx ≥ paletteCount then (ZEL_ERR_CORRUPT_DATA, dst)
    else
      zelBlitRowRgb src srcBase palette paletteCount
        (zelBufWrite dst (dstBase + col) (palette.getD idx 0)) dstBase (col + 1) n

/-- The row loop of `zelBlitZoneRgb`, starting at row `row` with `n` rows
left. -/
def zelBlitRowsRgb (layout : ZELZoneLayout) (zoneX zoneY : Nat)
    (zonePixels : ZELBuf) (palette : List Nat) (paletteCount : Nat)
    (dst : ZELBuf) (stride : Nat) : Nat → Nat → ZELResult × ZELBuf
  | _, 0 => (ZEL_OK, dst)
  | row, n + 1 =>
    let rr := zelBlitRowRgb zonePixels (row * layout.zoneWidth) palette
      paletteCount dst ((zoneY + row) * stride + zoneX) 0 layout.zoneWidth
    if rr.fst ≠ ZEL_OK then rr
    else
      zelBlitRowsRgb layout zoneX zoneY zonePixels palette paletteCount rr.snd
        stride (row + 1) n

/-- `zelBlitZoneRgb` of zel_frame.c: maps each zone index through the
palette; the destination may be partially written when an out-of-range
index is hit. -/
def zelBlitZoneRgb (layout : ZELZoneLayout) (zoneIndex : Nat)
    (zonePixels : ZELBuf) (palette : List Nat) (paletteCount : Nat)
    (dst : ZELBuf) (dstStridePixels : Nat) : ZELResult × ZELBuf :=
  let c := zelZoneIndexToCoordinates layout zoneIndex
  zelBlitRowsRgb layout c.fst c.snd zonePixels palette paletteCount dst
    dstStridePixels 0 layout.zoneHeight

/-- The zone loop of `zelDecodeFrameIndex8`: current zone index, cursor,
destination so far, and remaining zone count; returns the result, the
destination after the call, and the final cursor. -/
def zelDecodeIndex8Loop (s : ZELFrameZoneStream) (lz4 : ZELLz4) (stride : Nat) :
    Nat → Nat → ZELBuf → Nat → ZELResult × ZELBuf × Nat
  | _, cursor, dst, 0 => (ZEL_OK, dst, cursor)
  | zoneIndex, cursor, dst, r + 1 =>
    let rc := zelReadZoneChunkAtCursor s cursor
    if rc.fst ≠ ZEL_OK then (rc.fst, dst, rc.snd.fst)
    else
      let ra := zelAccessZonePixels s lz4 rc.snd.snd.fst rc.snd.snd.snd
      if ra.fst ≠ ZEL_OK then (ra.fst, dst, rc.snd.fst)
      else
        zelDecodeIndex8Loop s lz4 stride (zoneIndex + 1) rc.snd.fst
          (zelBlitZoneIndices s.layout zoneIndex ra.snd dst stride) r

/-- `zelDecodeFrameIndex8` of zel_frame.c (non-null arguments); returns the
result and the destination after the call. -/
def zelDecodeFrameIndex8 (ctx : ZELContext) (frameIndex : Nat) (lz4 : ZELLz4)
    (dst : ZELBuf) (dstStrideBytes : Nat) : ZELResult × ZELBuf :=
  if frameIndex ≥ ctx.header.frameCount then (ZEL_ERR_OUT_OF_BOUNDS, dst)
  else if ctx.header.colorFormat ≠ ZEL_COLOR_FORMAT_INDEXED8 then
    (ZEL_ERR_UNSUPPORTED_FORMAT, dst)
  else if dstStrideBytes < ctx.header.width then (ZEL_ERR_INVALID_ARGUMENT, dst)
  else
    let ri := zelInitFrameZoneStream ctx frameIndex
    if ri.fst ≠ ZEL_OK then (ri.fst, dst)
    else
      let s := ri.snd
      let rl := zelDecodeIndex8Loop s lz4 dstStrideBytes 0 s.zoneDataOffset dst
        s.layout.zoneCount
      if rl.fst ≠ ZEL_OK then (rl.fst, rl.snd.fst)
      else if rl.snd.snd ≠ s.frameDataEnd then (ZEL_ERR_CORRUPT_DATA, rl.snd.fst)
      else (ZEL_OK, rl.snd.fst)

/-- `zelDecodeFrameIndex8Zone` of zel_frame.c (non-null arguments): the
zone-sized destination is written with stride `zoneWidth` at offset (0,0). -/
def zelDecodeFrameIndex8Zone (ctx : ZELContext) (frameIndex zoneIndex : Nat)
    (lz4 : ZELLz4) (dst : ZELBuf) : ZELResult × ZELBuf :=
  if ctx.header.colorFormat ≠ ZEL_COLOR_FORMAT_INDEXED8 then
    (ZEL_ERR_UNSUPPORTED_FORMAT, dst)
  else
    let ri := zelInitFrameZoneStream ctx frameIndex
    if ri.fst ≠ ZEL_OK then (ri.fst, dst)
    else
      let s := ri.snd
      if zoneIndex ≥ s.layout.zoneCount then (ZEL_ERR_OUT_OF_BOUNDS, dst)
      else
        let rc := zelLocateZoneChunk s zoneIndex
        if rc.fst ≠ ZEL_OK then (rc.fst, dst)
        else
          let ra := zelAccessZonePixels s lz4 rc.snd.snd.fst rc.snd.snd.snd
          if ra.fst ≠ ZEL_OK then (ra.fst, dst)
          else (ZEL_OK, zelBlitZoneIndices s.layout 0 ra.snd dst s.layout.zoneWidth)

/-- The zone loop of `zelDecodeFrameRgb565`. -/
def zelDecodeRgbLoop (s : ZELFrameZoneStream) (lz4 : ZELLz4) (palette : List Nat)
    (paletteCount : Nat) (stride : Nat) :
    Nat → Nat → ZELBuf → Nat → ZELResult × ZELBuf × Nat
  | _, cursor, dst, 0 => (ZEL_OK, dst, cursor)
  | zoneIndex, cursor, dst, r + 1 =>
    let rc := zelReadZoneChunkAtCursor s cursor
    if rc.fst ≠ ZEL_OK then (rc.fst, dst, rc.snd.fst)
    else
      let ra := zelAccessZonePixels s lz4 rc.snd.snd.fst rc.snd.snd.snd
      if ra.fst ≠ ZEL_OK then (ra.fst, dst, rc.snd.fst)
      else
        let rb := zelBlitZoneRgb s.layout zoneIndex ra.snd palette paletteCount
          dst stride
        if rb.fst ≠ ZEL_OK then (rb.fst, rb.snd, rc.snd.fst)
        else zelDecodeRgbLoop s lz4 palette paletteCount stride (zoneIndex + 1)
          rc.snd.fst rb.snd r

/-- `zelDecodeFrameRgb565` of zel_frame.c (non-null arguments). -/
def zelDecodeFrameRgb565 (ctx : ZELContext) (frameIndex : Nat) (lz4 : ZELLz4)
    (dst : ZELBuf) (dstStridePixels : Nat) : ZELResult × ZELBuf :=
  if ctx.header.colorFormat ≠ ZEL_COLOR_FORMAT_INDEXED8 then
    (ZEL_ERR_UNSUPPORTED_FORMAT, dst)
  else if dstStridePixels < ctx.header.width then (ZEL_ERR_INVALID_ARGUMENT, dst)
  else
    let rp := zelGetFramePalette ctx frameIndex
    if rp.fst ≠ ZEL_OK then (rp.fst, dst)
    else
      let ctx1 := rp.snd.fst
      let pal := rp.snd.snd
      let ri := zelInitFrameZoneStream ctx1 frameIndex
      if ri.fst ≠ ZEL_OK then (ri.fst, dst)
      else
        let s := ri.snd
        let rl := zelDecodeRgbLoop s lz4 pal.entries pal.count dstStridePixels 0
          s.zoneDataOffset dst s.layout.zoneCount
        if rl.fst ≠ ZEL_OK then (rl.fst, rl.snd.fst)
        else if rl.snd.snd ≠ s.frameDataEnd then (ZEL_ERR_CORRUPT_DATA, rl.snd.fst)
        else (ZEL_OK, rl.snd.fst)

/-- `zelDecodeFrameRgb565Zone` of zel_frame.c (non-null arguments). -/
def zelDecodeFrameRgb565Zone (ctx : ZELContext) (frameIndex zoneIndex : Nat)
    (lz4 : ZELLz4) (dst : ZELBuf) : ZELResult × ZELBuf :=
  if ctx.header.colorFormat ≠ ZEL_COLOR_FORMAT_INDEXED8 then
    (ZEL_ERR_UNSUPPORTED_FORMAT, dst)
  else
    let rp := zelGetFramePalette ctx frameIndex
    if rp.fst ≠ ZEL_OK then (rp.fst, dst)
    else
      let ctx1 := rp.snd.fst
      let pal := rp.snd.snd
      let ri := zelInitFrameZoneStream ctx1 frameIndex
      if ri.fst ≠ ZEL_OK then (ri.fst, dst)
      else
        let s := ri.snd
        if zoneIndex ≥ s.layout.zoneCount then (ZEL_ERR_OUT_OF_BOUNDS, dst)
        else
          let rc := zelLocateZoneChunk s zoneIndex
          if rc.fst ≠ ZEL_OK then (rc.fst, dst)
          else
            let ra := zelAccessZonePixels s lz4 rc.snd.snd.fst rc.snd.snd.snd
            if ra.fst ≠ ZEL_OK then (ra.fst, dst)
            else
              let rb := zelBlitZoneRgb s.layout 0 ra.snd pal.entries pal.count
                dst s.layout.zoneWidth
              (rb.fst, rb.snd)

/-- `zelValidateHeader` of zel_context.c ("ZEL0" is bytes 90,69,76,48). -/
def zelValidateHeader (h : ZELFileHeader) : Bool :=
  if h.magic ≠ [90, 69, 76, 48] then false
  else if h.version ≠ 1 then false
  else if h.width = 0 ∨ h.height = 0 then false
  else if h.zoneWidth = 0 ∨ h.zoneHeight = 0 then false
  else if h.width % h.zoneWidth ≠ 0 ∨ h.height % h.zoneHeight ≠ 0 then false
  else
    let zonesPerRow := h.width / h.zoneWidth
    let zonesPerCol := h.height / h.zoneHeight
    let zoneCount := zonesPerRow * zonesPerCol
    if zonesPerRow = 0 ∨ zonesPerCol = 0 ∨ zoneCount = 0 then false
    else if zoneCount > UINT16_MAXN then false
    else if h.colorFormat ≠ ZEL_COLOR_FORMAT_INDEXED8 then false
    else true

/-- The global-palette branch of `zelInitializeContext`: returns the
palette entries, count, encoding, and the offset just past the entries. -/
def zelInitGlobalPalette (data : List Nat) (offset : Nat) :
    ZELResult × (List Nat × Nat × Nat × Nat) :=
  if ¬ zelRangeFits offset 8 data.length then (ZEL_ERR_CORRUPT_DATA, ([], 0, 0, 0))
  else
    let ph := zelParsePaletteHeader data offset
    if ¬ zelIsValidColorEncoding ph.colorEncoding then
      (ZEL_ERR_UNSUPPORTED_FORMAT, ([], 0, 0, 0))
    else if ph.entryCount = 0 then (ZEL_ERR_CORRUPT_DATA, ([], 0, 0, 0))
    else
      let paletteDataOffset := offset + ph.headerSize
      let paletteBytes := ph.entryCount * 2
      if ph.headerSize < 8 then (ZEL_ERR_CORRUPT_DATA, ([], 0, 0, 0))
      else if ¬ zelRangeFits paletteDataOffset paletteBytes data.length then
        (ZEL_ERR_CORRUPT_DATA, ([], 0, 0, 0))
      else
        (ZEL_OK,
          (zelU16ListAt data paletteDataOffset ph.entryCount, ph.entryCount,
            ph.colorEncoding, paletteDataOffset + paletteBytes))

/-- `zelInitializeContext` of zel_context.c for a memory-backed source
(`zelReadAt` is a bounds-checked `memcpy`; the packed file header is 34
bytes).  Produces the fully initialised context on success. -/
def zelInitializeContext (data : List Nat) : ZELResult × Option ZELContext :=
  if data.length < 34 then (ZEL_ERR_INVALID_ARGUMENT, none)
  else
    let h := zelParseFileHeader data 0
    if ¬ zelValidateHeader h then (ZEL_ERR_INVALID_MAGIC, none)
    else if h.headerSize > data.length then (ZEL_ERR_CORRUPT_DATA, none)
    else if h.headerSize > data.length then (ZEL_ERR_CORRUPT_DATA, none)
    else
      let rp :=
        if h.flags.hasGlobalPalette then
          match zelInitGlobalPalette data h.headerSize with
          | (ZEL_OK, (entries, count, enc, offset2)) =>
            (ZEL_OK, (some entries, count, enc, offset2))
          | (e, _) => (e, (none, 0, 0, 0))
        else (ZEL_OK, ((none : Option (List Nat)), 0, ZEL_COLOR_RGB565_LE,
          h.headerSize))
      match rp with
      | (e, _) =>
        if e ≠ ZEL_OK then (e, none)
        else
          let raw := rp.snd.fst
          let count := rp.snd.snd.fst
          let enc := rp.snd.snd.snd.fst
          let offset2 := rp.snd.snd.snd.snd
          if ¬ h.flags.hasFrameIndexTable then (ZEL_ERR_UNSUPPORTED_FORMAT, none)
          else if ¬ zelRangeFits offset2 (h.frameCount * 11) data.length then
            (ZEL_ERR_CORRUPT_DATA, none)
          else
            (ZEL_OK, some
              { data := data
                header := h
                frameIndexTable :=
                  (List.range h.frameCount).map
                    (fun i => zelParseFrameIndexEntry data (offset2 + 11 * i))
                globalPaletteRaw := raw
                globalPaletteCount := count
                globalPaletteEncoding := enc
                globalPaletteConverted := []
                globalPaletteConvertedEncoding := 255
                hasCustomOutputEncoding := false
                outputColorEncoding := ZEL_COLOR_RGB565_LE })

/-- `zelOpenMemory` of zel_context.c over a non-null memory buffer. -/
def zelOpenMemory (data : List Nat) : ZELResult × Option ZELContext :=
  if data.length < 34 then (ZEL_ERR_INVALID_ARGUMENT, none)
  else zelInitializeContext data

/-- Stated from the claim: the flat destination offset of pixel
`(row, col)` of zone `zoneIndex`, placed at
`(zoneX, zoneY) = ((zoneIndex mod zonesPerRow) * zoneW,
(zoneIndex div zonesPerRow) * zoneH)` in a buffer of the given stride. -/
def zelZonePos (layout : ZELZoneLayout) (stride zoneIndex row col : Nat) : Nat :=
  (zoneIndex / layout.zonesPerRow * layout.zoneHeight + row) * stride
    + (zoneIndex % layout.zonesPerRow * layout.zoneWidth + col)

/-- Stated from the claim: row-by-row copy of a zone-sized buffer into a
whole-frame buffer, rows `0..n-1`. -/
def zelSpecCopyRows (zoneBuf dst : ZELBuf) (zoneX zoneY zoneW stride : Nat) :
    Nat → ZELBuf
  | 0 => dst
  | r + 1 =>
    zelCopyRow zoneBuf (r * zoneW)
      (zelSpecCopyRows zoneBuf dst zoneX zoneY zoneW stride r)
      ((zoneY + r) * stride + zoneX) zoneW

/-- Stated from the claim: copy a zone-sized buffer into a whole-frame
buffer at offset `(zoneX_z, zoneY_z)`. -/
def zelSpecCopyZone (layout : ZELZoneLayout) (zoneIndex : Nat)
    (zoneBuf dst : ZELBuf) (stride : Nat) : ZELBuf :=
  zelSpecCopyRows zoneBuf dst (zoneIndex % layout.zonesPerRow * layout.zoneWidth)
    (zoneIndex / layout.zonesPerRow * layout.zoneHeight) layout.zoneWidth stride
    layout.zoneHeight

/-- Stated from the claim: copy the zone buffers of consecutive zones
`z, z+1, ...` into the frame buffer. -/
def zelSpecAssembleAux (layout : ZELZoneLayout) (stride : Nat) :
    List ZELBuf → ZELBuf → Nat → ZELBuf
  | [], dst, _ => dst
  | B :: rest, dst, z =>
    zelSpecAssembleAux layout stride rest (zelSpecCopyZone layout z B dst stride)
      (z + 1)

/-- Stated from the claim: assemble the whole-frame buffer from the
per-zone buffers, zone `z` placed at `(zoneX_z, zoneY_z)`. -/
def zelSpecAssembleAll (layout : ZELZoneLayout) (stride : Nat) (buf0 : ZELBuf)
    (Bs : List ZELBuf) : ZELBuf :=
  zelSpecAssembleAux layout stride Bs buf0 0

/-- The per-zone result buffers of `zelDecodeFrameIndex8Zone` for zones
`0..n-1`, each decoded into the same fresh zone-sized buffer. -/
def zelZoneDecodeListIndex8 (ctx : ZELContext) (frameIndex : Nat) (lz4 : ZELLz4)
    (zbuf0 : ZELBuf) : Nat → List ZELBuf
  | 0 => []
  | n + 1 =>
    zelZoneDecodeListIndex8 ctx frameIndex lz4 zbuf0 n
      ++ [(zelDecodeFrameIndex8Zone ctx frameIndex n lz4 zbuf0).snd]

/-- The per-zone result buffers of `zelDecodeFrameRgb565Zone` for zones
`0..n-1`. -/
def zelZoneDecodeListRgb (ctx : ZELContext) (frameIndex : Nat) (lz4 : ZELLz4)
    (zbuf0 : ZELBuf) : Nat → List ZELBuf
  | 0 => []
  | n + 1 =>
    zelZoneDecodeListRgb ctx frameIndex lz4 zbuf0 n
      ++ [(zelDecodeFrameRgb565Zone ctx frameIndex n lz4 zbuf0).snd]

/-- The geometric facts about a zone layout and a destination stride that
make the zone grid positions injective; they hold for every layout produced
by `zelComputeZoneLayout` with any stride of at least the image width. -/
structure zelLayoutGeom (layout : ZELZoneLayout) (stride : Nat) : Prop where
  zw_pos : 0 < layout.zoneWidth
  zh_pos : 0 < layout.zoneHeight
  zpr_pos : 0 < layout.zonesPerRow
  count_eq : layout.zoneCount = layout.zonesPerRow * layout.zonesPerCol
  row_fit : layout.zonesPerRow * layout.zoneWidth ≤ stride
  bytes_eq : layout.zonePixelBytes = layout.zoneWidth * layout.zoneHeight

/-- An LZ4 oracle that always fails; decodes of uncompressed data never
consult it. -/
def zelLz4None : ZELLz4 := fun _ _ => none

/-- A frame-index entry of the timeline test context. -/
def zelTimelineEntry (dur : Nat) : ZELFrameIndexEntry :=
  ⟨0, 0, ⟨false, false, false, 0⟩, dur⟩

/-- Concrete context of spec scenario S5: three frames with durations
10, 20 and 30 ms. -/
def zelCtxTimeline : ZELContext :=
  { data := []
    header :=
      { magic := [90, 69, 76, 48], version := 1, headerSize := 34, width := 4,
        height := 2, zoneWidth := 4, zoneHeight := 2, colorFormat := 0,
        flags := ⟨false, false, true, 0⟩, frameCount := 3,
        defaultFrameDuration := 16 }
    frameIndexTable := [zelTimelineEntry 10, zelTimelineEntry 20, zelTimelineEntry 30]
    globalPaletteRaw := none
    globalPaletteCount := 0
    globalPaletteEncoding := 0
    globalPaletteConverted := []
    globalPaletteConvertedEncoding := 255
    hasCustomOutputEncoding := false
    outputColorEncoding := 0 }

/-- Concrete frame block of the multi-zone test context: a 14-byte frame
header (4 zones, no compression) followed by four 2-byte zone chunks
carrying the pixel pattern `0,1,0,1 / 1,0,1,0`. -/
def zelFrameBytesTiny : List Nat :=
  [0, 14, 0, 4, 0, 0, 0, 0, 0, 0, 0, 0, 0, 0] ++
  [2, 0, 0, 0, 0, 1] ++ [2, 0, 0, 0, 0, 1] ++
  [2, 0, 0, 0, 1, 0] ++ [2, 0, 0, 0, 1, 0]

/-- Concrete context of spec scenarios S3/S4: 4 by 2 pixels, 2 by 1 zones
(so four zones), one uncompressed frame, global palette
`{0x00F8, 0x1234}` declared little-endian. -/
def zelCtxTiny : ZELContext :=
  { data := zelFrameBytesTiny
    header :=
      { magic := [90, 69, 76, 48], version := 1, headerSize := 34, width := 4,
        height := 2, zoneWidth := 2, zoneHeight := 1, colorFormat := 0,
        flags := ⟨true, false, true, 0⟩, frameCount := 1,
        defaultFrameDuration := 16 }
    frameIndexTable := [⟨0, 38, ⟨true, false, false, 0⟩, 16⟩]
    globalPaletteRaw := some [248, 4660]
    globalPaletteCount := 2
    globalPaletteEncoding := 0
    globalPaletteConverted := []
    globalPaletteConvertedEncoding := 255
    hasCustomOutputEncoding := false
    outputColorEncoding := 0 }

/-- The frame-zone stream `zelInitFrameZoneStream` builds for the one frame
of `zelCtxTiny`. -/
def zelStreamTiny : ZELFrameZoneStream := (zelInitFrameZoneStream zelCtxTiny 0).snd

/-- A context with no override recorded and a valid converted-palette
marker, used to exhibit the effect of `zelSetOutputColorEncoding` on
encoding values outside 0..255. -/
def zelCtxC10 : ZELContext :=
  { data := []
    header :=
      { magic := [90, 69, 76, 48], version := 1, headerSize := 34, width := 4,
        height := 2, zoneWidth := 4, zoneHeight := 2, colorFormat := 0,
        flags := ⟨true, false, true, 0⟩, frameCount := 0,
        defaultFrameDuration := 16 }
    frameIndexTable := []
    globalPaletteRaw := some [248, 4660]
    globalPaletteCount := 2
    globalPaletteEncoding := 1
    globalPaletteConverted := [63488, 13330]
    globalPaletteConvertedEncoding := 0
    hasCustomOutputEncoding := false
    outputColorEncoding := 0 }

/-- A 34-byte file image whose header is valid in every respect except
`colorFormat = 1`: magic "ZEL0", version 1, 4 by 2 pixels, 4 by 2 zones,
frame-index flag set, zero frames. -/
def zelC5Data : List Nat :=
  [90, 69, 76, 48] ++ [1, 0] ++ [34, 0] ++ [4, 0] ++ [2, 0] ++ [4, 0] ++ [2, 0] ++
  [1] ++ [4] ++ [0, 0, 0, 0] ++ [16, 0] ++ [0, 0, 0, 0, 0, 0, 0, 0, 0, 0]

/-- An LZ4 frame-zone stream whose zone pixel count exceeds INT32_MAX. -/
def zelStreamBig : ZELFrameZoneStream :=
  { header := ⟨0, 14, ⟨false, false, false, 0⟩, 1, ZEL_COMPRESSION_LZ4, 0, 0⟩
    frameOffset := 0, frameSize := 26, zoneDataOffset := 14, frameDataEnd := 26
    layout := ⟨1, 1, 1, 1, 1, 2147483648⟩, frameData := [] }

/-- An LZ4 frame-zone stream with a small zone, used with a chunk size
above INT32_MAX. -/
def zelStreamChunkBig : ZELFrameZoneStream :=
  { header := ⟨0, 14, ⟨false, false, false, 0⟩, 1, ZEL_COMPRESSION_LZ4, 0, 0⟩
    frameOffset := 0, frameSize := 26, zoneDataOffset := 14, frameDataEnd := 26
    layout := ⟨1, 1, 1, 1, 1, 4⟩, frameData := [] }

theorem zelGetFrameDurationMs_lt (ctx : ZELContext) (i : Nat)
    (h : i < ctx.header.frameCount) :
    zelGetFrameDurationMs ctx i = (ZEL_OK, zelEffectiveDuration ctx i) := by
  unfold zelGetFrameDurationMs zelEffectiveDuration
  rw [if_neg (by omega)]
  by_cases hd : (ctx.frameIndexTable.getD i default).frameDuration = 0 <;>
    simp only [hd, if_pos, if_neg, ite_true, ite_false, ne_eq, not_true_eq_false,
      not_false_eq_true]

theorem zelTotalAux_ok (ctx : ZELContext) (r : Nat) :
    ∀ i total, i + r ≤ ctx.header.frameCount → total < U32MOD →
      zelTotalAux ctx i total r
        = (ZEL_OK,
            (total + ((List.range' i r).map (zelEffectiveDuration ctx)).sum) % U32MOD) := by
  induction r with
  | zero =>
    intro i total _ hlt
    simp [zelTotalAux, Nat.mod_eq_of_lt hlt]
  | succ r ih =>
    intro i total hle hlt
    have hd := zelGetFrameDurationMs_lt ctx i (by omega)
    have hstep : zelTotalAux ctx i total (r + 1)
        = zelTotalAux ctx (i + 1)
            ((total + zelEffectiveDuration ctx i) % U32MOD) r := by
      simp [zelTotalAux, hd]
    rw [hstep, ih (i + 1) _ (by omega) (Nat.mod_lt _ (by norm_num [U32MOD]))]
    rw [List.range'_succ]
    simp [Nat.mod_add_mod, Nat.add_assoc]

theorem zelFindAux_bracket (ctx : ZELContext) (t total : Nat) (r : Nat) :
    ∀ i accum, i + r ≤ ctx.header.frameCount → accum ≤ t → accum < U32MOD →
      t < (accum + ((List.range' i r).map (zelEffectiveDuration ctx)).sum) % U32MOD →
      ∃ j start, zelFindAux ctx t total i accum r = (ZEL_OK, j, start) ∧
        start ≤ t ∧ t < start + zelEffectiveDuration ctx j := by
  induction r with
  | zero =>
    intro i accum _ hle hlt hbound
    exfalso
    simp [Nat.mod_eq_of_lt hlt] at hbound
    omega
  | succ r ih =>
    intro i accum hle haccum hlt hbound
    have hd := zelGetFrameDurationMs_lt ctx i (by omega)
    by_cases hnext : t < (accum + zelEffectiveDuration ctx i) % U32MOD
    · refine ⟨i, accum, ?_, haccum, ?_⟩
      · simp [zelFindAux, hd, hnext]
      · exact lt_of_lt_of_le hnext (Nat.mod_le _ _)
    · have hstep : zelFindAux ctx t total i accum (r + 1)
          = zelFindAux ctx t total (i + 1)
              ((accum + zelEffectiveDuration ctx i) % U32MOD) r := by
        simp [zelFindAux, hd, hnext]
      rw [hstep]
      refine ih (i + 1) _ (by omega) (by omega) (Nat.mod_lt _ (by norm_num [U32MOD])) ?_
      rw [List.range'_succ] at hbound
      simp only [List.map_cons, List.sum_cons] at hbound
      rw [Nat.mod_add_mod, Nat.add_assoc]
      exact hbound

/-- C8: for every context, `zelGetTotalDurationMs` returns `ZEL_OK` together
with the sum, accumulated in `uint32_t`, over all frames of the per-frame
duration, where each frame contributes its frame-index entry duration when
non-zero and the file default otherwise. -/
theorem zelGetTotalDurationMs_spec (ctx : ZELContext) :
    zelGetTotalDurationMs ctx = (ZEL_OK, zelSpecTotalDuration ctx) := by
  unfold zelGetTotalDurationMs zelSpecTotalDuration
  rw [zelTotalAux_ok ctx ctx.header.frameCount 0 0 (by omega) (by norm_num [U32MOD])]
  rw [List.range_eq_range']
  simp

/-- C9: `zelRangeFits offset length limit` is true exactly when
`offset + length ≤ limit` holds in unbounded integer arithmetic; the
definition mirrors the code, whose subtraction `limit - length` is guarded
by `length ≤ limit` and therefore never wraps. -/
theorem zelRangeFits_iff (offset length limit : Nat) :
    zelRangeFits offset length limit = true ↔ offset + length ≤ limit := by
  unfold zelRangeFits
  split <;> simp <;> omega

/-- C1: when the total duration is 0 (still reported with `ZEL_OK` by
`zelGetTotalDurationMs`, per the hypothesis), `zelFindFrameByTimeMs` fails
with `ZEL_ERR_CORRUPT_DATA`; when it is positive, the lookup succeeds with a
pair `(i, start)` bracketing `t mod totalDuration` within frame `i`, and
adding any multiple of the total duration to the time yields the same
pair. -/
theorem zelFindFrameByTimeMs_spec (ctx : ZELContext) (total t k : Nat)
    (htot : zelGetTotalDurationMs ctx = (ZEL_OK, total)) :
    (total = 0 → zelFindFrameByTimeMs ctx t = (ZEL_ERR_CORRUPT_DATA, 0, 0)) ∧
    (0 < total → ∃ i start,
      zelFindFrameByTimeMs ctx t = (ZEL_OK, i, start) ∧
      start ≤ t % total ∧ t % total < start + zelEffectiveDuration ctx i ∧
      zelFindFrameByTimeMs ctx (t + k * total) = (ZEL_OK, i, start)) := by
  constructor
  · intro h0
    simp [zelFindFrameByTimeMs, htot, h0]
  · intro hpos
    have hS : total
        = ((List.range' 0 ctx.header.frameCount).map (zelEffectiveDuration ctx)).sum
            % U32MOD := by
      have h1 := zelTotalAux_ok ctx ctx.header.frameCount 0 0 (by omega)
        (by norm_num [U32MOD])
      rw [zelGetTotalDurationMs, h1] at htot
      simpa using (congrArg Prod.snd htot).symm
    have hbound : t % total
        < (0 + ((List.range' 0 ctx.header.frameCount).map
            (zelEffectiveDuration ctx)).sum) % U32MOD := by
      rw [Nat.zero_add, ← hS]
      exact Nat.mod_lt t hpos
    obtain ⟨j, start, hfind, h1, h2⟩ :=
      zelFindAux_bracket ctx (t % total) total ctx.header.frameCount 0 0
        (by omega) (Nat.zero_le _) (by norm_num [U32MOD]) hbound
    refine ⟨j, start, ?_, h1, h2, ?_⟩
    · simp [zelFindFrameByTimeMs, htot, Nat.pos_iff_ne_zero.mp hpos, hfind]
    · simp only [zelFindFrameByTimeMs, htot]
      rw [Nat.add_mul_mod_self_right]
      simp [Nat.pos_iff_ne_zero.mp hpos, hfind]

/-- C1 witness: the S5 timeline (durations 10, 20, 30; total 60) at time 10
and period count 1, instantiating `zelFindFrameByTimeMs_spec`. -/
theorem zelFindFrameByTimeMs_spec_witness :
    zelGetTotalDurationMs zelCtxTimeline = (ZEL_OK, 60) ∧
    zelFindFrameByTimeMs zelCtxTimeline 10 = (ZEL_OK, 1, 10) ∧
    zelFindFrameByTimeMs zelCtxTimeline 70 = (ZEL_OK, 1, 10) := by
  obtain ⟨i, start, h1, -, -, h4⟩ :=
    (zelFindFrameByTimeMs_spec zelCtxTimeline 60 10 1 (by decide)).2 (by decide)
  have e : zelFindFrameByTimeMs zelCtxTimeline 10 = (ZEL_OK, 1, 10) := by decide
  have hx := h1.symm.trans e
  simp only [Prod.mk.injEq, true_and] at hx
  obtain ⟨hi, hs⟩ := hx
  subst hi; subst hs
  have h70 : (10 : Nat) + 1 * 60 = 70 := by norm_num
  rw [h70] at h4
  exact ⟨by decide, e, h4⟩

/-- C10 counterexample: the encoding value 256 is neither
`ZEL_COLOR_RGB565_LE` (0) nor `ZEL_COLOR_RGB565_BE` (1), yet
`zelSetOutputColorEncoding` does not leave the context unchanged: the
`(uint8_t)` cast inside `zelIsValidColorEncoding` wraps 256 to 0, so the
call records an override and invalidates the converted-palette marker. -/
theorem zelSetOutputColorEncoding_invalid_counterexample :
    (256 : Nat) ≠ ZEL_COLOR_RGB565_LE ∧ (256 : Nat) ≠ ZEL_COLOR_RGB565_BE ∧
    zelSetOutputColorEncoding zelCtxC10 256 ≠ zelCtxC10 ∧
    (zelSetOutputColorEncoding zelCtxC10 256).hasCustomOutputEncoding = true ∧
    (zelSetOutputColorEncoding zelCtxC10 256).globalPaletteConvertedEncoding = 255 := by
  decide

/-- C10 amended: calling `zelSetOutputColorEncoding` with any encoding value
whose `uint8_t` cast (value mod 256) is neither `ZEL_COLOR_RGB565_LE` (0)
nor `ZEL_COLOR_RGB565_BE` (1) leaves the entire context unchanged: no
override is recorded, the current output encoding is unmodified, and the
cached converted-palette marker is not invalidated.  (A value such as 256
whose low byte is 0 or 1 is instead accepted as valid.) -/
theorem zelSetOutputColorEncoding_invalid_noop (ctx : ZELContext) (encoding : Nat)
    (h0 : encoding % 256 ≠ ZEL_COLOR_RGB565_LE)
    (h1 : encoding % 256 ≠ ZEL_COLOR_RGB565_BE) :
    zelSetOutputColorEncoding ctx encoding = ctx := by
  have hv : zelIsValidColorEncoding (encoding % 256) = false := by
    unfold zelIsValidColorEncoding
    simp [h0, h1]
  unfold zelSetOutputColorEncoding
  simp [hv]

/-- C10 witness: encoding 2 at a concrete context, instantiating
`zelSetOutputColorEncoding_invalid_noop`. -/
theorem zelSetOutputColorEncoding_invalid_noop_witness :
    (2 : Nat) % 256 ≠ ZEL_COLOR_RGB565_LE ∧ (2 : Nat) % 256 ≠ ZEL_COLOR_RGB565_BE ∧
    zelSetOutputColorEncoding zelCtxC10 2 = zelCtxC10 :=
  ⟨by decide, by decide,
    zelSetOutputColorEncoding_invalid_noop zelCtxC10 2 (by decide) (by decide)⟩

theorem zelValidateHeader_nonIndexed8 (h : ZELFileHeader)
    (hcf : h.colorFormat ≠ ZEL_COLOR_FORMAT_INDEXED8) :
    zelValidateHeader h = false := by
  unfold zelValidateHeader
  split_ifs with h1 h2 h3 h4 h5
  any_goals rfl
  dsimp only
  split_ifs with h6 h7
  any_goals rfl

/-- C5 counterexample: a 34-byte input whose header has correct magic,
version 1, valid non-zero dimensions, zone divisibility and zone count, but
`colorFormat = 1`: `zelOpenMemory` fails with `ZEL_ERR_INVALID_MAGIC`, not
`ZEL_ERR_UNSUPPORTED_FORMAT`. -/
theorem zelOpenMemory_nonIndexed8_counterexample :
    (zelParseFileHeader zelC5Data 0).magic = [90, 69, 76, 48] ∧
    (zelParseFileHeader zelC5Data 0).version = 1 ∧
    (zelParseFileHeader zelC5Data 0).width = 4 ∧
    (zelParseFileHeader zelC5Data 0).height = 2 ∧
    (zelParseFileHeader zelC5Data 0).zoneWidth = 4 ∧
    (zelParseFileHeader zelC5Data 0).zoneHeight = 2 ∧
    (zelParseFileHeader zelC5Data 0).colorFormat = 1 ∧
    zelOpenMemory zelC5Data = (ZEL_ERR_INVALID_MAGIC, none) ∧
    ZEL_ERR_INVALID_MAGIC ≠ ZEL_ERR_UNSUPPORTED_FORMAT := by
  decide

/-- C5 amended: for every input whose file header has correct magic,
version 1, valid non-zero dimensions and zone divisibility, but
`colorFormat ≠ 0` (Indexed8), `zelOpenMemory` fails with
`ZEL_ERR_INVALID_MAGIC` — the blanket code `zelInitializeContext` assigns to
every `zelValidateHeader` failure — not with `ZEL_ERR_UNSUPPORTED_FORMAT`. -/
theorem zelOpenMemory_nonIndexed8 (data : List Nat)
    (hlen : 34 ≤ data.length)
    (hmagic : (zelParseFileHeader data 0).magic = [90, 69, 76, 48])
    (hver : (zelParseFileHeader data 0).version = 1)
    (hw : (zelParseFileHeader data 0).width ≠ 0)
    (hh : (zelParseFileHeader data 0).height ≠ 0)
    (hzw : (zelParseFileHeader data 0).zoneWidth ≠ 0)
    (hzh : (zelParseFileHeader data 0).zoneHeight ≠ 0)
    (hdw : (zelParseFileHeader data 0).width % (zelParseFileHeader data 0).zoneWidth = 0)
    (hdh : (zelParseFileHeader data 0).height % (zelParseFileHeader data 0).zoneHeight = 0)
    (hzc : (zelParseFileHeader data 0).width / (zelParseFileHeader data 0).zoneWidth
      * ((zelParseFileHeader data 0).height / (zelParseFileHeader data 0).zoneHeight)
      ≤ UINT16_MAXN)
    (hcf : (zelParseFileHeader data 0).colorFormat ≠ ZEL_COLOR_FORMAT_INDEXED8) :
    zelOpenMemory data = (ZEL_ERR_INVALID_MAGIC, none) := by
  have hval := zelValidateHeader_nonIndexed8 (zelParseFileHeader data 0) hcf
  unfold zelOpenMemory zelInitializeContext
  rw [if_neg (by omega), if_neg (by omega)]
  simp [hval]

/-- C5 witness: the concrete counterexample input, instantiating
`zelOpenMemory_nonIndexed8`. -/
theorem zelOpenMemory_nonIndexed8_witness :
    zelOpenMemory zelC5Data = (ZEL_ERR_INVALID_MAGIC, none) :=
  zelOpenMemory_nonIndexed8 zelC5Data (by decide) (by decide) (by decide)
    (by decide) (by decide) (by decide) (by decide) (by decide) (by decide)
    (by decide) (by decide)

/-- C6 counterexample: an LZ4 zone whose decompressed size is small but
whose chunk's compressed size exceeds INT32_MAX is rejected with
`ZEL_ERR_CORRUPT_DATA`, not `ZEL_ERR_UNSUPPORTED_FORMAT`. -/
theorem zelAccessZonePixels_chunk_counterexample :
    zelStreamChunkBig.header.compressionType = ZEL_COMPRESSION_LZ4 ∧
    zelStreamChunkBig.layout.zonePixelBytes ≤ INT32_MAXN ∧
    INT32_MAXN < 2147483648 ∧
    (zelAccessZonePixels zelStreamChunkBig zelLz4None 0 2147483648).fst
      = ZEL_ERR_CORRUPT_DATA ∧
    ZEL_ERR_CORRUPT_DATA ≠ ZEL_ERR_UNSUPPORTED_FORMAT := by
  decide

/-- C6 amended: for an LZ4 frame, `zelAccessZonePixels` rejects a zone
decompressed size above INT32_MAX with `ZEL_ERR_UNSUPPORTED_FORMAT`, and a
chunk compressed size above INT32_MAX with `ZEL_ERR_CORRUPT_DATA`; both
checks happen before LZ4 is invoked (the result is independent of the LZ4
oracle). -/
theorem zelAccessZonePixels_int32_guards (s : ZELFrameZoneStream)
    (payloadRel chunkSize : Nat)
    (hlz : s.header.compressionType = ZEL_COMPRESSION_LZ4) :
    (s.layout.zonePixelBytes > INT32_MAXN →
      ∀ lz4 : ZELLz4, zelAccessZonePixels s lz4 payloadRel chunkSize
        = (ZEL_ERR_UNSUPPORTED_FORMAT, fun _ => 0)) ∧
    (s.layout.zonePixelBytes ≤ INT32_MAXN → chunkSize > INT32_MAXN →
      ∀ lz4 : ZELLz4, zelAccessZonePixels s lz4 payloadRel chunkSize
        = (ZEL_ERR_CORRUPT_DATA, fun _ => 0)) := by
  have hne : s.header.compressionType ≠ ZEL_COMPRESSION_NONE := by
    rw [hlz]; decide
  constructor
  · intro hbig lz4
    simp [zelAccessZonePixels, hne, hlz, hbig, ZEL_COMPRESSION_NONE,
      ZEL_COMPRESSION_LZ4]
  · intro hsmall hchunk lz4
    simp [zelAccessZonePixels, hne, hlz, Nat.not_lt.mpr hsmall, hchunk,
      ZEL_COMPRESSION_NONE, ZEL_COMPRESSION_LZ4]

/-- C6 witness: the two concrete oversized streams, instantiating
`zelAccessZonePixels_int32_guards` with the always-failing oracle. -/
theorem zelAccessZonePixels_int32_guards_witness :
    zelAccessZonePixels zelStreamBig zelLz4None 0 5
      = (ZEL_ERR_UNSUPPORTED_FORMAT, fun _ => 0) ∧
    zelAccessZonePixels zelStreamChunkBig zelLz4None 0 2147483648
      = (ZEL_ERR_CORRUPT_DATA, fun _ => 0) :=
  ⟨(zelAccessZonePixels_int32_guards zelStreamBig 0 5 (by decide)).1
      (by decide) zelLz4None,
    (zelAccessZonePixels_int32_guards zelStreamChunkBig 0 2147483648
      (by decide)).2 (by decide) (by decide) zelLz4None⟩

theorem zelSetOutputColorEncoding_preserves (c : ZELContext) (e : Nat) :
    (zelSetOutputColorEncoding c e).globalPaletteRaw = c.globalPaletteRaw ∧
    (zelSetOutputColorEncoding c e).globalPaletteCount = c.globalPaletteCount ∧
    (zelSetOutputColorEncoding c e).globalPaletteEncoding = c.globalPaletteEncoding := by
  unfold zelSetOutputColorEncoding
  split
  · exact ⟨rfl, rfl, rfl⟩
  split
  · exact ⟨rfl, rfl, rfl⟩
  · exact ⟨rfl, rfl, rfl⟩

theorem zelSetOutputColorEncoding_valid_sets (c : ZELContext) (e : Nat)
    (hv : zelIsValidColorEncoding (e % 256) = true) :
    (zelSetOutputColorEncoding c e).hasCustomOutputEncoding = true ∧
    (zelSetOutputColorEncoding c e).outputColorEncoding = e := by
  unfold zelSetOutputColorEncoding
  rw [if_neg (by simp [hv])]
  split
  · exact ⟨rfl, rfl⟩
  · rename_i hcond
    push_neg at hcond
    exact ⟨hcond.1, hcond.2⟩

/-- C7: for a context holding a global palette with no override recorded,
querying the global palette returns the raw (on-disk, pointer-identical)
entries; and after any `zelSetOutputColorEncoding` call (for example an
override to the other encoding) followed by an override equal to the
palette's source encoding, the query again returns the raw pointer with the
same values. -/
theorem zelGetGlobalPalette_roundtrip (ctx : ZELContext) (raw : List Nat)
    (other : Nat) (hraw : ctx.globalPaletteRaw = some raw)
    (henc : ctx.globalPaletteEncoding = ZEL_COLOR_RGB565_LE
      ∨ ctx.globalPaletteEncoding = ZEL_COLOR_RGB565_BE)
    (hno : ctx.hasCustomOutputEncoding = false) :
    zelGetGlobalPalette ctx
      = (ZEL_OK, ctx, ⟨ZELPalettePtr.rawGlobal, raw, ctx.globalPaletteCount⟩) ∧
    zelGetGlobalPalette
        (zelSetOutputColorEncoding (zelSetOutputColorEncoding ctx other)
          ctx.globalPaletteEncoding)
      = (ZEL_OK,
          zelSetOutputColorEncoding (zelSetOutputColorEncoding ctx other)
            ctx.globalPaletteEncoding,
          ⟨ZELPalettePtr.rawGlobal, raw, ctx.globalPaletteCount⟩) := by
  have hvalid : zelIsValidColorEncoding (ctx.globalPaletteEncoding % 256) = true := by
    rcases henc with h | h <;> rw [h] <;> decide
  constructor
  · unfold zelGetGlobalPalette zelResolveGlobalPalette
    rw [hraw]
    simp [zelSelectOutputEncoding, hno]
  · have hp1 := zelSetOutputColorEncoding_preserves ctx other
    have hp2 := zelSetOutputColorEncoding_preserves
      (zelSetOutputColorEncoding ctx other) ctx.globalPaletteEncoding
    have hs := zelSetOutputColorEncoding_valid_sets
      (zelSetOutputColorEncoding ctx other) ctx.globalPaletteEncoding hvalid
    unfold zelGetGlobalPalette zelResolveGlobalPalette
    rw [hp2.1, hp1.1, hraw]
    have hsel : zelSelectOutputEncoding
        (zelSetOutputColorEncoding (zelSetOutputColorEncoding ctx other)
          ctx.globalPaletteEncoding)
        ((zelSetOutputColorEncoding (zelSetOutputColorEncoding ctx other)
          ctx.globalPaletteEncoding).globalPaletteEncoding)
        = (zelSetOutputColorEncoding (zelSetOutputColorEncoding ctx other)
          ctx.globalPaletteEncoding).globalPaletteEncoding := by
      unfold zelSelectOutputEncoding
      rw [if_pos hs.1, hs.2, hp2.2.2, hp1.2.2]
    rw [hsel]
    simp [hp2.2.1, hp1.2.1]

/-- C7 witness: the S3 palette `{0x00F8, 0x1234}` declared little-endian,
overridden to big-endian and back, instantiating
`zelGetGlobalPalette_roundtrip`. -/
theorem zelGetGlobalPalette_roundtrip_witness :
    zelGetGlobalPalette zelCtxTiny
      = (ZEL_OK, zelCtxTiny, ⟨ZELPalettePtr.rawGlobal, [248, 4660], 2⟩) ∧
    zelGetGlobalPalette
        (zelSetOutputColorEncoding (zelSetOutputColorEncoding zelCtxTiny 1) 0)
      = (ZEL_OK,
          zelSetOutputColorEncoding (zelSetOutputColorEncoding zelCtxTiny 1) 0,
          ⟨ZELPalettePtr.rawGlobal, [248, 4660], 2⟩) := by
  have h := zelGetGlobalPalette_roundtrip zelCtxTiny [248, 4660] 1 (by decide)
    (Or.inl (by decide)) (by decide)
  exact ⟨h.1, h.2⟩

/-- C4: the zone-chunk cursor discipline.  Step level: with fewer than 4
bytes left before `frameDataEnd` the read fails `ZEL_ERR_CORRUPT_DATA`; a
little-endian u32 `chunkSize` of 0 fails `ZEL_ERR_CORRUPT_DATA`; a payload
that does not fit before `frameDataEnd` fails `ZEL_ERR_CORRUPT_DATA`;
otherwise the read succeeds and advances the cursor past the size word and
the payload.  Decode level: a successful `zelDecodeFrameIndex8` or
`zelDecodeFrameRgb565` ran its zone loop from `zoneDataOffset` over all
`zoneCount` zones and finished with the cursor exactly at `frameDataEnd`. -/
theorem zelZoneChunkCursor_spec (s : ZELFrameZoneStream) (cursor : Nat)
    (hE : s.frameDataEnd = s.frameOffset + s.frameSize)
    (hlo : s.frameOffset ≤ cursor) (hhi : cursor ≤ s.frameDataEnd) :
    (s.frameDataEnd - cursor < 4 →
      zelReadZoneChunkAtCursor s cursor = (ZEL_ERR_CORRUPT_DATA, cursor, 0, 0)) ∧
    (4 ≤ s.frameDataEnd - cursor →
      zelLe32At s.frameData (cursor - s.frameOffset) = 0 →
      zelReadZoneChunkAtCursor s cursor = (ZEL_ERR_CORRUPT_DATA, cursor + 4, 0, 0)) ∧
    (4 ≤ s.frameDataEnd - cursor →
      0 < zelLe32At s.frameData (cursor - s.frameOffset) →
      s.frameDataEnd - cursor - 4 < zelLe32At s.frameData (cursor - s.frameOffset) →
      zelReadZoneChunkAtCursor s cursor = (ZEL_ERR_CORRUPT_DATA, cursor + 4, 0, 0)) ∧
    (4 ≤ s.frameDataEnd - cursor →
      0 < zelLe32At s.frameData (cursor - s.frameOffset) →
      zelLe32At s.frameData (cursor - s.frameOffset) ≤ s.frameDataEnd - cursor - 4 →
      zelReadZoneChunkAtCursor s cursor
        = (ZEL_OK, cursor + 4 + zelLe32At s.frameData (cursor - s.frameOffset),
            cursor - s.frameOffset + 4,
            zelLe32At s.frameData (cursor - s.frameOffset))) ∧
    (∀ ctx frameIndex lz4 dst stride buf,
      zelDecodeFrameIndex8 ctx frameIndex lz4 dst stride = (ZEL_OK, buf) →
      ∃ s2, zelInitFrameZoneStream ctx frameIndex = (ZEL_OK, s2) ∧
        zelDecodeIndex8Loop s2 lz4 stride 0 s2.zoneDataOffset dst s2.layout.zoneCount
          = (ZEL_OK, buf, s2.frameDataEnd)) ∧
    (∀ ctx frameIndex lz4 dst stride buf,
      zelDecodeFrameRgb565 ctx frameIndex lz4 dst stride = (ZEL_OK, buf) →
      ∃ ctx1 pal s2, zelGetFramePalette ctx frameIndex = (ZEL_OK, ctx1, pal) ∧
        zelInitFrameZoneStream ctx1 frameIndex = (ZEL_OK, s2) ∧
        zelDecodeRgbLoop s2 lz4 pal.entries pal.count stride 0 s2.zoneDataOffset
          dst s2.layout.zoneCount = (ZEL_OK, buf, s2.frameDataEnd)) := by
  refine ⟨?_, ?_, ?_, ?_, ?_, ?_⟩
  · intro hrem
    unfold zelReadZoneChunkAtCursor
    rw [if_neg (by omega), if_pos (by omega)]
  · intro hrem hz
    unfold zelReadZoneChunkAtCursor
    rw [if_neg (by omega), if_neg (by omega), if_pos hz]
  · intro hrem hpos hfit
    unfold zelReadZoneChunkAtCursor
    rw [if_neg (by omega), if_neg (by omega), if_neg (by omega),
      if_pos (by omega)]
  · intro hrem hpos hfit
    unfold zelReadZoneChunkAtCursor
    rw [if_neg (by omega), if_neg (by omega), if_neg (by omega),
      if_neg (by omega)]
  · intro ctx frameIndex lz4 dst stride buf h
    unfold zelDecodeFrameIndex8 at h
    dsimp only at h
    split at h
    · simp at h
    split at h
    · simp at h
    split at h
    · simp at h
    split at h
    · rename_i hri
      exact absurd (congrArg Prod.fst h) (by simpa using hri)
    split at h
    · rename_i hrl
      exact absurd (congrArg Prod.fst h) (by simpa using hrl)
    split at h
    · simp at h
    rename_i hri hrl hcur
    have hfst := not_not.mp hri
    have hlst := not_not.mp hrl
    have hc := not_not.mp hcur
    have hbuf : (zelDecodeIndex8Loop (zelInitFrameZoneStream ctx frameIndex).snd lz4
        stride 0 (zelInitFrameZoneStream ctx frameIndex).snd.zoneDataOffset dst
        (zelInitFrameZoneStream ctx frameIndex).snd.layout.zoneCount).snd.fst = buf := by
      simpa using congrArg Prod.snd h
    refine ⟨(zelInitFrameZoneStream ctx frameIndex).snd, ?_, ?_⟩
    · rw [show zelInitFrameZoneStream ctx frameIndex
        = ((zelInitFrameZoneStream ctx frameIndex).fst,
           (zelInitFrameZoneStream ctx frameIndex).snd) from rfl, hfst]
    · rw [show zelDecodeIndex8Loop (zelInitFrameZoneStream ctx frameIndex).snd lz4
          stride 0 (zelInitFrameZoneStream ctx frameIndex).snd.zoneDataOffset dst
          (zelInitFrameZoneStream ctx frameIndex).snd.layout.zoneCount
        = ((zelDecodeIndex8Loop (zelInitFrameZoneStream ctx frameIndex).snd lz4
            stride 0 (zelInitFrameZoneStream ctx frameIndex).snd.zoneDataOffset dst
            (zelInitFrameZoneStream ctx frameIndex).snd.layout.zoneCount).fst,
           (zelDecodeIndex8Loop (zelInitFrameZoneStream ctx frameIndex).snd lz4
            stride 0 (zelInitFrameZoneStream ctx frameIndex).snd.zoneDataOffset dst
            (zelInitFrameZoneStream ctx frameIndex).snd.layout.zoneCount).snd.fst,
           (zelDecodeIndex8Loop (zelInitFrameZoneStream ctx frameIndex).snd lz4
            stride 0 (zelInitFrameZoneStream ctx frameIndex).snd.zoneDataOffset dst
            (zelInitFrameZoneStream ctx frameIndex).snd.layout.zoneCount).snd.snd)
          from rfl, hlst, hc, hbuf]
  · intro ctx frameIndex lz4 dst stride buf h
    unfold zelDecodeFrameRgb565 at h
    dsimp only at h
    split at h
    · simp at h
    split at h
    · simp at h
    split at h
    · rename_i hrp
      exact absurd (congrArg Prod.fst h) (by simpa using hrp)
    split at h
    · rename_i hri
      exact absurd (congrArg Prod.fst h) (by simpa using hri)
    split at h
    · rename_i hrl
      exact absurd (congrArg Prod.fst h) (by simpa using hrl)
    split at h
    · simp at h
    rename_i hrp hri hrl hcur
    have hp := not_not.mp hrp
    have hfst := not_not.mp hri
    have hlst := not_not.mp hrl
    have hc := not_not.mp hcur
    have hbuf : (zelDecodeRgbLoop
        (zelInitFrameZoneStream (zelGetFramePalette ctx frameIndex).snd.fst frameIndex).snd
        lz4 (zelGetFramePalette ctx frameIndex).snd.snd.entries
        (zelGetFramePalette ctx frameIndex).snd.snd.count stride 0
        (zelInitFrameZoneStream (zelGetFramePalette ctx frameIndex).snd.fst frameIndex).snd.zoneDataOffset
        dst
        (zelInitFrameZoneStream (zelGetFramePalette ctx frameIndex).snd.fst frameIndex).snd.layout.zoneCount).snd.fst
        = buf := by
      simpa using congrArg Prod.snd h
    refine ⟨(zelGetFramePalette ctx frameIndex).snd.fst,
      (zelGetFramePalette ctx frameIndex).snd.snd,
      (zelInitFrameZoneStream (zelGetFramePalette ctx frameIndex).snd.fst frameIndex).snd,
      ?_, ?_, ?_⟩
    · rw [show zelGetFramePalette ctx frameIndex
        = ((zelGetFramePalette ctx frameIndex).fst,
           (zelGetFramePalette ctx frameIndex).snd.fst,
           (zelGetFramePalette ctx frameIndex).snd.snd) from rfl, hp]
    · rw [show zelInitFrameZoneStream (zelGetFramePalette ctx frameIndex).snd.fst frameIndex
        = ((zelInitFrameZoneStream (zelGetFramePalette ctx frameIndex).snd.fst frameIndex).fst,
           (zelInitFrameZoneStream (zelGetFramePalette ctx frameIndex).snd.fst frameIndex).snd)
          from rfl, hfst]
    · rw [show zelDecodeRgbLoop
          (zelInitFrameZoneStream (zelGetFramePalette ctx frameIndex).snd.fst frameIndex).snd
          lz4 (zelGetFramePalette ctx frameIndex).snd.snd.entries
          (zelGetFramePalette ctx frameIndex).snd.snd.count stride 0
          (zelInitFrameZoneStream (zelGetFramePalette ctx frameIndex).snd.fst frameIndex).snd.zoneDataOffset
          dst
          (zelInitFrameZoneStream (zelGetFramePalette ctx frameIndex).snd.fst frameIndex).snd.layout.zoneCount
        = ((zelDecodeRgbLoop
            (zelInitFrameZoneStream (zelGetFramePalette ctx frameIndex).snd.fst frameIndex).snd
            lz4 (zelGetFramePalette ctx frameIndex).snd.snd.entries
            (zelGetFramePalette ctx frameIndex).snd.snd.count stride 0
            (zelInitFrameZoneStream (zelGetFramePalette ctx frameIndex).snd.fst frameIndex).snd.zoneDataOffset
            dst
            (zelInitFrameZoneStream (zelGetFramePalette ctx frameIndex).snd.fst frameIndex).snd.layout.zoneCount).fst,
           (zelDecodeRgbLoop
            (zelInitFrameZoneStream (zelGetFramePalette ctx frameIndex).snd.fst frameIndex).snd
            lz4 (zelGetFramePalette ctx frameIndex).snd.snd.entries
            (zelGetFramePalette ctx frameIndex).snd.snd.count stride 0
            (zelInitFrameZoneStream (zelGetFramePalette ctx frameIndex).snd.fst frameIndex).snd.zoneDataOffset
            dst
            (zelInitFrameZoneStream (zelGetFramePalette ctx frameIndex).snd.fst frameIndex).snd.layout.zoneCount).snd.fst,
           (zelDecodeRgbLoop
            (zelInitFrameZoneStream (zelGetFramePalette ctx frameIndex).snd.fst frameIndex).snd
            lz4 (zelGetFramePalette ctx frameIndex).snd.snd.entries
            (zelGetFramePalette ctx frameIndex).snd.snd.count stride 0
            (zelInitFrameZoneStream (zelGetFramePalette ctx frameIndex).snd.fst frameIndex).snd.zoneDataOffset
            dst
            (zelInitFrameZoneStream (zelGetFramePalette ctx frameIndex).snd.fst frameIndex).snd.layout.zoneCount).snd.snd)
          from rfl, hlst, hc, hbuf]

/-- C4 witness: the first chunk of the concrete multi-zone stream, read at
`zoneDataOffset = 14`: a successful step advancing the cursor to 20,
instantiating `zelZoneChunkCursor_spec`. -/
theorem zelZoneChunkCursor_spec_witness :
    zelReadZoneChunkAtCursor zelStreamTiny 14 = (ZEL_OK, 20, 18, 2) := by
  have h := (zelZoneChunkCursor_spec zelStreamTiny 14 (by decide) (by decide)
    (by decide)).2.2.2.1 (by decide) (by decide) (by decide)
  simpa using h

theorem zelDivModInj (a q1 s1 q2 s2 : Nat) (h1 : s1 < a) (h2 : s2 < a)
    (h : q1 * a + s1 = q2 * a + s2) : q1 = q2 ∧ s1 = s2 := by
  have ha : 0 < a := by omega
  have d1 : (a * q1 + s1) / a = q1 := by
    rw [Nat.mul_add_div ha, Nat.div_eq_of_lt h1, Nat.add_zero]
  have d2 : (a * q2 + s2) / a = q2 := by
    rw [Nat.mul_add_div ha, Nat.div_eq_of_lt h2, Nat.add_zero]
  have e : a * q1 + s1 = a * q2 + s2 := by
    rw [Nat.mul_comm a q1, Nat.mul_comm a q2]
    exact h
  have hq : q1 = q2 := by rw [← d1, ← d2, e]
  refine ⟨hq, ?_⟩
  subst hq
  omega

theorem zelZonePos_inj (layout : ZELZoneLayout) (stride : Nat)
    (hg : zelLayoutGeom layout stride) (z1 r1 c1 z2 r2 c2 : Nat)
    (hr1 : r1 < layout.zoneHeight) (hc1 : c1 < layout.zoneWidth)
    (hr2 : r2 < layout.zoneHeight) (hc2 : c2 < layout.zoneWidth)
    (h : zelZonePos layout stride z1 r1 c1 = zelZonePos layout stride z2 r2 c2) :
    z1 = z2 ∧ r1 = r2 ∧ c1 = c2 := by
  have hx1 : z1 % layout.zonesPerRow * layout.zoneWidth + c1 < stride := by
    have hm : z1 % layout.zonesPerRow < layout.zonesPerRow :=
      Nat.mod_lt _ hg.zpr_pos
    calc z1 % layout.zonesPerRow * layout.zoneWidth + c1
        < (z1 % layout.zonesPerRow + 1) * layout.zoneWidth := by
          rw [Nat.succ_mul]; omega
      _ ≤ layout.zonesPerRow * layout.zoneWidth :=
          Nat.mul_le_mul_right _ (by omega)
      _ ≤ stride := hg.row_fit
  have hx2 : z2 % layout.zonesPerRow * layout.zoneWidth + c2 < stride := by
    have hm : z2 % layout.zonesPerRow < layout.zonesPerRow :=
      Nat.mod_lt _ hg.zpr_pos
    calc z2 % layout.zonesPerRow * layout.zoneWidth + c2
        < (z2 % layout.zonesPerRow + 1) * layout.zoneWidth := by
          rw [Nat.succ_mul]; omega
      _ ≤ layout.zonesPerRow * layout.zoneWidth :=
          Nat.mul_le_mul_right _ (by omega)
      _ ≤ stride := hg.row_fit
  unfold zelZonePos at h
  obtain ⟨hY, hX⟩ := zelDivModInj stride _ _ _ _ hx1 hx2 h
  obtain ⟨hd, hr⟩ := zelDivModInj layout.zoneHeight _ _ _ _ hr1 hr2 hY
  obtain ⟨hm, hc⟩ := zelDivModInj layout.zoneWidth _ _ _ _ hc1 hc2 hX
  refine ⟨?_, hr, hc⟩
  have e1 := Nat.div_add_mod z1 layout.zonesPerRow
  have e2 := Nat.div_add_mod z2 layout.zonesPerRow
  rw [← e1, ← e2, hd, hm]

theorem zelCopyRow_in (src : ZELBuf) (srcBase : Nat) (dst : ZELBuf)
    (dstBase : Nat) (n : Nat) :
    ∀ k, k < n → zelCopyRow src srcBase dst dstBase n (dstBase + k)
      = src (srcBase + k) := by
  induction n with
  | zero => intro k hk; omega
  | succ n ih =>
    intro k hk
    by_cases he : k = n
    · subst he
      simp [zelCopyRow, zelBufWrite]
    · have : dstBase + k ≠ dstBase + n := by omega
      simp only [zelCopyRow, zelBufWrite, if_neg this]
      exact ih k (by omega)

theorem zelCopyRow_out (src : ZELBuf) (srcBase : Nat) (dst : ZELBuf)
    (dstBase : Nat) (n : Nat) :
    ∀ p, (∀ k, k < n → p ≠ dstBase + k) →
      zelCopyRow src srcBase dst dstBase n p = dst p := by
  induction n with
  | zero => intro p _; rfl
  | succ n ih =>
    intro p hp
    simp only [zelCopyRow, zelBufWrite, if_neg (hp n (by omega))]
    exact ih p (fun k hk => hp k (by omega))

theorem zelBlitRowsIndices_in (layout : ZELZoneLayout) (zoneX zoneY : Nat)
    (pix dst : ZELBuf) (stride : Nat) (hfit : zoneX + layout.zoneWidth ≤ stride)
    (n : Nat) :
    ∀ r c, r < n → c < layout.zoneWidth →
      zelBlitRowsIndices layout zoneX zoneY pix dst stride n
          ((zoneY + r) * stride + (zoneX + c))
        = pix (r * layout.zoneWidth + c) := by
  induction n with
  | zero => intro r c hr _; omega
  | succ n ih =>
    intro r c hr hc
    by_cases he : r = n
    · subst he
      have : (zoneY + r) * stride + (zoneX + c)
          = ((zoneY + r) * stride + zoneX) + c := by omega
      rw [this]
      exact zelCopyRow_in pix (r * layout.zoneWidth)
        (zelBlitRowsIndices layout zoneX zoneY pix dst stride r)
        ((zoneY + r) * stride + zoneX) layout.zoneWidth c hc
    · have hnr : r < n := by omega
      have hne : ∀ k, k < layout.zoneWidth →
          (zoneY + r) * stride + (zoneX + c)
            ≠ ((zoneY + n) * stride + zoneX) + k := by
        intro k hk hcontra
        have h1 : zoneX + c < stride := by omega
        have h2 : zoneX + k < stride := by omega
        have := zelDivModInj stride (zoneY + r) (zoneX + c) (zoneY + n) (zoneX + k)
          h1 h2 (by omega)
        omega
      rw [show zelBlitRowsIndices layout zoneX zoneY pix dst stride (n + 1)
          = zelCopyRow pix (n * layout.zoneWidth)
              (zelBlitRowsIndices layout zoneX zoneY pix dst stride n)
              ((zoneY + n) * stride + zoneX) layout.zoneWidth from rfl]
      rw [zelCopyRow_out _ _ _ _ _ _ hne]
      exact ih r c hnr hc

theorem zelBlitRowsIndices_out (layout : ZELZoneLayout) (zoneX zoneY : Nat)
    (pix dst : ZELBuf) (stride : Nat) (n : Nat) :
    ∀ p, (∀ r c, r < n → c < layout.zoneWidth →
        p ≠ (zoneY + r) * stride + (zoneX + c)) →
      zelBlitRowsIndices layout zoneX zoneY pix dst stride n p = dst p := by
  induction n with
  | zero => intro p _; rfl
  | succ n ih =>
    intro p hp
    rw [show zelBlitRowsIndices layout zoneX zoneY pix dst stride (n + 1)
        = zelCopyRow pix (n * layout.zoneWidth)
            (zelBlitRowsIndices layout zoneX zoneY pix dst stride n)
            ((zoneY + n) * stride + zoneX) layout.zoneWidth from rfl]
    rw [zelCopyRow_out _ _ _ _ _ p (fun k hk => by
      have := hp n k (by omega) hk
      omega)]
    exact ih p (fun r c hr hc => hp r c (by omega) hc)

theorem zelBlitZoneIndices_in (layout : ZELZoneLayout) (zoneIndex : Nat)
    (pix dst : ZELBuf) (stride : Nat)
    (hfit : zoneIndex % layout.zonesPerRow * layout.zoneWidth
      + layout.zoneWidth ≤ stride) :
    ∀ row col, row < layout.zoneHeight → col < layout.zoneWidth →
      zelBlitZoneIndices layout zoneIndex pix dst stride
          (zelZonePos layout stride zoneIndex row col)
        = pix (row * layout.zoneWidth + col) := by
  intro row col hr hc
  unfold zelBlitZoneIndices zelZoneIndexToCoordinates zelZonePos
  exact zelBlitRowsIndices_in layout _ _ pix dst stride hfit layout.zoneHeight
    row col hr hc

theorem zelBlitZoneIndices_out (layout : ZELZoneLayout) (zoneIndex : Nat)
    (pix dst : ZELBuf) (stride : Nat) :
    ∀ p, (∀ row col, row < layout.zoneHeight → col < layout.zoneWidth →
        p ≠ zelZonePos layout stride zoneIndex row col) →
      zelBlitZoneIndices layout zoneIndex pix dst stride p = dst p := by
  intro p hp
  unfold zelBlitZoneIndices zelZoneIndexToCoordinates
  exact zelBlitRowsIndices_out layout _ _ pix dst stride layout.zoneHeight p
    (fun r c hr hc => hp r c hr hc)

theorem zelBlitRowRgb_ok (src : ZELBuf) (srcBase : Nat) (pal : List Nat)
    (cnt : Nat) (dstBase : Nat) (n : Nat) :
    ∀ col dst, (∀ j, j < n → src (srcBase + col + j) < cnt) →
      (zelBlitRowRgb src srcBase pal cnt dst dstBase col n).fst = ZEL_OK ∧
      (∀ j, j < n → (zelBlitRowRgb src srcBase pal cnt dst dstBase col n).snd
          (dstBase + col + j) = pal.getD (src (srcBase + col + j)) 0) ∧
      (∀ p, (∀ j, j < n → p ≠ dstBase + col + j) →
        (zelBlitRowRgb src srcBase pal cnt dst dstBase col n).snd p = dst p) := by
  induction n with
  | zero => exact fun col dst _ => ⟨rfl, fun j hj => by omega, fun p _ => rfl⟩
  | succ n ih =>
    intro col dst hok
    have hidx : ¬ src (srcBase + col) ≥ cnt := by
      have h0 := hok 0 (by omega)
      rw [Nat.add_zero] at h0
      omega
    have hstep : zelBlitRowRgb src srcBase pal cnt dst dstBase col (n + 1)
        = zelBlitRowRgb src srcBase pal cnt
            (zelBufWrite dst (dstBase + col) (pal.getD (src (srcBase + col)) 0))
            dstBase (col + 1) n := by
      rw [show zelBlitRowRgb src srcBase pal cnt dst dstBase col (n + 1)
          = if src (srcBase + col) ≥ cnt then (ZEL_ERR_CORRUPT_DATA, dst)
            else zelBlitRowRgb src srcBase pal cnt
              (zelBufWrite dst (dstBase + col)
                (pal.getD (src (srcBase + col)) 0)) dstBase (col + 1) n
          from rfl, if_neg hidx]
    obtain ⟨h1, h2, h3⟩ := ih (col + 1)
      (zelBufWrite dst (dstBase + col) (pal.getD (src (srcBase + col)) 0))
      (fun j hj => by
        have := hok (j + 1) (by omega)
        have e : srcBase + (col + 1) + j = srcBase + col + (j + 1) := by omega
        rw [e]
        exact this)
    rw [hstep]
    refine ⟨h1, ?_, ?_⟩
    · intro j hj
      match j with
      | 0 =>
        rw [h3 (dstBase + col + 0) (fun k hk => by omega)]
        simp [zelBufWrite]
      | j + 1 =>
        have e1 : dstBase + col + (j + 1) = dstBase + (col + 1) + j := by omega
        have e2 : srcBase + col + (j + 1) = srcBase + (col + 1) + j := by omega
        rw [e1, e2]
        exact h2 j (by omega)
    · intro p hp
      rw [h3 p (fun k hk => by
        have := hp (k + 1) (by omega)
        omega)]
      simp only [zelBufWrite, if_neg (by
        have := hp 0 (by omega)
        omega : p ≠ dstBase + col)]

theorem zelBlitRowRgb_bad (src : ZELBuf) (srcBase : Nat) (pal : List Nat)
    (cnt : Nat) (dstBase : Nat) (n : Nat) :
    ∀ col dst j0, j0 < n → cnt ≤ src (srcBase + col + j0) →
      (∀ j, j < j0 → src (srcBase + col + j) < cnt) →
      (zelBlitRowRgb src srcBase pal cnt dst dstBase col n).fst
        = ZEL_ERR_CORRUPT_DATA ∧
      (∀ j, j < j0 → (zelBlitRowRgb src srcBase pal cnt dst dstBase col n).snd
          (dstBase + col + j) = pal.getD (src (srcBase + col + j)) 0) ∧
      (∀ p, (∀ j, j < j0 → p ≠ dstBase + col + j) →
        (zelBlitRowRgb src srcBase pal cnt dst dstBase col n).snd p = dst p) := by
  induction n with
  | zero => intro col dst j0 hj0; omega
  | succ n ih =>
    intro col dst j0 hj0 hbad hgood
    match j0 with
    | 0 =>
      have hidx : src (srcBase + col) ≥ cnt := by
        have e : srcBase + col = srcBase + col + 0 := by omega
        rw [e]
        exact hbad
      have hstep : zelBlitRowRgb src srcBase pal cnt dst dstBase col (n + 1)
          = (ZEL_ERR_CORRUPT_DATA, dst) := by
        rw [show zelBlitRowRgb src srcBase pal cnt dst dstBase col (n + 1)
            = if src (srcBase + col) ≥ cnt then (ZEL_ERR_CORRUPT_DATA, dst)
              else zelBlitRowRgb src srcBase pal cnt
                (zelBufWrite dst (dstBase + col)
                  (pal.getD (src (srcBase + col)) 0)) dstBase (col + 1) n
            from rfl, if_pos hidx]
      rw [hstep]
      exact ⟨rfl, fun j hj => by omega, fun p _ => rfl⟩
    | j1 + 1 =>
      have hidx : ¬ src (srcBase + col) ≥ cnt := by
        have h0 := hgood 0 (by omega)
        rw [Nat.add_zero] at h0
        omega
      have hstep : zelBlitRowRgb src srcBase pal cnt dst dstBase col (n + 1)
          = zelBlitRowRgb src srcBase pal cnt
              (zelBufWrite dst (dstBase + col) (pal.getD (src (srcBase + col)) 0))
              dstBase (col + 1) n := by
        rw [show zelBlitRowRgb src srcBase pal cnt dst dstBase col (n + 1)
            = if src (srcBase + col) ≥ cnt then (ZEL_ERR_CORRUPT_DATA, dst)
              else zelBlitRowRgb src srcBase pal cnt
                (zelBufWrite dst (dstBase + col)
                  (pal.getD (src (srcBase + col)) 0)) dstBase (col + 1) n
            from rfl, if_neg hidx]
      obtain ⟨h1, h2, h3⟩ := ih (col + 1)
        (zelBufWrite dst (dstBase + col) (pal.getD (src (srcBase + col)) 0))
        j1 (by omega)
        (by
          have e : srcBase + (col + 1) + j1 = srcBase + col + (j1 + 1) := by omega
          rw [e]
          exact hbad)
        (fun j hj => by
          have := hgood (j + 1) (by omega)
          have e : srcBase + (col + 1) + j = srcBase + col + (j + 1) := by omega
          rw [e]
          exact this)
      rw [hstep]
      refine ⟨h1, ?_, ?_⟩
      · intro j hj
        match j with
        | 0 =>
          rw [h3 (dstBase + col + 0) (fun k hk => by omega)]
          simp [zelBufWrite]
        | j + 1 =>
          have e1 : dstBase + col + (j + 1) = dstBase + (col + 1) + j := by omega
          have e2 : srcBase + col + (j + 1) = srcBase + (col + 1) + j := by omega
          rw [e1, e2]
          exact h2 j (by omega)
      · intro p hp
        rw [h3 p (fun k hk => by
          have := hp (k + 1) (by omega)
          omega)]
        simp only [zelBufWrite, if_neg (by
          have := hp 0 (by omega)
          omega : p ≠ dstBase + col)]

theorem zelRowsDisjoint (stride zoneX w Y1 Y2 c1 c2 : Nat)
    (hfit : zoneX + w ≤ stride) (hc1 : c1 < w) (hc2 : c2 < w) (hY : Y1 ≠ Y2) :
    Y1 * stride + (zoneX + c1) ≠ Y2 * stride + (zoneX + c2) := by
  intro h
  have := zelDivModInj stride Y1 (zoneX + c1) Y2 (zoneX + c2) (by omega)
    (by omega) h
  omega

theorem zelBlitRowsRgb_ok (layout : ZELZoneLayout) (zoneX zoneY : Nat)
    (pix : ZELBuf) (pal : List Nat) (cnt : Nat) (stride : Nat)
    (hfit : zoneX + layout.zoneWidth ≤ stride) (n : Nat) :
    ∀ row dst,
      (∀ r c, r < n → c < layout.zoneWidth →
        pix ((row + r) * layout.zoneWidth + c) < cnt) →
      (zelBlitRowsRgb layout zoneX zoneY pix pal cnt dst stride row n).fst
        = ZEL_OK ∧
      (∀ r c, r < n → c < layout.zoneWidth →
        (zelBlitRowsRgb layout zoneX zoneY pix pal cnt dst stride row n).snd
            ((zoneY + (row + r)) * stride + (zoneX + c))
          = pal.getD (pix ((row + r) * layout.zoneWidth + c)) 0) ∧
      (∀ p, (∀ r c, r < n → c < layout.zoneWidth →
          p ≠ (zoneY + (row + r)) * stride + (zoneX + c)) →
        (zelBlitRowsRgb layout zoneX zoneY pix pal cnt dst stride row n).snd p
          = dst p) := by
  induction n with
  | zero => exact fun row dst _ => ⟨rfl, fun r c hr _ => by omega, fun p _ => rfl⟩
  | succ n ih =>
    intro row dst hok
    obtain ⟨hr1, hr2, hr3⟩ := zelBlitRowRgb_ok pix (row * layout.zoneWidth) pal
      cnt ((zoneY + row) * stride + zoneX) layout.zoneWidth 0 dst
      (fun j hj => by
        have h0 := hok 0 j (by omega) hj
        have e : row * layout.zoneWidth + 0 + j
            = (row + 0) * layout.zoneWidth + j := by ring
        rw [e]
        exact h0)
    have hstep : zelBlitRowsRgb layout zoneX zoneY pix pal cnt dst stride row (n + 1)
        = zelBlitRowsRgb layout zoneX zoneY pix pal cnt
            (zelBlitRowRgb pix (row * layout.zoneWidth) pal cnt dst
              ((zoneY + row) * stride + zoneX) 0 layout.zoneWidth).snd
            stride (row + 1) n := by
      rw [show zelBlitRowsRgb layout zoneX zoneY pix pal cnt dst stride row (n + 1)
          = (if (zelBlitRowRgb pix (row * layout.zoneWidth) pal cnt dst
                ((zoneY + row) * stride + zoneX) 0 layout.zoneWidth).fst ≠ ZEL_OK
             then zelBlitRowRgb pix (row * layout.zoneWidth) pal cnt dst
                ((zoneY + row) * stride + zoneX) 0 layout.zoneWidth
             else zelBlitRowsRgb layout zoneX zoneY pix pal cnt
                (zelBlitRowRgb pix (row * layout.zoneWidth) pal cnt dst
                  ((zoneY + row) * stride + zoneX) 0 layout.zoneWidth).snd
                stride (row + 1) n)
          from rfl, if_neg (by rw [hr1]; simp)]
    obtain ⟨ih1, ih2, ih3⟩ := ih (row + 1)
      (zelBlitRowRgb pix (row * layout.zoneWidth) pal cnt dst
        ((zoneY + row) * stride + zoneX) 0 layout.zoneWidth).snd
      (fun r c hr hc => by
        have h0 := hok (r + 1) c (by omega) hc
        have e : (row + 1 + r) * layout.zoneWidth + c
            = (row + (r + 1)) * layout.zoneWidth + c := by ring
        rw [e]
        exact h0)
    rw [hstep]
    refine ⟨ih1, ?_, ?_⟩
    · intro r c hr hc
      match r with
      | 0 =>
        rw [ih3 ((zoneY + (row + 0)) * stride + (zoneX + c)) (fun r2 c2 hr2b hc2 => by
          have e : zoneY + (row + 0) = zoneY + row := by omega
          rw [e]
          exact zelRowsDisjoint stride zoneX layout.zoneWidth (zoneY + row)
            (zoneY + (row + 1 + r2)) c c2 hfit hc hc2 (by omega))]
        have e1 : (zoneY + (row + 0)) * stride + (zoneX + c)
            = (zoneY + row) * stride + zoneX + 0 + c := by ring
        rw [e1, hr2 c hc]
        have e2 : row * layout.zoneWidth + 0 + c
            = (row + 0) * layout.zoneWidth + c := by ring
        rw [e2]
      | r + 1 =>
        have e1 : (zoneY + (row + (r + 1))) * stride + (zoneX + c)
            = (zoneY + (row + 1 + r)) * stride + (zoneX + c) := by ring
        have e2 : (row + (r + 1)) * layout.zoneWidth + c
            = (row + 1 + r) * layout.zoneWidth + c := by ring
        rw [e1, e2]
        exact ih2 r c (by omega) hc
    · intro p hp
      rw [ih3 p (fun r c hr hc => by
        have := hp (r + 1) c (by omega) hc
        have e : zoneY + (row + (r + 1)) = zoneY + (row + 1 + r) := by omega
        rw [e] at this
        exact this)]
      refine hr3 p (fun j hj => ?_)
      have hne := hp 0 j (by omega) hj
      have e : zoneY + (row + 0) = zoneY + row := by omega
      rw [e] at hne
      omega

theorem zelBlitRowsRgb_bad (layout : ZELZoneLayout) (zoneX zoneY : Nat)
    (pix : ZELBuf) (pal : List Nat) (cnt : Nat) (stride : Nat)
    (hfit : zoneX + layout.zoneWidth ≤ stride) (n : Nat) :
    ∀ row dst rowB colB, rowB < n → colB < layout.zoneWidth →
      cnt ≤ pix ((row + rowB) * layout.zoneWidth + colB) →
      (∀ r c, c < layout.zoneWidth → (r < rowB ∨ (r = rowB ∧ c < colB)) →
        pix ((row + r) * layout.zoneWidth + c) < cnt) →
      (zelBlitRowsRgb layout zoneX zoneY pix pal cnt dst stride row n).fst
        = ZEL_ERR_CORRUPT_DATA ∧
      (∀ r c, c < layout.zoneWidth → (r < rowB ∨ (r = rowB ∧ c < colB)) →
        (zelBlitRowsRgb layout zoneX zoneY pix pal cnt dst stride row n).snd
            ((zoneY + (row + r)) * stride + (zoneX + c))
          = pal.getD (pix ((row + r) * layout.zoneWidth + c)) 0) ∧
      (∀ p, (∀ r c, c < layout.zoneWidth → (r < rowB ∨ (r = rowB ∧ c < colB)) →
          p ≠ (zoneY + (row + r)) * stride + (zoneX + c)) →
        (zelBlitRowsRgb layout zoneX zoneY pix pal cnt dst stride row n).snd p
          = dst p) := by
  induction n with
  | zero => intro row dst rowB colB hB; omega
  | succ n ih =>
    intro row dst rowB colB hB hcB hbad hgood
    match rowB with
    | 0 =>
      obtain ⟨hb1, hb2, hb3⟩ := zelBlitRowRgb_bad pix (row * layout.zoneWidth)
        pal cnt ((zoneY + row) * stride + zoneX) layout.zoneWidth 0 dst colB hcB
        (by
          have e : row * layout.zoneWidth + 0 + colB
              = (row + 0) * layout.zoneWidth + colB := by ring
          rw [e]
          exact hbad)
        (fun j hj => by
          have h0 := hgood 0 j (by omega) (Or.inr ⟨rfl, hj⟩)
          have e : row * layout.zoneWidth + 0 + j
              = (row + 0) * layout.zoneWidth + j := by ring
          rw [e]
          exact h0)
      have hstep : zelBlitRowsRgb layout zoneX zoneY pix pal cnt dst stride row (n + 1)
          = zelBlitRowRgb pix (row * layout.zoneWidth) pal cnt dst
              ((zoneY + row) * stride + zoneX) 0 layout.zoneWidth := by
        rw [show zelBlitRowsRgb layout zoneX zoneY pix pal cnt dst stride row (n + 1)
            = (if (zelBlitRowRgb pix (row * layout.zoneWidth) pal cnt dst
                  ((zoneY + row) * stride + zoneX) 0 layout.zoneWidth).fst ≠ ZEL_OK
               then zelBlitRowRgb pix (row * layout.zoneWidth) pal cnt dst
                  ((zoneY + row) * stride + zoneX) 0 layout.zoneWidth
               else zelBlitRowsRgb layout zoneX zoneY pix pal cnt
                  (zelBlitRowRgb pix (row * layout.zoneWidth) pal cnt dst
                    ((zoneY + row) * stride + zoneX) 0 layout.zoneWidth).snd
                  stride (row + 1) n)
            from rfl, if_pos (by rw [hb1]; simp)]
      rw [hstep]
      refine ⟨hb1, ?_, ?_⟩
      · intro r c hc hlex
        have hr0 : r = 0 ∧ c < colB := by omega
        obtain ⟨hr0e, hcB2⟩ := hr0
        subst hr0e
        have e1 : (zoneY + (row + 0)) * stride + (zoneX + c)
            = (zoneY + row) * stride + zoneX + 0 + c := by ring
        have e2 : (row + 0) * layout.zoneWidth + c
            = row * layout.zoneWidth + 0 + c := by ring
        rw [e1, e2]
        exact hb2 c hcB2
      · intro p hp
        refine hb3 p (fun j hj => ?_)
        have hne := hp 0 j (by omega) (Or.inr ⟨rfl, hj⟩)
        have e : zoneY + (row + 0) = zoneY + row := by omega
        rw [e] at hne
        omega
    | r1 + 1 =>
      obtain ⟨hr1, hr2, hr3⟩ := zelBlitRowRgb_ok pix (row * layout.zoneWidth) pal
        cnt ((zoneY + row) * stride + zoneX) layout.zoneWidth 0 dst
        (fun j hj => by
          have h0 := hgood 0 j hj (Or.inl (by omega))
          have e : row * layout.zoneWidth + 0 + j
              = (row + 0) * layout.zoneWidth + j := by ring
          rw [e]
          exact h0)
      have hstep : zelBlitRowsRgb layout zoneX zoneY pix pal cnt dst stride row (n + 1)
          = zelBlitRowsRgb layout zoneX zoneY pix pal cnt
              (zelBlitRowRgb pix (row * layout.zoneWidth) pal cnt dst
                ((zoneY + row) * stride + zoneX) 0 layout.zoneWidth).snd
              stride (row + 1) n := by
        rw [show zelBlitRowsRgb layout zoneX zoneY pix pal cnt dst stride row (n + 1)
            = (if (zelBlitRowRgb pix (row * layout.zoneWidth) pal cnt dst
                  ((zoneY + row) * stride + zoneX) 0 layout.zoneWidth).fst ≠ ZEL_OK
               then zelBlitRowRgb pix (row * layout.zoneWidth) pal cnt dst
                  ((zoneY + row) * stride + zoneX) 0 layout.zoneWidth
               else zelBlitRowsRgb layout zoneX zoneY pix pal cnt
                  (zelBlitRowRgb pix (row * layout.zoneWidth) pal cnt dst
                    ((zoneY + row) * stride + zoneX) 0 layout.zoneWidth).snd
                  stride (row + 1) n)
            from rfl, if_neg (by rw [hr1]; simp)]
      obtain ⟨ih1, ih2, ih3⟩ := ih (row + 1)
        (zelBlitRowRgb pix (row * layout.zoneWidth) pal cnt dst
          ((zoneY + row) * stride + zoneX) 0 layout.zoneWidth).snd
        r1 colB (by omega) hcB
        (by
          have e : (row + 1 + r1) * layout.zoneWidth + colB
              = (row + (r1 + 1)) * layout.zoneWidth + colB := by ring
          rw [e]
          exact hbad)
        (fun r c hc hlex => by
          have h0 := hgood (r + 1) c hc (by omega)
          have e : (row + 1 + r) * layout.zoneWidth + c
              = (row + (r + 1)) * layout.zoneWidth + c := by ring
          rw [e]
          exact h0)
      rw [hstep]
      refine ⟨ih1, ?_, ?_⟩
      · intro r c hc hlex
        match r with
        | 0 =>
          rw [ih3 ((zoneY + (row + 0)) * stride + (zoneX + c))
            (fun r2 c2 hc2 hlex2 => by
              have e : zoneY + (row + 0) = zoneY + row := by omega
              rw [e]
              exact zelRowsDisjoint stride zoneX layout.zoneWidth (zoneY + row)
                (zoneY + (row + 1 + r2)) c c2 hfit hc hc2 (by omega))]
          have e1 : (zoneY + (row + 0)) * stride + (zoneX + c)
              = (zoneY + row) * stride + zoneX + 0 + c := by ring
          have e2 : (row + 0) * layout.zoneWidth + c
              = row * layout.zoneWidth + 0 + c := by ring
          rw [e1, e2]
          exact hr2 c hc
        | r + 1 =>
          have e1 : (zoneY + (row + (r + 1))) * stride + (zoneX + c)
              = (zoneY + (row + 1 + r)) * stride + (zoneX + c) := by ring
          have e2 : (row + (r + 1)) * layout.zoneWidth + c
              = (row + 1 + r) * layout.zoneWidth + c := by ring
          rw [e1, e2]
          exact ih2 r c hc (by omega)
      · intro p hp
        rw [ih3 p (fun r c hc hlex => by
          have hne := hp (r + 1) c hc (by omega)
          have e : zoneY + (row + (r + 1)) = zoneY + (row + 1 + r) := by omega
          rw [e] at hne
          exact hne)]
        refine hr3 p (fun j hj => ?_)
        have hne := hp 0 j hj (Or.inl (by omega))
        have e : zoneY + (row + 0) = zoneY + row := by omega
        rw [e] at hne
        omega

theorem zelBlitZoneRgb_ok (layout : ZELZoneLayout) (zoneIndex : Nat)
    (pix : ZELBuf) (pal : List Nat) (cnt : Nat) (dst : ZELBuf) (stride : Nat)
    (hfit : zoneIndex % layout.zonesPerRow * layout.zoneWidth
      + layout.zoneWidth ≤ stride)
    (hok : ∀ row col, row < layout.zoneHeight → col < layout.zoneWidth →
      pix (row * layout.zoneWidth + col) < cnt) :
    (zelBlitZoneRgb layout zoneIndex pix pal cnt dst stride).fst = ZEL_OK ∧
    (∀ row col, row < layout.zoneHeight → col < layout.zoneWidth →
      (zelBlitZoneRgb layout zoneIndex pix pal cnt dst stride).snd
          (zelZonePos layout stride zoneIndex row col)
        = pal.getD (pix (row * layout.zoneWidth + col)) 0) ∧
    (∀ p, (∀ row col, row < layout.zoneHeight → col < layout.zoneWidth →
        p ≠ zelZonePos layout stride zoneIndex row col) →
      (zelBlitZoneRgb layout zoneIndex pix pal cnt dst stride).snd p = dst p) := by
  obtain ⟨h1, h2, h3⟩ := zelBlitRowsRgb_ok layout
    (zoneIndex % layout.zonesPerRow * layout.zoneWidth)
    (zoneIndex / layout.zonesPerRow * layout.zoneHeight) pix pal cnt stride hfit
    layout.zoneHeight 0 dst
    (fun r c hr hc => by
      have h0 := hok r c hr hc
      have e : (0 + r) * layout.zoneWidth + c = r * layout.zoneWidth + c := by ring
      rw [e]
      exact h0)
  refine ⟨h1, ?_, ?_⟩
  · intro row col hr hc
    have h0 := h2 row col hr hc
    have e1 : (zoneIndex / layout.zonesPerRow * layout.zoneHeight + (0 + row)) * stride
        + (zoneIndex % layout.zonesPerRow * layout.zoneWidth + col)
        = zelZonePos layout stride zoneIndex row col := by
      unfold zelZonePos; ring
    have e2 : (0 + row) * layout.zoneWidth + col = row * layout.zoneWidth + col := by
      ring
    rw [e1, e2] at h0
    exact h0
  · intro p hp
    refine h3 p (fun r c hr hc => ?_)
    have hne := hp r c hr hc
    have e : (zoneIndex / layout.zonesPerRow * layout.zoneHeight + (0 + r)) * stride
        + (zoneIndex % layout.zonesPerRow * layout.zoneWidth + c)
        = zelZonePos layout stride zoneIndex r c := by
      unfold zelZonePos; ring
    rw [e]
    exact hne

theorem zelBlitZoneRgb_bad (layout : ZELZoneLayout) (zoneIndex : Nat)
    (pix : ZELBuf) (pal : List Nat) (cnt : Nat) (dst : ZELBuf) (stride : Nat)
    (hfit : zoneIndex % layout.zonesPerRow * layout.zoneWidth
      + layout.zoneWidth ≤ stride)
    (rowB colB : Nat) (hrB : rowB < layout.zoneHeight) (hcB : colB < layout.zoneWidth)
    (hbad : cnt ≤ pix (rowB * layout.zoneWidth + colB))
    (hgood : ∀ row col, col < layout.zoneWidth →
      (row < rowB ∨ (row = rowB ∧ col < colB)) →
      pix (row * layout.zoneWidth + col) < cnt) :
    (zelBlitZoneRgb layout zoneIndex pix pal cnt dst stride).fst
      = ZEL_ERR_CORRUPT_DATA ∧
    (∀ row col, col < layout.zoneWidth →
      (row < rowB ∨ (row = rowB ∧ col < colB)) →
      (zelBlitZoneRgb layout zoneIndex pix pal cnt dst stride).snd
          (zelZonePos layout stride zoneIndex row col)
        = pal.getD (pix (row * layout.zoneWidth + col)) 0) ∧
    (∀ p, (∀ row col, col < layout.zoneWidth →
        (row < rowB ∨ (row = rowB ∧ col < colB)) →
        p ≠ zelZonePos layout stride zoneIndex row col) →
      (zelBlitZoneRgb layout zoneIndex pix pal cnt dst stride).snd p = dst p) := by
  obtain ⟨h1, h2, h3⟩ := zelBlitRowsRgb_bad layout
    (zoneIndex % layout.zonesPerRow * layout.zoneWidth)
    (zoneIndex / layout.zonesPerRow * layout.zoneHeight) pix pal cnt stride hfit
    layout.zoneHeight 0 dst rowB colB hrB hcB
    (by
      have e : (0 + rowB) * layout.zoneWidth + colB
          = rowB * layout.zoneWidth + colB := by ring
      rw [e]
      exact hbad)
    (fun r c hc hlex => by
      have h0 := hgood r c hc hlex
      have e : (0 + r) * layout.zoneWidth + c = r * layout.zoneWidth + c := by ring
      rw [e]
      exact h0)
  refine ⟨h1, ?_, ?_⟩
  · intro row col hc hlex
    have h0 := h2 row col hc hlex
    have e1 : (zoneIndex / layout.zonesPerRow * layout.zoneHeight + (0 + row)) * stride
        + (zoneIndex % layout.zonesPerRow * layout.zoneWidth + col)
        = zelZonePos layout stride zoneIndex row col := by
      unfold zelZonePos; ring
    have e2 : (0 + row) * layout.zoneWidth + col = row * layout.zoneWidth + col := by
      ring
    rw [e1, e2] at h0
    exact h0
  · intro p hp
    refine h3 p (fun r c hc hlex => ?_)
    have hne := hp r c hc hlex
    have e : (zoneIndex / layout.zonesPerRow * layout.zoneHeight + (0 + r)) * stride
        + (zoneIndex % layout.zonesPerRow * layout.zoneWidth + c)
        = zelZonePos layout stride zoneIndex r c := by
      unfold zelZonePos; ring
    rw [e]
    exact hne

theorem zelSpecCopyRows_eq_blit (layout : ZELZoneLayout) (zoneX zoneY : Nat)
    (zoneBuf dst : ZELBuf) (stride : Nat) :
    ∀ n, zelSpecCopyRows zoneBuf dst zoneX zoneY layout.zoneWidth stride n
      = zelBlitRowsIndices layout zoneX zoneY zoneBuf dst stride n := by
  intro n
  induction n with
  | zero => rfl
  | succ n ih =>
    show zelCopyRow zoneBuf (n * layout.zoneWidth)
        (zelSpecCopyRows zoneBuf dst zoneX zoneY layout.zoneWidth stride n)
        ((zoneY + n) * stride + zoneX) layout.zoneWidth
      = zelCopyRow zoneBuf (n * layout.zoneWidth)
        (zelBlitRowsIndices layout zoneX zoneY zoneBuf dst stride n)
        ((zoneY + n) * stride + zoneX) layout.zoneWidth
    rw [ih]

theorem zelSpecCopyZone_eq_blit (layout : ZELZoneLayout) (zoneIndex : Nat)
    (zoneBuf dst : ZELBuf) (stride : Nat) :
    zelSpecCopyZone layout zoneIndex zoneBuf dst stride
      = zelBlitZoneIndices layout zoneIndex zoneBuf dst stride := by
  unfold zelSpecCopyZone zelBlitZoneIndices zelZoneIndexToCoordinates
  exact zelSpecCopyRows_eq_blit layout _ _ zoneBuf dst stride layout.zoneHeight

theorem zelSpecAssembleAux_out (layout : ZELZoneLayout) (stride : Nat) :
    ∀ (Bs : List ZELBuf) (dst : ZELBuf) (z0 : Nat) (p : Nat),
      (∀ j row col, j < Bs.length → row < layout.zoneHeight →
        col < layout.zoneWidth → p ≠ zelZonePos layout stride (z0 + j) row col) →
      zelSpecAssembleAux layout stride Bs dst z0 p = dst p := by
  intro Bs
  induction Bs with
  | nil => intro dst z0 p _; rfl
  | cons B rest ih =>
    intro dst z0 p hp
    show zelSpecAssembleAux layout stride rest
      (zelSpecCopyZone layout z0 B dst stride) (z0 + 1) p = dst p
    rw [ih (zelSpecCopyZone layout z0 B dst stride) (z0 + 1) p
      (fun j row col hj hr hc => by
        have hne := hp (j + 1) row col (by simp; omega) hr hc
        have e : z0 + (j + 1) = z0 + 1 + j := by omega
        rw [e] at hne
        exact hne)]
    rw [zelSpecCopyZone_eq_blit]
    exact zelBlitZoneIndices_out layout z0 B dst stride p
      (fun row col hr hc => by
        have hne := hp 0 row col (by simp) hr hc
        have e : z0 + 0 = z0 := by omega
        rw [e] at hne
        exact hne)

theorem zelSpecAssembleAux_in (layout : ZELZoneLayout) (stride : Nat)
    (hg : zelLayoutGeom layout stride) :
    ∀ (Bs : List ZELBuf) (dst : ZELBuf) (z0 : Nat) (j row col : Nat),
      j < Bs.length → row < layout.zoneHeight → col < layout.zoneWidth →
      zelSpecAssembleAux layout stride Bs dst z0
          (zelZonePos layout stride (z0 + j) row col)
        = (Bs.getD j (fun _ => 0)) (row * layout.zoneWidth + col) := by
  intro Bs
  induction Bs with
  | nil => intro dst z0 j row col hj; simp at hj
  | cons B rest ih =>
    intro dst z0 j row col hj hr hc
    show zelSpecAssembleAux layout stride rest
        (zelSpecCopyZone layout z0 B dst stride) (z0 + 1)
        (zelZonePos layout stride (z0 + j) row col)
      = (List.getD (B :: rest) j (fun _ => 0)) (row * layout.zoneWidth + col)
    match j with
    | 0 =>
      rw [zelSpecAssembleAux_out layout stride rest _ (z0 + 1) _
        (fun j2 r2 c2 hj2 hr2 hc2 => by
          intro hcontra
          have e : z0 + 0 = z0 := by omega
          rw [e] at hcontra
          obtain ⟨hz, -, -⟩ := zelZonePos_inj layout stride hg z0 row col
            (z0 + 1 + j2) r2 c2 hr hc hr2 hc2 hcontra
          omega)]
      rw [zelSpecCopyZone_eq_blit]
      have e : z0 + 0 = z0 := by omega
      rw [e]
      have hfit : z0 % layout.zonesPerRow * layout.zoneWidth
          + layout.zoneWidth ≤ stride := by
        have hm : z0 % layout.zonesPerRow < layout.zonesPerRow :=
          Nat.mod_lt _ hg.zpr_pos
        calc z0 % layout.zonesPerRow * layout.zoneWidth + layout.zoneWidth
            = (z0 % layout.zonesPerRow + 1) * layout.zoneWidth := by ring
          _ ≤ layout.zonesPerRow * layout.zoneWidth :=
              Nat.mul_le_mul_right _ (by omega)
          _ ≤ stride := hg.row_fit
      exact zelBlitZoneIndices_in layout z0 B dst stride hfit row col hr hc
    | j + 1 =>
      have e : z0 + (j + 1) = (z0 + 1) + j := by omega
      rw [e]
      have h0 := ih (zelSpecCopyZone layout z0 B dst stride) (z0 + 1) j row col
        (by simpa using hj) hr hc
      rw [h0]
      rfl

theorem zelComputeZoneLayout_ok_facts (ctx : ZELContext) (layout : ZELZoneLayout)
    (h : zelComputeZoneLayout ctx = (ZEL_OK, layout)) :
    0 < layout.zoneWidth ∧ 0 < layout.zoneHeight ∧ 0 < layout.zonesPerRow ∧
    layout.zonesPerRow * layout.zoneWidth = ctx.header.width ∧
    layout.zoneCount = layout.zonesPerRow * layout.zonesPerCol ∧
    layout.zonePixelBytes = layout.zoneWidth * layout.zoneHeight := by
  unfold zelComputeZoneLayout at h
  dsimp only at h
  split_ifs at h with h1 h2 h3 h4 h5
  any_goals simp at h
  subst h
  push_neg at h1 h2 h3
  dsimp only
  refine ⟨by omega, by omega, ?_, ?_, rfl, rfl⟩
  · exact Nat.pos_of_ne_zero h3.1
  · exact Nat.div_mul_cancel (Nat.dvd_of_mod_eq_zero h2.1)

theorem zelLayoutGeom_of_compute (ctx : ZELContext) (layout : ZELZoneLayout)
    (stride : Nat) (h : zelComputeZoneLayout ctx = (ZEL_OK, layout))
    (hs : ctx.header.width ≤ stride) : zelLayoutGeom layout stride := by
  obtain ⟨h1, h2, h3, h4, h5, h6⟩ := zelComputeZoneLayout_ok_facts ctx layout h
  exact ⟨h1, h2, h3, h5, by omega, h6⟩

set_option maxHeartbeats 1000000 in
theorem zelInitFrameZoneStream_ok_facts (ctx : ZELContext) (f : Nat)
    (s : ZELFrameZoneStream) (h : zelInitFrameZoneStream ctx f = (ZEL_OK, s)) :
    zelComputeZoneLayout ctx = (ZEL_OK, s.layout) ∧
    s.frameDataEnd = s.frameOffset + s.frameSize := by
  unfold zelInitFrameZoneStream at h
  dsimp only at h
  generalize hFI : ctx.frameIndexTable.getD f default = FI at h
  generalize hFB : (ctx.data.drop FI.frameOffset).take FI.frameSize = FB at h
  generalize hFH : zelParseFrameHeader FB 0 = FH at h
  generalize hSL : zelSkipLocalPalette FB FI.frameSize FH.headerSize = SL at h
  generalize hRL : zelComputeZoneLayout ctx = RL at h
  generalize hR1 : (if FH.flags.hasLocalPalette = true
    then SL else (ZEL_OK, FH.headerSize)) = R1 at h
  split at h
  · rw [Prod.mk.injEq] at h
    exact absurd h.1 (by decide)
  split at h
  · rw [Prod.mk.injEq] at h
    exact absurd h.1 (by decide)
  split at h
  · rw [Prod.mk.injEq] at h
    exact absurd h.1 (by decide)
  split at h
  · rw [Prod.mk.injEq] at h
    exact absurd h.1 (by decide)
  split at h
  · rw [Prod.mk.injEq] at h
    exact absurd h.1 (by decide)
  split at h
  · rename_i hr1
    rw [Prod.mk.injEq] at h
    exact absurd h.1 (by simpa using hr1)
  split at h
  · rw [Prod.mk.injEq] at h
    exact absurd h.1 (by decide)
  split at h
  · rename_i hrl
    rw [Prod.mk.injEq] at h
    exact absurd h.1 (by simpa using hrl)
  split at h
  · rw [Prod.mk.injEq] at h
    exact absurd h.1 (by decide)
  rename_i hr1bad hrel hrl hzc
  rw [Prod.mk.injEq] at h
  have hlay := h.2
  subst hlay
  refine ⟨?_, rfl⟩
  rw [show RL = (RL.fst, RL.snd) from rfl, not_not.mp hrl]

theorem zelResolveGlobalPalette_preserves (ctx : ZELContext) :
    ((zelResolveGlobalPalette ctx).snd.fst).data = ctx.data ∧
    ((zelResolveGlobalPalette ctx).snd.fst).header = ctx.header ∧
    ((zelResolveGlobalPalette ctx).snd.fst).frameIndexTable
      = ctx.frameIndexTable := by
  unfold zelResolveGlobalPalette
  cases hraw : ctx.globalPaletteRaw with
  | none => exact ⟨rfl, rfl, rfl⟩
  | some raw =>
    dsimp only
    split_ifs <;> exact ⟨rfl, rfl, rfl⟩

theorem zelResolveLocalPalette_preserves (ctx : ZELContext)
    (ph : ZELPaletteHeader) (pd : List Nat) :
    ((zelResolveLocalPalette ctx ph pd).snd.fst).data = ctx.data ∧
    ((zelResolveLocalPalette ctx ph pd).snd.fst).header = ctx.header ∧
    ((zelResolveLocalPalette ctx ph pd).snd.fst).frameIndexTable
      = ctx.frameIndexTable := by
  unfold zelResolveLocalPalette
  dsimp only
  split_ifs <;> exact ⟨rfl, rfl, rfl⟩

set_option maxHeartbeats 1000000 in
theorem zelGetFramePalette_ctx_cases (ctx : ZELContext) (f : Nat)
    (out : ZELResult × ZELContext × ZELPaletteView)
    (h : zelGetFramePalette ctx f = out) :
    out.snd.fst = ctx ∨ out.snd.fst = (zelResolveGlobalPalette ctx).snd.fst := by
  unfold zelGetFramePalette at h
  dsimp only at h
  generalize hFI : ctx.frameIndexTable.getD f default = FI at h
  generalize hFH : zelParseFrameHeader ctx.data FI.frameOffset = FH at h
  generalize hPH : zelParsePaletteHeader ctx.data (FI.frameOffset + FH.headerSize) = PH at h
  generalize hPD : zelU16ListAt ctx.data
    (FI.frameOffset + FH.headerSize + PH.headerSize) PH.entryCount = PD at h
  by_cases hc1 : f ≥ ctx.header.frameCount
  · rw [if_pos hc1] at h
    subst h; left; rfl
  rw [if_neg hc1] at h
  by_cases hc2 : ¬FI.flags.hasLocalPalette = true
  · rw [if_pos hc2] at h
    subst h; right; rfl
  rw [if_neg hc2] at h
  by_cases hc3 : FI.frameSize = 0
  · rw [if_pos hc3] at h
    subst h; left; rfl
  rw [if_neg hc3] at h
  by_cases hc4 : ¬zelRangeFits FI.frameOffset FI.frameSize ctx.size = true
  · rw [if_pos hc4] at h
    subst h; left; rfl
  rw [if_neg hc4] at h
  by_cases hc5 : ¬zelRangeFits FI.frameOffset 14 ctx.size = true
  · rw [if_pos hc5] at h
    subst h; left; rfl
  rw [if_neg hc5] at h
  by_cases hc6 : FH.localPaletteEntryCount = 0
  · rw [if_pos hc6] at h
    subst h; left; rfl
  rw [if_neg hc6] at h
  by_cases hc7 : FI.frameOffset + FH.headerSize > FI.frameOffset + FI.frameSize
      ∨ ¬zelRangeFits (FI.frameOffset + FH.headerSize) 8 ctx.size = true
      ∨ 8 > FI.frameOffset + FI.frameSize - (FI.frameOffset + FH.headerSize)
  · rw [if_pos hc7] at h
    subst h; left; rfl
  rw [if_neg hc7] at h
  by_cases hc8 : PH.headerSize < 8
  · rw [if_pos hc8] at h
    subst h; left; rfl
  rw [if_neg hc8] at h
  by_cases hc9 : ¬zelIsValidColorEncoding PH.colorEncoding = true
  · rw [if_pos hc9] at h
    subst h; left; rfl
  rw [if_neg hc9] at h
  by_cases hc10 : PH.entryCount = 0
  · rw [if_pos hc10] at h
    subst h; left; rfl
  rw [if_neg hc10] at h
  by_cases hc11 : ¬zelRangeFits (FI.frameOffset + FH.headerSize + PH.headerSize)
      (PH.entryCount * 2) ctx.size = true
  · rw [if_pos hc11] at h
    subst h; left; rfl
  rw [if_neg hc11] at h
  by_cases hc12 : FI.frameOffset + FH.headerSize + PH.headerSize
        > FI.frameOffset + FI.frameSize
      ∨ PH.entryCount * 2
        > FI.frameOffset + FI.frameSize
          - (FI.frameOffset + FH.headerSize + PH.headerSize)
  · rw [if_pos hc12] at h
    subst h; left; rfl
  rw [if_neg hc12] at h
  subst h
  left
  unfold zelResolveLocalPalette
  dsimp only
  split_ifs <;> rfl

theorem zelGetFramePalette_preserves (ctx : ZELContext) (f : Nat) :
    ((zelGetFramePalette ctx f).snd.fst).data = ctx.data ∧
    ((zelGetFramePalette ctx f).snd.fst).header = ctx.header ∧
    ((zelGetFramePalette ctx f).snd.fst).frameIndexTable
      = ctx.frameIndexTable := by
  rcases zelGetFramePalette_ctx_cases ctx f _ rfl with hc | hc
  · rw [hc]
    exact ⟨rfl, rfl, rfl⟩
  · rw [hc]
    exact zelResolveGlobalPalette_preserves ctx

theorem zelInitFrameZoneStream_congr (c1 c2 : ZELContext) (f : Nat)
    (hd : c1.data = c2.data) (hh : c1.header = c2.header)
    (ht : c1.frameIndexTable = c2.frameIndexTable) :
    zelInitFrameZoneStream c1 f = zelInitFrameZoneStream c2 f := by
  unfold zelInitFrameZoneStream zelComputeZoneLayout ZELContext.size
  rw [hd, hh, ht]

theorem zelLocateZoneChunkAux_step (s : ZELFrameZoneStream) (cursor n : Nat)
    (c2 pr sz : Nat)
    (hread : zelReadZoneChunkAtCursor s cursor = (ZEL_OK, c2, pr, sz)) :
    zelLocateZoneChunkAux s cursor (n + 1) = zelLocateZoneChunkAux s c2 n := by
  rw [show zelLocateZoneChunkAux s cursor (n + 1)
      = (if (zelReadZoneChunkAtCursor s cursor).fst ≠ ZEL_OK
         then zelReadZoneChunkAtCursor s cursor
         else zelLocateZoneChunkAux s
           (zelReadZoneChunkAtCursor s cursor).snd.fst n) from rfl]
  rw [hread]
  simp

theorem zelZoneFit (layout : ZELZoneLayout) (stride : Nat)
    (hg : zelLayoutGeom layout stride) (z : Nat) :
    z % layout.zonesPerRow * layout.zoneWidth + layout.zoneWidth ≤ stride := by
  have hm : z % layout.zonesPerRow < layout.zonesPerRow := Nat.mod_lt _ hg.zpr_pos
  calc z % layout.zonesPerRow * layout.zoneWidth + layout.zoneWidth
      = (z % layout.zonesPerRow + 1) * layout.zoneWidth := by ring
    _ ≤ layout.zonesPerRow * layout.zoneWidth := Nat.mul_le_mul_right _ (by omega)
    _ ≤ stride := hg.row_fit

theorem zelDecodeIndex8Loop_spec (s : ZELFrameZoneStream) (lz4 : ZELLz4)
    (stride : Nat) (hg : zelLayoutGeom s.layout stride) (r : Nat) :
    ∀ zi cursor dst buf fin,
      zelDecodeIndex8Loop s lz4 stride zi cursor dst r = (ZEL_OK, buf, fin) →
      (∀ z, zi ≤ z → z < zi + r →
        (zelLocateZoneChunkAux s cursor (z - zi)).fst = ZEL_OK ∧
        (zelAccessZonePixels s lz4
            (zelLocateZoneChunkAux s cursor (z - zi)).snd.snd.fst
            (zelLocateZoneChunkAux s cursor (z - zi)).snd.snd.snd).fst = ZEL_OK ∧
        (∀ row col, row < s.layout.zoneHeight → col < s.layout.zoneWidth →
          buf (zelZonePos s.layout stride z row col)
            = (zelAccessZonePixels s lz4
                (zelLocateZoneChunkAux s cursor (z - zi)).snd.snd.fst
                (zelLocateZoneChunkAux s cursor (z - zi)).snd.snd.snd).snd
                (row * s.layout.zoneWidth + col))) ∧
      (∀ p, (∀ z row col, zi ≤ z → z < zi + r → row < s.layout.zoneHeight →
          col < s.layout.zoneWidth → p ≠ zelZonePos s.layout stride z row col) →
        buf p = dst p) := by
  induction r with
  | zero =>
    intro zi cursor dst buf fin h
    rw [show zelDecodeIndex8Loop s lz4 stride zi cursor dst 0
        = (ZEL_OK, dst, cursor) from rfl, Prod.mk.injEq, Prod.mk.injEq] at h
    obtain ⟨-, hbuf, -⟩ := h
    exact ⟨fun z hz1 hz2 => by omega, fun p _ => by rw [← hbuf]⟩
  | succ r ih =>
    intro zi cursor dst buf fin h
    rw [show zelDecodeIndex8Loop s lz4 stride zi cursor dst (r + 1)
        = (if (zelReadZoneChunkAtCursor s cursor).fst ≠ ZEL_OK
           then ((zelReadZoneChunkAtCursor s cursor).fst, dst,
                 (zelReadZoneChunkAtCursor s cursor).snd.fst)
           else if (zelAccessZonePixels s lz4
                  (zelReadZoneChunkAtCursor s cursor).snd.snd.fst
                  (zelReadZoneChunkAtCursor s cursor).snd.snd.snd).fst ≠ ZEL_OK
           then ((zelAccessZonePixels s lz4
                  (zelReadZoneChunkAtCursor s cursor).snd.snd.fst
                  (zelReadZoneChunkAtCursor s cursor).snd.snd.snd).fst, dst,
                 (zelReadZoneChunkAtCursor s cursor).snd.fst)
           else zelDecodeIndex8Loop s lz4 stride (zi + 1)
                  (zelReadZoneChunkAtCursor s cursor).snd.fst
                  (zelBlitZoneIndices s.layout zi
                    (zelAccessZonePixels s lz4
                      (zelReadZoneChunkAtCursor s cursor).snd.snd.fst
                      (zelReadZoneChunkAtCursor s cursor).snd.snd.snd).snd
                    dst stride) r) from rfl] at h
    by_cases hrc : (zelReadZoneChunkAtCursor s cursor).fst = ZEL_OK
    case neg =>
      rw [if_pos (by simpa using hrc)] at h
      rw [Prod.mk.injEq] at h
      exact absurd h.1 hrc
    case pos =>
      rw [if_neg (by simpa using hrc)] at h
      by_cases hra : (zelAccessZonePixels s lz4
          (zelReadZoneChunkAtCursor s cursor).snd.snd.fst
          (zelReadZoneChunkAtCursor s cursor).snd.snd.snd).fst = ZEL_OK
      case neg =>
        rw [if_pos (by simpa using hra)] at h
        rw [Prod.mk.injEq] at h
        exact absurd h.1 hra
      case pos =>
        rw [if_neg (by simpa using hra)] at h
        have hread_eq : zelReadZoneChunkAtCursor s cursor
            = (ZEL_OK, (zelReadZoneChunkAtCursor s cursor).snd.fst,
               (zelReadZoneChunkAtCursor s cursor).snd.snd.fst,
               (zelReadZoneChunkAtCursor s cursor).snd.snd.snd) := by
          rw [show zelReadZoneChunkAtCursor s cursor
              = ((zelReadZoneChunkAtCursor s cursor).fst,
                 (zelReadZoneChunkAtCursor s cursor).snd.fst,
                 (zelReadZoneChunkAtCursor s cursor).snd.snd.fst,
                 (zelReadZoneChunkAtCursor s cursor).snd.snd.snd) from rfl, hrc]
        obtain ⟨ih1, ih2⟩ := ih (zi + 1)
          (zelReadZoneChunkAtCursor s cursor).snd.fst
          (zelBlitZoneIndices s.layout zi
            (zelAccessZonePixels s lz4
              (zelReadZoneChunkAtCursor s cursor).snd.snd.fst
              (zelReadZoneChunkAtCursor s cursor).snd.snd.snd).snd
            dst stride) buf fin h
        constructor
        · intro z hz1 hz2
          by_cases hz0 : z = zi
          · subst hz0
            rw [show z - z = 0 from by omega]
            rw [show zelLocateZoneChunkAux s cursor 0
                = zelReadZoneChunkAtCursor s cursor from rfl]
            refine ⟨hrc, hra, ?_⟩
            intro row col hr hc
            rw [ih2 (zelZonePos s.layout stride z row col)
              (fun z2 row2 col2 hz21 hz22 hr2 hc2 => by
                intro hcontra
                obtain ⟨hzz, -, -⟩ := zelZonePos_inj s.layout stride hg z row col
                  z2 row2 col2 hr hc hr2 hc2 hcontra
                omega)]
            exact zelBlitZoneIndices_in s.layout z _ dst stride
              (zelZoneFit s.layout stride hg z) row col hr hc
          · have hzgt : zi + 1 ≤ z := by omega
            have hsub : z - zi = (z - (zi + 1)) + 1 := by omega
            rw [hsub, zelLocateZoneChunkAux_step s cursor (z - (zi + 1))
              (zelReadZoneChunkAtCursor s cursor).snd.fst
              (zelReadZoneChunkAtCursor s cursor).snd.snd.fst
              (zelReadZoneChunkAtCursor s cursor).snd.snd.snd hread_eq]
            exact ih1 z hzgt (by omega)
        · intro p hp
          rw [ih2 p (fun z row col hz1 hz2 hr hc =>
            hp z row col (by omega) (by omega) hr hc)]
          exact zelBlitZoneIndices_out s.layout zi _ dst stride p
            (fun row col hr hc => hp zi row col (by omega) (by omega) hr hc)

theorem zelBlitZoneRgb_ok_indices (layout : ZELZoneLayout) (zoneIndex : Nat)
    (pix : ZELBuf) (pal : List Nat) (cnt : Nat) (dst : ZELBuf) (stride : Nat)
    (hfit : zoneIndex % layout.zonesPerRow * layout.zoneWidth
      + layout.zoneWidth ≤ stride)
    (hok : (zelBlitZoneRgb layout zoneIndex pix pal cnt dst stride).fst = ZEL_OK) :
    ∀ row col, row < layout.zoneHeight → col < layout.zoneWidth →
      pix (row * layout.zoneWidth + col) < cnt := by
  by_contra hcon
  push_neg at hcon
  obtain ⟨rowX, colX, hrX, hcX, hbadX⟩ := hcon
  have hzw : 0 < layout.zoneWidth := by omega
  have hex : ∃ k, k < layout.zoneHeight * layout.zoneWidth ∧ cnt ≤ pix k := by
    refine ⟨rowX * layout.zoneWidth + colX, ?_, hbadX⟩
    calc rowX * layout.zoneWidth + colX
        < (rowX + 1) * layout.zoneWidth := by rw [Nat.succ_mul]; omega
      _ ≤ layout.zoneHeight * layout.zoneWidth :=
          Nat.mul_le_mul_right _ (by omega)
  obtain ⟨hk0r, hk0bad⟩ := Nat.find_spec hex
  have hk0eq : Nat.find hex / layout.zoneWidth * layout.zoneWidth
      + Nat.find hex % layout.zoneWidth = Nat.find hex := by
    rw [Nat.mul_comm]
    exact Nat.div_add_mod _ _
  have hrB : Nat.find hex / layout.zoneWidth < layout.zoneHeight :=
    (Nat.div_lt_iff_lt_mul hzw).mpr hk0r
  have hcB : Nat.find hex % layout.zoneWidth < layout.zoneWidth :=
    Nat.mod_lt _ hzw
  have hbadB : cnt ≤ pix (Nat.find hex / layout.zoneWidth * layout.zoneWidth
      + Nat.find hex % layout.zoneWidth) := by
    rw [hk0eq]
    exact hk0bad
  have hgood : ∀ row col, col < layout.zoneWidth →
      (row < Nat.find hex / layout.zoneWidth ∨
       (row = Nat.find hex / layout.zoneWidth ∧
        col < Nat.find hex % layout.zoneWidth)) →
      pix (row * layout.zoneWidth + col) < cnt := by
    intro row col hc hlex
    by_contra hb
    push_neg at hb
    have hklt : row * layout.zoneWidth + col < Nat.find hex := by
      rcases hlex with hlt | ⟨heq, hclt⟩
      · have h1 : (row + 1) * layout.zoneWidth
            ≤ Nat.find hex / layout.zoneWidth * layout.zoneWidth :=
          Nat.mul_le_mul_right _ (by omega)
        rw [Nat.succ_mul] at h1
        omega
      · subst heq
        omega
    exact absurd ⟨by omega, hb⟩ (Nat.find_min hex hklt)
  obtain ⟨hfstbad, -, -⟩ := zelBlitZoneRgb_bad layout zoneIndex pix pal cnt dst
    stride hfit _ _ hrB hcB hbadB hgood
  rw [hok] at hfstbad
  exact ZELResult.noConfusion hfstbad

theorem zelDecodeRgbLoop_spec (s : ZELFrameZoneStream) (lz4 : ZELLz4)
    (pal : List Nat) (cnt : Nat) (stride : Nat)
    (hg : zelLayoutGeom s.layout stride) (r : Nat) :
    ∀ zi cursor dst buf fin,
      zelDecodeRgbLoop s lz4 pal cnt stride zi cursor dst r = (ZEL_OK, buf, fin) →
      (∀ z, zi ≤ z → z < zi + r →
        (zelLocateZoneChunkAux s cursor (z - zi)).fst = ZEL_OK ∧
        (zelAccessZonePixels s lz4
            (zelLocateZoneChunkAux s cursor (z - zi)).snd.snd.fst
            (zelLocateZoneChunkAux s cursor (z - zi)).snd.snd.snd).fst = ZEL_OK ∧
        (∀ row col, row < s.layout.zoneHeight → col < s.layout.zoneWidth →
          (zelAccessZonePixels s lz4
              (zelLocateZoneChunkAux s cursor (z - zi)).snd.snd.fst
              (zelLocateZoneChunkAux s cursor (z - zi)).snd.snd.snd).snd
              (row * s.layout.zoneWidth + col) < cnt) ∧
        (∀ row col, row < s.layout.zoneHeight → col < s.layout.zoneWidth →
          buf (zelZonePos s.layout stride z row col)
            = pal.getD ((zelAccessZonePixels s lz4
                (zelLocateZoneChunkAux s cursor (z - zi)).snd.snd.fst
                (zelLocateZoneChunkAux s cursor (z - zi)).snd.snd.snd).snd
                (row * s.layout.zoneWidth + col)) 0)) ∧
      (∀ p, (∀ z row col, zi ≤ z → z < zi + r → row < s.layout.zoneHeight →
          col < s.layout.zoneWidth → p ≠ zelZonePos s.layout stride z row col) →
        buf p = dst p) := by
  induction r with
  | zero =>
    intro zi cursor dst buf fin h
    rw [show zelDecodeRgbLoop s lz4 pal cnt stride zi cursor dst 0
        = (ZEL_OK, dst, cursor) from rfl, Prod.mk.injEq, Prod.mk.injEq] at h
    obtain ⟨-, hbuf, -⟩ := h
    exact ⟨fun z hz1 hz2 => by omega, fun p _ => by rw [← hbuf]⟩
  | succ r ih =>
    intro zi cursor dst buf fin h
    rw [show zelDecodeRgbLoop s lz4 pal cnt stride zi cursor dst (r + 1)
        = (if (zelReadZoneChunkAtCursor s cursor).fst ≠ ZEL_OK
           then ((zelReadZoneChunkAtCursor s cursor).fst, dst,
                 (zelReadZoneChunkAtCursor s cursor).snd.fst)
           else if (zelAccessZonePixels s lz4
                  (zelReadZoneChunkAtCursor s cursor).snd.snd.fst
                  (zelReadZoneChunkAtCursor s cursor).snd.snd.snd).fst ≠ ZEL_OK
           then ((zelAccessZonePixels s lz4
                  (zelReadZoneChunkAtCursor s cursor).snd.snd.fst
                  (zelReadZoneChunkAtCursor s cursor).snd.snd.snd).fst, dst,
                 (zelReadZoneChunkAtCursor s cursor).snd.fst)
           else if (zelBlitZoneRgb s.layout zi
                  (zelAccessZonePixels s lz4
                    (zelReadZoneChunkAtCursor s cursor).snd.snd.fst
                    (zelReadZoneChunkAtCursor s cursor).snd.snd.snd).snd
                  pal cnt dst stride).fst ≠ ZEL_OK
           then ((zelBlitZoneRgb s.layout zi
                  (zelAccessZonePixels s lz4
                    (zelReadZoneChunkAtCursor s cursor).snd.snd.fst
                    (zelReadZoneChunkAtCursor s cursor).snd.snd.snd).snd
                  pal cnt dst stride).fst,
                 (zelBlitZoneRgb s.layout zi
                  (zelAccessZonePixels s lz4
                    (zelReadZoneChunkAtCursor s cursor).snd.snd.fst
                    (zelReadZoneChunkAtCursor s cursor).snd.snd.snd).snd
                  pal cnt dst stride).snd,
                 (zelReadZoneChunkAtCursor s cursor).snd.fst)
           else zelDecodeRgbLoop s lz4 pal cnt stride (zi + 1)
                  (zelReadZoneChunkAtCursor s cursor).snd.fst
                  (zelBlitZoneRgb s.layout zi
                    (zelAccessZonePixels s lz4
                      (zelReadZoneChunkAtCursor s cursor).snd.snd.fst
                      (zelReadZoneChunkAtCursor s cursor).snd.snd.snd).snd
                    pal cnt dst stride).snd r) from rfl] at h
    by_cases hrc : (zelReadZoneChunkAtCursor s cursor).fst = ZEL_OK
    case neg =>
      rw [if_pos (by simpa using hrc)] at h
      rw [Prod.mk.injEq] at h
      exact absurd h.1 hrc
    case pos =>
      rw [if_neg (by simpa using hrc)] at h
      by_cases hra : (zelAccessZonePixels s lz4
          (zelReadZoneChunkAtCursor s cursor).snd.snd.fst
          (zelReadZoneChunkAtCursor s cursor).snd.snd.snd).fst = ZEL_OK
      case neg =>
        rw [if_pos (by simpa using hra)] at h
        rw [Prod.mk.injEq] at h
        exact absurd h.1 hra
      case pos =>
        rw [if_neg (by simpa using hra)] at h
        by_cases hrb : (zelBlitZoneRgb s.layout zi
            (zelAccessZonePixels s lz4
              (zelReadZoneChunkAtCursor s cursor).snd.snd.fst
              (zelReadZoneChunkAtCursor s cursor).snd.snd.snd).snd
            pal cnt dst stride).fst = ZEL_OK
        case neg =>
          rw [if_pos (by simpa using hrb)] at h
          rw [Prod.mk.injEq] at h
          exact absurd h.1 hrb
        case pos =>
          rw [if_neg (by simpa using hrb)] at h
          have hread_eq : zelReadZoneChunkAtCursor s cursor
              = (ZEL_OK, (zelReadZoneChunkAtCursor s cursor).snd.fst,
                 (zelReadZoneChunkAtCursor s cursor).snd.snd.fst,
                 (zelReadZoneChunkAtCursor s cursor).snd.snd.snd) := by
            rw [show zelReadZoneChunkAtCursor s cursor
                = ((zelReadZoneChunkAtCursor s cursor).fst,
                   (zelReadZoneChunkAtCursor s cursor).snd.fst,
                   (zelReadZoneChunkAtCursor s cursor).snd.snd.fst,
                   (zelReadZoneChunkAtCursor s cursor).snd.snd.snd) from rfl, hrc]
          have hidx := zelBlitZoneRgb_ok_indices s.layout zi
            (zelAccessZonePixels s lz4
              (zelReadZoneChunkAtCursor s cursor).snd.snd.fst
              (zelReadZoneChunkAtCursor s cursor).snd.snd.snd).snd
            pal cnt dst stride (zelZoneFit s.layout stride hg zi) hrb
          obtain ⟨-, hbin, hbout⟩ := zelBlitZoneRgb_ok s.layout zi
            (zelAccessZonePixels s lz4
              (zelReadZoneChunkAtCursor s cursor).snd.snd.fst
              (zelReadZoneChunkAtCursor s cursor).snd.snd.snd).snd
            pal cnt dst stride (zelZoneFit s.layout stride hg zi) hidx
          obtain ⟨ih1, ih2⟩ := ih (zi + 1)
            (zelReadZoneChunkAtCursor s cursor).snd.fst
            (zelBlitZoneRgb s.layout zi
              (zelAccessZonePixels s lz4
                (zelReadZoneChunkAtCursor s cursor).snd.snd.fst
                (zelReadZoneChunkAtCursor s cursor).snd.snd.snd).snd
              pal cnt dst stride).snd buf fin h
          constructor
          · intro z hz1 hz2
            by_cases hz0 : z = zi
            · subst hz0
              rw [show z - z = 0 from by omega]
              rw [show zelLocateZoneChunkAux s cursor 0
                  = zelReadZoneChunkAtCursor s cursor from rfl]
              refine ⟨hrc, hra, hidx, ?_⟩
              intro row col hr hc
              rw [ih2 (zelZonePos s.layout stride z row col)
                (fun z2 row2 col2 hz21 hz22 hr2 hc2 => by
                  intro hcontra
                  obtain ⟨hzz, -, -⟩ := zelZonePos_inj s.layout stride hg z row col
                    z2 row2 col2 hr hc hr2 hc2 hcontra
                  omega)]
              exact hbin row col hr hc
            · have hzgt : zi + 1 ≤ z := by omega
              have hsub : z - zi = (z - (zi + 1)) + 1 := by omega
              rw [hsub, zelLocateZoneChunkAux_step s cursor (z - (zi + 1))
                (zelReadZoneChunkAtCursor s cursor).snd.fst
                (zelReadZoneChunkAtCursor s cursor).snd.snd.fst
                (zelReadZoneChunkAtCursor s cursor).snd.snd.snd hread_eq]
              exact ih1 z hzgt (by omega)
          · intro p hp
            rw [ih2 p (fun z row col hz1 hz2 hr hc =>
              hp z row col (by omega) (by omega) hr hc)]
            exact hbout p
              (fun row col hr hc => hp zi row col (by omega) (by omega) hr hc)

theorem zelZonePos_zero (layout : ZELZoneLayout) (stride row col : Nat) :
    zelZonePos layout stride 0 row col = row * stride + col := by
  unfold zelZonePos
  simp

theorem zelDecodeFrameIndex8_elim (ctx : ZELContext) (f : Nat) (lz4 : ZELLz4)
    (dst : ZELBuf) (stride : Nat) (buf : ZELBuf)
    (h : zelDecodeFrameIndex8 ctx f lz4 dst stride = (ZEL_OK, buf)) :
    f < ctx.header.frameCount ∧
    ctx.header.colorFormat = ZEL_COLOR_FORMAT_INDEXED8 ∧
    ctx.header.width ≤ stride ∧
    zelInitFrameZoneStream ctx f = (ZEL_OK, (zelInitFrameZoneStream ctx f).snd) ∧
    zelDecodeIndex8Loop (zelInitFrameZoneStream ctx f).snd lz4 stride 0
        (zelInitFrameZoneStream ctx f).snd.zoneDataOffset dst
        (zelInitFrameZoneStream ctx f).snd.layout.zoneCount
      = (ZEL_OK, buf, (zelInitFrameZoneStream ctx f).snd.frameDataEnd) := by
  unfold zelDecodeFrameIndex8 at h
  dsimp only at h
  split at h
  · simp at h
  split at h
  · simp at h
  split at h
  · simp at h
  split at h
  · rename_i hri
    exact absurd (congrArg Prod.fst h) (by simpa using hri)
  split at h
  · rename_i hrl
    exact absurd (congrArg Prod.fst h) (by simpa using hrl)
  split at h
  · simp at h
  rename_i hf hcf hst hri hrl hcur
  have hfst := not_not.mp hri
  have hlst := not_not.mp hrl
  have hc := not_not.mp hcur
  have hbuf : (zelDecodeIndex8Loop (zelInitFrameZoneStream ctx f).snd lz4
      stride 0 (zelInitFrameZoneStream ctx f).snd.zoneDataOffset dst
      (zelInitFrameZoneStream ctx f).snd.layout.zoneCount).snd.fst = buf := by
    simpa using congrArg Prod.snd h
  refine ⟨by omega, by simpa using hcf, by omega, ?_, ?_⟩
  · rw [show zelInitFrameZoneStream ctx f
      = ((zelInitFrameZoneStream ctx f).fst,
         (zelInitFrameZoneStream ctx f).snd) from rfl, hfst]
  · rw [show zelDecodeIndex8Loop (zelInitFrameZoneStream ctx f).snd lz4
        stride 0 (zelInitFrameZoneStream ctx f).snd.zoneDataOffset dst
        (zelInitFrameZoneStream ctx f).snd.layout.zoneCount
      = ((zelDecodeIndex8Loop (zelInitFrameZoneStream ctx f).snd lz4
          stride 0 (zelInitFrameZoneStream ctx f).snd.zoneDataOffset dst
          (zelInitFrameZoneStream ctx f).snd.layout.zoneCount).fst,
         (zelDecodeIndex8Loop (zelInitFrameZoneStream ctx f).snd lz4
          stride 0 (zelInitFrameZoneStream ctx f).snd.zoneDataOffset dst
          (zelInitFrameZoneStream ctx f).snd.layout.zoneCount).snd.fst,
         (zelDecodeIndex8Loop (zelInitFrameZoneStream ctx f).snd lz4
          stride 0 (zelInitFrameZoneStream ctx f).snd.zoneDataOffset dst
          (zelInitFrameZoneStream ctx f).snd.layout.zoneCount).snd.snd)
        from rfl, hlst, hc, hbuf]

theorem zelDecodeFrameRgb565_elim (ctx : ZELContext) (f : Nat) (lz4 : ZELLz4)
    (dst : ZELBuf) (stride : Nat) (buf : ZELBuf)
    (h : zelDecodeFrameRgb565 ctx f lz4 dst stride = (ZEL_OK, buf)) :
    ctx.header.colorFormat = ZEL_COLOR_FORMAT_INDEXED8 ∧
    ctx.header.width ≤ stride ∧
    zelGetFramePalette ctx f
      = (ZEL_OK, (zelGetFramePalette ctx f).snd.fst,
         (zelGetFramePalette ctx f).snd.snd) ∧
    zelInitFrameZoneStream (zelGetFramePalette ctx f).snd.fst f
      = (ZEL_OK,
         (zelInitFrameZoneStream (zelGetFramePalette ctx f).snd.fst f).snd) ∧
    zelDecodeRgbLoop
        (zelInitFrameZoneStream (zelGetFramePalette ctx f).snd.fst f).snd lz4
        (zelGetFramePalette ctx f).snd.snd.entries
        (zelGetFramePalette ctx f).snd.snd.count stride 0
        (zelInitFrameZoneStream (zelGetFramePalette ctx f).snd.fst f).snd.zoneDataOffset
        dst
        (zelInitFrameZoneStream (zelGetFramePalette ctx f).snd.fst f).snd.layout.zoneCount
      = (ZEL_OK, buf,
         (zelInitFrameZoneStream (zelGetFramePalette ctx f).snd.fst f).snd.frameDataEnd) := by
  unfold zelDecodeFrameRgb565 at h
  dsimp only at h
  split at h
  · simp at h
  split at h
  · simp at h
  split at h
  · rename_i hrp
    exact absurd (congrArg Prod.fst h) (by simpa using hrp)
  split at h
  · rename_i hri
    exact absurd (congrArg Prod.fst h) (by simpa using hri)
  split at h
  · rename_i hrl
    exact absurd (congrArg Prod.fst h) (by simpa using hrl)
  split at h
  · simp at h
  rename_i hcf hst hrp hri hrl hcur
  have hp := not_not.mp hrp
  have hfst := not_not.mp hri
  have hlst := not_not.mp hrl
  have hc := not_not.mp hcur
  have hbuf : (zelDecodeRgbLoop
      (zelInitFrameZoneStream (zelGetFramePalette ctx f).snd.fst f).snd
      lz4 (zelGetFramePalette ctx f).snd.snd.entries
      (zelGetFramePalette ctx f).snd.snd.count stride 0
      (zelInitFrameZoneStream (zelGetFramePalette ctx f).snd.fst f).snd.zoneDataOffset
      dst
      (zelInitFrameZoneStream (zelGetFramePalette ctx f).snd.fst f).snd.layout.zoneCount).snd.fst
      = buf := by
    simpa using congrArg Prod.snd h
  refine ⟨by simpa using hcf, by omega, ?_, ?_, ?_⟩
  · rw [show zelGetFramePalette ctx f
      = ((zelGetFramePalette ctx f).fst,
         (zelGetFramePalette ctx f).snd.fst,
         (zelGetFramePalette ctx f).snd.snd) from rfl, hp]
  · rw [show zelInitFrameZoneStream (zelGetFramePalette ctx f).snd.fst f
      = ((zelInitFrameZoneStream (zelGetFramePalette ctx f).snd.fst f).fst,
         (zelInitFrameZoneStream (zelGetFramePalette ctx f).snd.fst f).snd)
        from rfl, hfst]
  · rw [show zelDecodeRgbLoop
        (zelInitFrameZoneStream (zelGetFramePalette ctx f).snd.fst f).snd lz4
        (zelGetFramePalette ctx f).snd.snd.entries
        (zelGetFramePalette ctx f).snd.snd.count stride 0
        (zelInitFrameZoneStream (zelGetFramePalette ctx f).snd.fst f).snd.zoneDataOffset
        dst
        (zelInitFrameZoneStream (zelGetFramePalette ctx f).snd.fst f).snd.layout.zoneCount
      = ((zelDecodeRgbLoop
          (zelInitFrameZoneStream (zelGetFramePalette ctx f).snd.fst f).snd lz4
          (zelGetFramePalette ctx f).snd.snd.entries
          (zelGetFramePalette ctx f).snd.snd.count stride 0
          (zelInitFrameZoneStream (zelGetFramePalette ctx f).snd.fst f).snd.zoneDataOffset
          dst
          (zelInitFrameZoneStream (zelGetFramePalette ctx f).snd.fst f).snd.layout.zoneCount).fst,
         (zelDecodeRgbLoop
          (zelInitFrameZoneStream (zelGetFramePalette ctx f).snd.fst f).snd lz4
          (zelGetFramePalette ctx f).snd.snd.entries
          (zelGetFramePalette ctx f).snd.snd.count stride 0
          (zelInitFrameZoneStream (zelGetFramePalette ctx f).snd.fst f).snd.zoneDataOffset
          dst
          (zelInitFrameZoneStream (zelGetFramePalette ctx f).snd.fst f).snd.layout.zoneCount).snd.fst,
         (zelDecodeRgbLoop
          (zelInitFrameZoneStream (zelGetFramePalette ctx f).snd.fst f).snd lz4
          (zelGetFramePalette ctx f).snd.snd.entries
          (zelGetFramePalette ctx f).snd.snd.count stride 0
          (zelInitFrameZoneStream (zelGetFramePalette ctx f).snd.fst f).snd.zoneDataOffset
          dst
          (zelInitFrameZoneStream (zelGetFramePalette ctx f).snd.fst f).snd.layout.zoneCount).snd.snd)
        from rfl, hlst, hc, hbuf]

theorem zelDecodeFrameIndex8Zone_intro (ctx : ZELContext) (f z : Nat)
    (lz4 : ZELLz4) (dst : ZELBuf)
    (hcf : ctx.header.colorFormat = ZEL_COLOR_FORMAT_INDEXED8)
    (hinit : (zelInitFrameZoneStream ctx f).fst = ZEL_OK)
    (hz : z < (zelInitFrameZoneStream ctx f).snd.layout.zoneCount)
    (hloc : (zelLocateZoneChunk (zelInitFrameZoneStream ctx f).snd z).fst
      = ZEL_OK)
    (hacc : (zelAccessZonePixels (zelInitFrameZoneStream ctx f).snd lz4
        (zelLocateZoneChunk (zelInitFrameZoneStream ctx f).snd z).snd.snd.fst
        (zelLocateZoneChunk (zelInitFrameZoneStream ctx f).snd z).snd.snd.snd).fst
      = ZEL_OK) :
    zelDecodeFrameIndex8Zone ctx f z lz4 dst
      = (ZEL_OK,
         zelBlitZoneIndices (zelInitFrameZoneStream ctx f).snd.layout 0
           (zelAccessZonePixels (zelInitFrameZoneStream ctx f).snd lz4
             (zelLocateZoneChunk (zelInitFrameZoneStream ctx f).snd z).snd.snd.fst
             (zelLocateZoneChunk (zelInitFrameZoneStream ctx f).snd z).snd.snd.snd).snd
           dst (zelInitFrameZoneStream ctx f).snd.layout.zoneWidth) := by
  unfold zelDecodeFrameIndex8Zone
  dsimp only
  rw [if_neg (by simp [hcf]), if_neg (by simp [hinit]), if_neg (by omega),
    if_neg (by simp [hloc]), if_neg (by simp [hacc])]

theorem zelDecodeFrameRgb565Zone_intro (ctx : ZELContext) (f z : Nat)
    (lz4 : ZELLz4) (dst : ZELBuf)
    (hcf : ctx.header.colorFormat = ZEL_COLOR_FORMAT_INDEXED8)
    (hp : (zelGetFramePalette ctx f).fst = ZEL_OK)
    (hcg : zelInitFrameZoneStream (zelGetFramePalette ctx f).snd.fst f
      = zelInitFrameZoneStream ctx f)
    (hinit : (zelInitFrameZoneStream ctx f).fst = ZEL_OK)
    (hz : z < (zelInitFrameZoneStream ctx f).snd.layout.zoneCount)
    (hloc : (zelLocateZoneChunk (zelInitFrameZoneStream ctx f).snd z).fst
      = ZEL_OK)
    (hacc : (zelAccessZonePixels (zelInitFrameZoneStream ctx f).snd lz4
        (zelLocateZoneChunk (zelInitFrameZoneStream ctx f).snd z).snd.snd.fst
        (zelLocateZoneChunk (zelInitFrameZoneStream ctx f).snd z).snd.snd.snd).fst
      = ZEL_OK) :
    zelDecodeFrameRgb565Zone ctx f z lz4 dst
      = zelBlitZoneRgb (zelInitFrameZoneStream ctx f).snd.layout 0
          (zelAccessZonePixels (zelInitFrameZoneStream ctx f).snd lz4
            (zelLocateZoneChunk (zelInitFrameZoneStream ctx f).snd z).snd.snd.fst
            (zelLocateZoneChunk (zelInitFrameZoneStream ctx f).snd z).snd.snd.snd).snd
          (zelGetFramePalette ctx f).snd.snd.entries
          (zelGetFramePalette ctx f).snd.snd.count dst
          (zelInitFrameZoneStream ctx f).snd.layout.zoneWidth := by
  unfold zelDecodeFrameRgb565Zone
  dsimp only
  rw [hcg]
  rw [if_neg (by simp [hcf]), if_neg (by simp [hp]), if_neg (by simp [hinit]),
    if_neg (by omega), if_neg (by simp [hloc]), if_neg (by simp [hacc])]

theorem zelZoneDecodeListIndex8_length (ctx : ZELContext) (f : Nat)
    (lz4 : ZELLz4) (zbuf0 : ZELBuf) :
    ∀ n, (zelZoneDecodeListIndex8 ctx f lz4 zbuf0 n).length = n := by
  intro n
  induction n with
  | zero => rfl
  | succ n ih => simp [zelZoneDecodeListIndex8, ih]

theorem zelZoneDecodeListRgb_length (ctx : ZELContext) (f : Nat)
    (lz4 : ZELLz4) (zbuf0 : ZELBuf) :
    ∀ n, (zelZoneDecodeListRgb ctx f lz4 zbuf0 n).length = n := by
  intro n
  induction n with
  | zero => rfl
  | succ n ih => simp [zelZoneDecodeListRgb, ih]

theorem zelZoneDecodeListIndex8_getD (ctx : ZELContext) (f : Nat)
    (lz4 : ZELLz4) (zbuf0 : ZELBuf) :
    ∀ n j, j < n →
      (zelZoneDecodeListIndex8 ctx f lz4 zbuf0 n).getD j (fun _ => 0)
        = (zelDecodeFrameIndex8Zone ctx f j lz4 zbuf0).snd := by
  intro n
  induction n with
  | zero => intro j hj; omega
  | succ n ih =>
    intro j hj
    show (zelZoneDecodeListIndex8 ctx f lz4 zbuf0 n
        ++ [(zelDecodeFrameIndex8Zone ctx f n lz4 zbuf0).snd]).getD j (fun _ => 0)
      = (zelDecodeFrameIndex8Zone ctx f j lz4 zbuf0).snd
    by_cases hjn : j < n
    · rw [List.getD_append _ _ _ _
        (by rw [zelZoneDecodeListIndex8_length]; exact hjn)]
      exact ih j hjn
    · have hj2 : j = n := by omega
      subst hj2
      rw [List.getD_append_right _ _ _ _
        (by rw [zelZoneDecodeListIndex8_length])]
      rw [zelZoneDecodeListIndex8_length]
      simp

theorem zelZoneDecodeListRgb_getD (ctx : ZELContext) (f : Nat)
    (lz4 : ZELLz4) (zbuf0 : ZELBuf) :
    ∀ n j, j < n →
      (zelZoneDecodeListRgb ctx f lz4 zbuf0 n).getD j (fun _ => 0)
        = (zelDecodeFrameRgb565Zone ctx f j lz4 zbuf0).snd := by
  intro n
  induction n with
  | zero => intro j hj; omega
  | succ n ih =>
    intro j hj
    show (zelZoneDecodeListRgb ctx f lz4 zbuf0 n
        ++ [(zelDecodeFrameRgb565Zone ctx f n lz4 zbuf0).snd]).getD j (fun _ => 0)
      = (zelDecodeFrameRgb565Zone ctx f j lz4 zbuf0).snd
    by_cases hjn : j < n
    · rw [List.getD_append _ _ _ _
        (by rw [zelZoneDecodeListRgb_length]; exact hjn)]
      exact ih j hjn
    · have hj2 : j = n := by omega
      subst hj2
      rw [List.getD_append_right _ _ _ _
        (by rw [zelZoneDecodeListRgb_length])]
      rw [zelZoneDecodeListRgb_length]
      simp

/-- C2: for every frame decoded whole by `zelDecodeFrameIndex8` (resp.
`zelDecodeFrameRgb565`) into a buffer A, every per-zone decode by
`zelDecodeFrameIndex8Zone` (resp. `zelDecodeFrameRgb565Zone`) into a fresh
zone-sized buffer succeeds, and A equals, at every offset, the buffer
obtained by copying each zone buffer z into a second whole-frame buffer at
offset ((z mod zonesPerRow) * zoneWidth, (z div zonesPerRow) * zoneHeight). -/
theorem zelDecodeFrame_zone_equivalence (ctx : ZELContext) (f : Nat) (lz4 : ZELLz4) (dst zbuf0 : ZELBuf)
    (stride : Nat) (A : ZELBuf) :
    (zelDecodeFrameIndex8 ctx f lz4 dst stride = (ZEL_OK, A) →
      (∀ z, z < (zelInitFrameZoneStream ctx f).snd.layout.zoneCount →
        (zelDecodeFrameIndex8Zone ctx f z lz4 zbuf0).fst = ZEL_OK) ∧
      ∀ p, A p
        = zelSpecAssembleAll (zelInitFrameZoneStream ctx f).snd.layout stride dst
            (zelZoneDecodeListIndex8 ctx f lz4 zbuf0
              (zelInitFrameZoneStream ctx f).snd.layout.zoneCount) p) ∧
    (zelDecodeFrameRgb565 ctx f lz4 dst stride = (ZEL_OK, A) →
      (∀ z, z < (zelInitFrameZoneStream ctx f).snd.layout.zoneCount →
        (zelDecodeFrameRgb565Zone ctx f z lz4 zbuf0).fst = ZEL_OK) ∧
      ∀ p, A p
        = zelSpecAssembleAll (zelInitFrameZoneStream ctx f).snd.layout stride dst
            (zelZoneDecodeListRgb ctx f lz4 zbuf0
              (zelInitFrameZoneStream ctx f).snd.layout.zoneCount) p) := by
  constructor
  · intro h
    obtain ⟨hf, hcf, hst, hinit, hloop⟩ :=
      zelDecodeFrameIndex8_elim ctx f lz4 dst stride A h
    obtain ⟨hcz, hfde⟩ := zelInitFrameZoneStream_ok_facts ctx f _ hinit
    have hg := zelLayoutGeom_of_compute ctx _ stride hcz hst
    set S := (zelInitFrameZoneStream ctx f).snd with hS
    obtain ⟨L1, L2⟩ := zelDecodeIndex8Loop_spec S lz4 stride hg
      S.layout.zoneCount 0 S.zoneDataOffset dst A S.frameDataEnd hloop
    have hzone : ∀ z, z < S.layout.zoneCount →
        zelDecodeFrameIndex8Zone ctx f z lz4 zbuf0
          = (ZEL_OK,
             zelBlitZoneIndices S.layout 0
               (zelAccessZonePixels S lz4
                 (zelLocateZoneChunk S z).snd.snd.fst
                 (zelLocateZoneChunk S z).snd.snd.snd).snd
               zbuf0 S.layout.zoneWidth) := by
      intro z hz
      exact zelDecodeFrameIndex8Zone_intro ctx f z lz4 zbuf0 hcf
        (congrArg Prod.fst hinit) hz
        ((L1 z (Nat.zero_le z) (by omega)).1)
        ((L1 z (Nat.zero_le z) (by omega)).2.1)
    refine ⟨fun z hz => congrArg Prod.fst (hzone z hz), ?_⟩
    intro p
    by_cases hp : ∀ z row col, z < S.layout.zoneCount →
        row < S.layout.zoneHeight → col < S.layout.zoneWidth →
        p ≠ zelZonePos S.layout stride z row col
    · rw [L2 p (fun z row col hz1 hz2 hr hc => hp z row col (by omega) hr hc)]
      rw [show zelSpecAssembleAll S.layout stride dst
            (zelZoneDecodeListIndex8 ctx f lz4 zbuf0 S.layout.zoneCount)
          = zelSpecAssembleAux S.layout stride
              (zelZoneDecodeListIndex8 ctx f lz4 zbuf0 S.layout.zoneCount) dst 0
          from rfl]
      refine (zelSpecAssembleAux_out S.layout stride _ dst 0 p
        (fun j row col hj hr hc => ?_)).symm
      rw [Nat.zero_add]
      rw [zelZoneDecodeListIndex8_length] at hj
      exact hp j row col hj hr hc
    · push_neg at hp
      obtain ⟨z, row, col, hzc, hr, hc, hpe⟩ := hp
      subst hpe
      rw [(L1 z (Nat.zero_le z) (by omega)).2.2 row col hr hc]
      rw [show zelSpecAssembleAll S.layout stride dst
            (zelZoneDecodeListIndex8 ctx f lz4 zbuf0 S.layout.zoneCount)
          = zelSpecAssembleAux S.layout stride
              (zelZoneDecodeListIndex8 ctx f lz4 zbuf0 S.layout.zoneCount) dst 0
          from rfl]
      have hin := zelSpecAssembleAux_in S.layout stride hg
        (zelZoneDecodeListIndex8 ctx f lz4 zbuf0 S.layout.zoneCount) dst 0
        z row col
        (by rw [zelZoneDecodeListIndex8_length]; exact hzc) hr hc
      rw [Nat.zero_add] at hin
      rw [hin]
      rw [zelZoneDecodeListIndex8_getD ctx f lz4 zbuf0 S.layout.zoneCount z hzc]
      rw [show (zelDecodeFrameIndex8Zone ctx f z lz4 zbuf0).snd
          = zelBlitZoneIndices S.layout 0
              (zelAccessZonePixels S lz4
                (zelLocateZoneChunk S z).snd.snd.fst
                (zelLocateZoneChunk S z).snd.snd.snd).snd
              zbuf0 S.layout.zoneWidth
          from congrArg Prod.snd (hzone z hzc)]
      have hblit := zelBlitZoneIndices_in S.layout 0
        (zelAccessZonePixels S lz4
          (zelLocateZoneChunk S z).snd.snd.fst
          (zelLocateZoneChunk S z).snd.snd.snd).snd
        zbuf0 S.layout.zoneWidth (by simp) row col hr hc
      rw [zelZonePos_zero] at hblit
      rw [hblit]
      rfl
  · intro h
    obtain ⟨hcf, hst, hpal, hinit, hloop⟩ :=
      zelDecodeFrameRgb565_elim ctx f lz4 dst stride A h
    obtain ⟨hd1, hd2, hd3⟩ := zelGetFramePalette_preserves ctx f
    have hcg := zelInitFrameZoneStream_congr
      (zelGetFramePalette ctx f).snd.fst ctx f hd1 hd2 hd3
    rw [hcg] at hinit hloop
    obtain ⟨hcz, hfde⟩ := zelInitFrameZoneStream_ok_facts ctx f _ hinit
    have hg := zelLayoutGeom_of_compute ctx _ stride hcz hst
    set S := (zelInitFrameZoneStream ctx f).snd with hS
    set P := (zelGetFramePalette ctx f).snd.snd with hP
    obtain ⟨L1, L2⟩ := zelDecodeRgbLoop_spec S lz4 P.entries P.count stride hg
      S.layout.zoneCount 0 S.zoneDataOffset dst A S.frameDataEnd hloop
    have hzone : ∀ z, z < S.layout.zoneCount →
        zelDecodeFrameRgb565Zone ctx f z lz4 zbuf0
          = zelBlitZoneRgb S.layout 0
              (zelAccessZonePixels S lz4
                (zelLocateZoneChunk S z).snd.snd.fst
                (zelLocateZoneChunk S z).snd.snd.snd).snd
              P.entries P.count zbuf0 S.layout.zoneWidth := by
      intro z hz
      exact zelDecodeFrameRgb565Zone_intro ctx f z lz4 zbuf0 hcf
        (congrArg Prod.fst hpal) hcg (congrArg Prod.fst hinit) hz
        ((L1 z (Nat.zero_le z) (by omega)).1)
        ((L1 z (Nat.zero_le z) (by omega)).2.1)
    have hidx : ∀ z, z < S.layout.zoneCount →
        ∀ row col, row < S.layout.zoneHeight → col < S.layout.zoneWidth →
          (zelAccessZonePixels S lz4
            (zelLocateZoneChunk S z).snd.snd.fst
            (zelLocateZoneChunk S z).snd.snd.snd).snd
            (row * S.layout.zoneWidth + col) < P.count := by
      intro z hz row col hr hc
      exact (L1 z (Nat.zero_le z) (by omega)).2.2.1 row col hr hc
    have hblitz : ∀ z, z < S.layout.zoneCount →
        (zelBlitZoneRgb S.layout 0
            (zelAccessZonePixels S lz4
              (zelLocateZoneChunk S z).snd.snd.fst
              (zelLocateZoneChunk S z).snd.snd.snd).snd
            P.entries P.count zbuf0 S.layout.zoneWidth).fst = ZEL_OK ∧
        (∀ row col, row < S.layout.zoneHeight → col < S.layout.zoneWidth →
          (zelBlitZoneRgb S.layout 0
              (zelAccessZonePixels S lz4
                (zelLocateZoneChunk S z).snd.snd.fst
                (zelLocateZoneChunk S z).snd.snd.snd).snd
              P.entries P.count zbuf0 S.layout.zoneWidth).snd
              (zelZonePos S.layout S.layout.zoneWidth 0 row col)
            = P.entries.getD
                ((zelAccessZonePixels S lz4
                  (zelLocateZoneChunk S z).snd.snd.fst
                  (zelLocateZoneChunk S z).snd.snd.snd).snd
                  (row * S.layout.zoneWidth + col)) 0) := by
      intro z hz
      obtain ⟨h1, h2, h3⟩ := zelBlitZoneRgb_ok S.layout 0
        (zelAccessZonePixels S lz4
          (zelLocateZoneChunk S z).snd.snd.fst
          (zelLocateZoneChunk S z).snd.snd.snd).snd
        P.entries P.count zbuf0 S.layout.zoneWidth (by simp)
        (fun row col hr hc => hidx z hz row col hr hc)
      exact ⟨h1, h2⟩
    refine ⟨?_, ?_⟩
    · intro z hz
      rw [hzone z hz]
      exact (hblitz z hz).1
    intro p
    by_cases hp : ∀ z row col, z < S.layout.zoneCount →
        row < S.layout.zoneHeight → col < S.layout.zoneWidth →
        p ≠ zelZonePos S.layout stride z row col
    · rw [L2 p (fun z row col hz1 hz2 hr hc => hp z row col (by omega) hr hc)]
      rw [show zelSpecAssembleAll S.layout stride dst
            (zelZoneDecodeListRgb ctx f lz4 zbuf0 S.layout.zoneCount)
          = zelSpecAssembleAux S.layout stride
              (zelZoneDecodeListRgb ctx f lz4 zbuf0 S.layout.zoneCount) dst 0
          from rfl]
      refine (zelSpecAssembleAux_out S.layout stride _ dst 0 p
        (fun j row col hj hr hc => ?_)).symm
      rw [Nat.zero_add]
      rw [zelZoneDecodeListRgb_length] at hj
      exact hp j row col hj hr hc
    · push_neg at hp
      obtain ⟨z, row, col, hzc, hr, hc, hpe⟩ := hp
      subst hpe
      rw [(L1 z (Nat.zero_le z) (by omega)).2.2.2 row col hr hc]
      rw [show zelSpecAssembleAll S.layout stride dst
            (zelZoneDecodeListRgb ctx f lz4 zbuf0 S.layout.zoneCount)
          = zelSpecAssembleAux S.layout stride
              (zelZoneDecodeListRgb ctx f lz4 zbuf0 S.layout.zoneCount) dst 0
          from rfl]
      have hin := zelSpecAssembleAux_in S.layout stride hg
        (zelZoneDecodeListRgb ctx f lz4 zbuf0 S.layout.zoneCount) dst 0
        z row col
        (by rw [zelZoneDecodeListRgb_length]; exact hzc) hr hc
      rw [Nat.zero_add] at hin
      rw [hin]
      rw [zelZoneDecodeListRgb_getD ctx f lz4 zbuf0 S.layout.zoneCount z hzc]
      rw [show (zelDecodeFrameRgb565Zone ctx f z lz4 zbuf0).snd
          = (zelBlitZoneRgb S.layout 0
              (zelAccessZonePixels S lz4
                (zelLocateZoneChunk S z).snd.snd.fst
                (zelLocateZoneChunk S z).snd.snd.snd).snd
              P.entries P.count zbuf0 S.layout.zoneWidth).snd
          from congrArg Prod.snd (hzone z hzc)]
      have hblit := (hblitz z hzc).2 row col hr hc
      rw [zelZonePos_zero] at hblit
      rw [hblit]
      rfl

/-- C2 witness: the four-zone context of spec scenario S4, with the whole
frame decoded at stride 4 and each zone decoded into a fresh zone buffer,
instantiating `zelDecodeFrame_zone_equivalence` for both paths. -/
theorem zelDecodeFrame_zone_equivalence_witness :
    (zelDecodeFrameIndex8 zelCtxTiny 0 zelLz4None (fun _ => 99) 4
      = (ZEL_OK,
         (zelDecodeFrameIndex8 zelCtxTiny 0 zelLz4None (fun _ => 99) 4).snd)) ∧
    ((∀ z, z < (zelInitFrameZoneStream zelCtxTiny 0).snd.layout.zoneCount →
        (zelDecodeFrameIndex8Zone zelCtxTiny 0 z zelLz4None (fun _ => 0)).fst
          = ZEL_OK) ∧
      ∀ p, (zelDecodeFrameIndex8 zelCtxTiny 0 zelLz4None (fun _ => 99) 4).snd p
        = zelSpecAssembleAll (zelInitFrameZoneStream zelCtxTiny 0).snd.layout 4
            (fun _ => 99)
            (zelZoneDecodeListIndex8 zelCtxTiny 0 zelLz4None (fun _ => 0)
              (zelInitFrameZoneStream zelCtxTiny 0).snd.layout.zoneCount) p) ∧
    (zelDecodeFrameRgb565 zelCtxTiny 0 zelLz4None (fun _ => 99) 4
      = (ZEL_OK,
         (zelDecodeFrameRgb565 zelCtxTiny 0 zelLz4None (fun _ => 99) 4).snd)) ∧
    ((∀ z, z < (zelInitFrameZoneStream zelCtxTiny 0).snd.layout.zoneCount →
        (zelDecodeFrameRgb565Zone zelCtxTiny 0 z zelLz4None (fun _ => 0)).fst
          = ZEL_OK) ∧
      ∀ p, (zelDecodeFrameRgb565 zelCtxTiny 0 zelLz4None (fun _ => 99) 4).snd p
        = zelSpecAssembleAll (zelInitFrameZoneStream zelCtxTiny 0).snd.layout 4
            (fun _ => 99)
            (zelZoneDecodeListRgb zelCtxTiny 0 zelLz4None (fun _ => 0)
              (zelInitFrameZoneStream zelCtxTiny 0).snd.layout.zoneCount) p) := by
  have h8 : zelDecodeFrameIndex8 zelCtxTiny 0 zelLz4None (fun _ => 99) 4
      = (ZEL_OK,
         (zelDecodeFrameIndex8 zelCtxTiny 0 zelLz4None (fun _ => 99) 4).snd) := by
    rfl
  have hR : zelDecodeFrameRgb565 zelCtxTiny 0 zelLz4None (fun _ => 99) 4
      = (ZEL_OK,
         (zelDecodeFrameRgb565 zelCtxTiny 0 zelLz4None (fun _ => 99) 4).snd) := by
    rfl
  exact ⟨h8,
    (zelDecodeFrame_zone_equivalence zelCtxTiny 0 zelLz4None (fun _ => 99)
      (fun _ => 0) 4 _).1 h8,
    hR,
    (zelDecodeFrame_zone_equivalence zelCtxTiny 0 zelLz4None (fun _ => 99)
      (fun _ => 0) 4 _).2 hR⟩

theorem zelInitFrameZoneStream_frame_lt (ctx : ZELContext) (f : Nat)
    (h : (zelInitFrameZoneStream ctx f).fst = ZEL_OK) :
    f < ctx.header.frameCount := by
  by_contra hge
  push_neg at hge
  have he : zelInitFrameZoneStream ctx f = (ZEL_ERR_OUT_OF_BOUNDS, default) := by
    unfold zelInitFrameZoneStream
    rw [if_pos (by omega)]
  rw [he] at h
  exact ZELResult.noConfusion h

theorem zelDecodeFrameIndex8_intro (ctx : ZELContext) (f : Nat) (lz4 : ZELLz4)
    (dst : ZELBuf) (stride : Nat)
    (hf : f < ctx.header.frameCount)
    (hcf : ctx.header.colorFormat = ZEL_COLOR_FORMAT_INDEXED8)
    (hst : ctx.header.width ≤ stride)
    (hinit : (zelInitFrameZoneStream ctx f).fst = ZEL_OK)
    (hloop : (zelDecodeIndex8Loop (zelInitFrameZoneStream ctx f).snd lz4 stride 0
        (zelInitFrameZoneStream ctx f).snd.zoneDataOffset dst
        (zelInitFrameZoneStream ctx f).snd.layout.zoneCount).fst = ZEL_OK)
    (hcur : (zelDecodeIndex8Loop (zelInitFrameZoneStream ctx f).snd lz4 stride 0
        (zelInitFrameZoneStream ctx f).snd.zoneDataOffset dst
        (zelInitFrameZoneStream ctx f).snd.layout.zoneCount).snd.snd
      = (zelInitFrameZoneStream ctx f).snd.frameDataEnd) :
    zelDecodeFrameIndex8 ctx f lz4 dst stride
      = (ZEL_OK,
         (zelDecodeIndex8Loop (zelInitFrameZoneStream ctx f).snd lz4 stride 0
           (zelInitFrameZoneStream ctx f).snd.zoneDataOffset dst
           (zelInitFrameZoneStream ctx f).snd.layout.zoneCount).snd.fst) := by
  unfold zelDecodeFrameIndex8
  dsimp only
  rw [if_neg (by omega), if_neg (by simp [hcf]), if_neg (by omega),
    if_neg (by simp [hinit]), if_neg (by simp [hloop]), if_neg (by simp [hcur])]

theorem zelLoops_parallel (s : ZELFrameZoneStream) (lz4 : ZELLz4)
    (pal : List Nat) (cnt : Nat) (stride : Nat) (r : Nat) :
    ∀ zi cursor dstR dst8 bufR fin,
      zelDecodeRgbLoop s lz4 pal cnt stride zi cursor dstR r
        = (ZEL_OK, bufR, fin) →
      (zelDecodeIndex8Loop s lz4 stride zi cursor dst8 r).fst = ZEL_OK ∧
      (zelDecodeIndex8Loop s lz4 stride zi cursor dst8 r).snd.snd = fin := by
  induction r with
  | zero =>
    intro zi cursor dstR dst8 bufR fin h
    rw [show zelDecodeRgbLoop s lz4 pal cnt stride zi cursor dstR 0
        = (ZEL_OK, dstR, cursor) from rfl, Prod.mk.injEq, Prod.mk.injEq] at h
    exact ⟨rfl, h.2.2⟩
  | succ r ih =>
    intro zi cursor dstR dst8 bufR fin h
    rw [show zelDecodeRgbLoop s lz4 pal cnt stride zi cursor dstR (r + 1)
        = (if (zelReadZoneChunkAtCursor s cursor).fst ≠ ZEL_OK
           then ((zelReadZoneChunkAtCursor s cursor).fst, dstR,
                 (zelReadZoneChunkAtCursor s cursor).snd.fst)
           else if (zelAccessZonePixels s lz4
                  (zelReadZoneChunkAtCursor s cursor).snd.snd.fst
                  (zelReadZoneChunkAtCursor s cursor).snd.snd.snd).fst ≠ ZEL_OK
           then ((zelAccessZonePixels s lz4
                  (zelReadZoneChunkAtCursor s cursor).snd.snd.fst
                  (zelReadZoneChunkAtCursor s cursor).snd.snd.snd).fst, dstR,
                 (zelReadZoneChunkAtCursor s cursor).snd.fst)
           else if (zelBlitZoneRgb s.layout zi
                  (zelAccessZonePixels s lz4
                    (zelReadZoneChunkAtCursor s cursor).snd.snd.fst
                    (zelReadZoneChunkAtCursor s cursor).snd.snd.snd).snd
                  pal cnt dstR stride).fst ≠ ZEL_OK
           then ((zelBlitZoneRgb s.layout zi
                  (zelAccessZonePixels s lz4
                    (zelReadZoneChunkAtCursor s cursor).snd.snd.fst
                    (zelReadZoneChunkAtCursor s cursor).snd.snd.snd).snd
                  pal cnt dstR stride).fst,
                 (zelBlitZoneRgb s.layout zi
                  (zelAccessZonePixels s lz4
                    (zelReadZoneChunkAtCursor s cursor).snd.snd.fst
                    (zelReadZoneChunkAtCursor s cursor).snd.snd.snd).snd
                  pal cnt dstR stride).snd,
                 (zelReadZoneChunkAtCursor s cursor).snd.fst)
           else zelDecodeRgbLoop s lz4 pal cnt stride (zi + 1)
                  (zelReadZoneChunkAtCursor s cursor).snd.fst
                  (zelBlitZoneRgb s.layout zi
                    (zelAccessZonePixels s lz4
                      (zelReadZoneChunkAtCursor s cursor).snd.snd.fst
                      (zelReadZoneChunkAtCursor s cursor).snd.snd.snd).snd
                    pal cnt dstR stride).snd r) from rfl] at h
    by_cases hrc : (zelReadZoneChunkAtCursor s cursor).fst = ZEL_OK
    case neg =>
      rw [if_pos (by simpa using hrc)] at h
      rw [Prod.mk.injEq] at h
      exact absurd h.1 hrc
    case pos =>
      rw [if_neg (by simpa using hrc)] at h
      by_cases hra : (zelAccessZonePixels s lz4
          (zelReadZoneChunkAtCursor s cursor).snd.snd.fst
          (zelReadZoneChunkAtCursor s cursor).snd.snd.snd).fst = ZEL_OK
      case neg =>
        rw [if_pos (by simpa using hra)] at h
        rw [Prod.mk.injEq] at h
        exact absurd h.1 hra
      case pos =>
        rw [if_neg (by simpa using hra)] at h
        by_cases hrb : (zelBlitZoneRgb s.layout zi
            (zelAccessZonePixels s lz4
              (zelReadZoneChunkAtCursor s cursor).snd.snd.fst
              (zelReadZoneChunkAtCursor s cursor).snd.snd.snd).snd
            pal cnt dstR stride).fst = ZEL_OK
        case neg =>
          rw [if_pos (by simpa using hrb)] at h
          rw [Prod.mk.injEq] at h
          exact absurd h.1 hrb
        case pos =>
          rw [if_neg (by simpa using hrb)] at h
          rw [show zelDecodeIndex8Loop s lz4 stride zi cursor dst8 (r + 1)
              = (if (zelReadZoneChunkAtCursor s cursor).fst ≠ ZEL_OK
                 then ((zelReadZoneChunkAtCursor s cursor).fst, dst8,
                       (zelReadZoneChunkAtCursor s cursor).snd.fst)
                 else if (zelAccessZonePixels s lz4
                        (zelReadZoneChunkAtCursor s cursor).snd.snd.fst
                        (zelReadZoneChunkAtCursor s cursor).snd.snd.snd).fst ≠ ZEL_OK
                 then ((zelAccessZonePixels s lz4
                        (zelReadZoneChunkAtCursor s cursor).snd.snd.fst
                        (zelReadZoneChunkAtCursor s cursor).snd.snd.snd).fst, dst8,
                       (zelReadZoneChunkAtCursor s cursor).snd.fst)
                 else zelDecodeIndex8Loop s lz4 stride (zi + 1)
                        (zelReadZoneChunkAtCursor s cursor).snd.fst
                        (zelBlitZoneIndices s.layout zi
                          (zelAccessZonePixels s lz4
                            (zelReadZoneChunkAtCursor s cursor).snd.snd.fst
                            (zelReadZoneChunkAtCursor s cursor).snd.snd.snd).snd
                          dst8 stride) r) from rfl]
          rw [if_neg (by simpa using hrc), if_neg (by simpa using hra)]
          exact ih (zi + 1) (zelReadZoneChunkAtCursor s cursor).snd.fst
            (zelBlitZoneRgb s.layout zi
              (zelAccessZonePixels s lz4
                (zelReadZoneChunkAtCursor s cursor).snd.snd.fst
                (zelReadZoneChunkAtCursor s cursor).snd.snd.snd).snd
              pal cnt dstR stride).snd
            (zelBlitZoneIndices s.layout zi
              (zelAccessZonePixels s lz4
                (zelReadZoneChunkAtCursor s cursor).snd.snd.fst
                (zelReadZoneChunkAtCursor s cursor).snd.snd.snd).snd
              dst8 stride) bufR fin h

/-- C3: the RGB565 blit writes `palette.getD index 0` at every zone position
when all indices are below `paletteCount`, and stops with
`ZEL_ERR_CORRUPT_DATA` at the first out-of-range index, the earlier pixels
written and the rest untouched; at decode level, a successful
`zelDecodeFrameRgb565` implies the same frame decodes with
`zelDecodeFrameIndex8`, and every zone pixel of the RGB output equals the
effective palette of `zelGetFramePalette` (frame-local if the frame's
`hasLocalPalette` flag is set, else global, in the effective output
encoding) looked up at the Indexed8 output's index at that position. -/
theorem zelRgbDecode_palette_spec :
    (∀ (layout : ZELZoneLayout) (zi : Nat) (pix : ZELBuf) (pal : List Nat)
        (cnt : Nat) (dst : ZELBuf) (stride : Nat),
      zi % layout.zonesPerRow * layout.zoneWidth + layout.zoneWidth ≤ stride →
      (∀ row col, row < layout.zoneHeight → col < layout.zoneWidth →
        pix (row * layout.zoneWidth + col) < cnt) →
      (zelBlitZoneRgb layout zi pix pal cnt dst stride).fst = ZEL_OK ∧
      ∀ row col, row < layout.zoneHeight → col < layout.zoneWidth →
        (zelBlitZoneRgb layout zi pix pal cnt dst stride).snd
            (zelZonePos layout stride zi row col)
          = pal.getD (pix (row * layout.zoneWidth + col)) 0) ∧
    (∀ (layout : ZELZoneLayout) (zi : Nat) (pix : ZELBuf) (pal : List Nat)
        (cnt : Nat) (dst : ZELBuf) (stride rowB colB : Nat),
      zi % layout.zonesPerRow * layout.zoneWidth + layout.zoneWidth ≤ stride →
      rowB < layout.zoneHeight → colB < layout.zoneWidth →
      cnt ≤ pix (rowB * layout.zoneWidth + colB) →
      (∀ row col, col < layout.zoneWidth →
        (row < rowB ∨ (row = rowB ∧ col < colB)) →
        pix (row * layout.zoneWidth + col) < cnt) →
      (zelBlitZoneRgb layout zi pix pal cnt dst stride).fst
        = ZEL_ERR_CORRUPT_DATA ∧
      (∀ row col, col < layout.zoneWidth →
        (row < rowB ∨ (row = rowB ∧ col < colB)) →
        (zelBlitZoneRgb layout zi pix pal cnt dst stride).snd
            (zelZonePos layout stride zi row col)
          = pal.getD (pix (row * layout.zoneWidth + col)) 0) ∧
      (∀ p, (∀ row col, col < layout.zoneWidth →
          (row < rowB ∨ (row = rowB ∧ col < colB)) →
          p ≠ zelZonePos layout stride zi row col) →
        (zelBlitZoneRgb layout zi pix pal cnt dst stride).snd p = dst p)) ∧
    (∀ (ctx : ZELContext) (f : Nat) (lz4 : ZELLz4) (dstR dst8 : ZELBuf)
        (stride : Nat) (R : ZELBuf),
      zelDecodeFrameRgb565 ctx f lz4 dstR stride = (ZEL_OK, R) →
      (zelDecodeFrameIndex8 ctx f lz4 dst8 stride).fst = ZEL_OK ∧
      ∀ z row col, z < (zelInitFrameZoneStream ctx f).snd.layout.zoneCount →
        row < (zelInitFrameZoneStream ctx f).snd.layout.zoneHeight →
        col < (zelInitFrameZoneStream ctx f).snd.layout.zoneWidth →
        R (zelZonePos (zelInitFrameZoneStream ctx f).snd.layout stride z row col)
          = ((zelGetFramePalette ctx f).snd.snd.entries).getD
              ((zelDecodeFrameIndex8 ctx f lz4 dst8 stride).snd
                (zelZonePos (zelInitFrameZoneStream ctx f).snd.layout stride
                  z row col)) 0) := by
  refine ⟨?_, ?_, ?_⟩
  · intro layout zi pix pal cnt dst stride hfit hok
    obtain ⟨h1, h2, -⟩ := zelBlitZoneRgb_ok layout zi pix pal cnt dst stride
      hfit hok
    exact ⟨h1, h2⟩
  · intro layout zi pix pal cnt dst stride rowB colB hfit hrB hcB hbad hgood
    exact zelBlitZoneRgb_bad layout zi pix pal cnt dst stride hfit rowB colB
      hrB hcB hbad hgood
  · intro ctx f lz4 dstR dst8 stride R h
    obtain ⟨hcf, hst, hpal, hinit, hloop⟩ :=
      zelDecodeFrameRgb565_elim ctx f lz4 dstR stride R h
    obtain ⟨hd1, hd2, hd3⟩ := zelGetFramePalette_preserves ctx f
    have hcg := zelInitFrameZoneStream_congr
      (zelGetFramePalette ctx f).snd.fst ctx f hd1 hd2 hd3
    rw [hcg] at hinit hloop
    obtain ⟨hcz, hfde⟩ := zelInitFrameZoneStream_ok_facts ctx f _ hinit
    have hg := zelLayoutGeom_of_compute ctx _ stride hcz hst
    have hf := zelInitFrameZoneStream_frame_lt ctx f (congrArg Prod.fst hinit)
    set S := (zelInitFrameZoneStream ctx f).snd with hS
    set P := (zelGetFramePalette ctx f).snd.snd with hP
    obtain ⟨LR, -⟩ := zelDecodeRgbLoop_spec S lz4 P.entries P.count stride hg
      S.layout.zoneCount 0 S.zoneDataOffset dstR R S.frameDataEnd hloop
    obtain ⟨hP1, hP2⟩ := zelLoops_parallel S lz4 P.entries P.count stride
      S.layout.zoneCount 0 S.zoneDataOffset dstR dst8 R S.frameDataEnd hloop
    have hloop8 : zelDecodeIndex8Loop S lz4 stride 0 S.zoneDataOffset dst8
        S.layout.zoneCount
        = (ZEL_OK,
           (zelDecodeIndex8Loop S lz4 stride 0 S.zoneDataOffset dst8
             S.layout.zoneCount).snd.fst, S.frameDataEnd) := by
      rw [show zelDecodeIndex8Loop S lz4 stride 0 S.zoneDataOffset dst8
            S.layout.zoneCount
          = ((zelDecodeIndex8Loop S lz4 stride 0 S.zoneDataOffset dst8
              S.layout.zoneCount).fst,
             (zelDecodeIndex8Loop S lz4 stride 0 S.zoneDataOffset dst8
              S.layout.zoneCount).snd.fst,
             (zelDecodeIndex8Loop S lz4 stride 0 S.zoneDataOffset dst8
              S.layout.zoneCount).snd.snd) from rfl, hP1, hP2]
    have hdec8 := zelDecodeFrameIndex8_intro ctx f lz4 dst8 stride hf hcf hst
      (congrArg Prod.fst hinit) hP1 hP2
    refine ⟨congrArg Prod.fst hdec8, ?_⟩
    intro z row col hz hr hc
    obtain ⟨L8, -⟩ := zelDecodeIndex8Loop_spec S lz4 stride hg
      S.layout.zoneCount 0 S.zoneDataOffset dst8 _ _ hloop8
    rw [(LR z (Nat.zero_le z) (by omega)).2.2.2 row col hr hc]
    rw [show (zelDecodeFrameIndex8 ctx f lz4 dst8 stride).snd
        = (zelDecodeIndex8Loop S lz4 stride 0 S.zoneDataOffset dst8
            S.layout.zoneCount).snd.fst
        from congrArg Prod.snd hdec8]
    rw [(L8 z (Nat.zero_le z) (by omega)).2.2 row col hr hc]

/-- C3 witness: on the concrete two-entry palette, a blit with all indices 1
succeeds with `palette.getD 1 0` everywhere, a blit with index 5 at the first
position fails with `ZEL_ERR_CORRUPT_DATA`, and the tiny context RGB decode
relates to its Indexed8 decode through the global palette, instantiating
`zelRgbDecode_palette_spec`. -/
theorem zelRgbDecode_palette_spec_witness :
    ((zelBlitZoneRgb zelStreamTiny.layout 0 (fun _ => 1) [248, 4660] 2
        (fun _ => 0) 2).fst = ZEL_OK ∧
      ∀ row col, row < zelStreamTiny.layout.zoneHeight →
        col < zelStreamTiny.layout.zoneWidth →
        (zelBlitZoneRgb zelStreamTiny.layout 0 (fun _ => 1) [248, 4660] 2
            (fun _ => 0) 2).snd (zelZonePos zelStreamTiny.layout 2 0 row col)
          = [248, 4660].getD
              ((fun _ => 1) (row * zelStreamTiny.layout.zoneWidth + col)) 0) ∧
    (zelBlitZoneRgb zelStreamTiny.layout 0 (fun _ => 5) [248, 4660] 2
        (fun _ => 0) 2).fst = ZEL_ERR_CORRUPT_DATA ∧
    (zelDecodeFrameRgb565 zelCtxTiny 0 zelLz4None (fun _ => 99) 4
      = (ZEL_OK,
         (zelDecodeFrameRgb565 zelCtxTiny 0 zelLz4None (fun _ => 99) 4).snd)) ∧
    (zelDecodeFrameIndex8 zelCtxTiny 0 zelLz4None (fun _ => 7) 4).fst
      = ZEL_OK ∧
    (∀ z row col,
      z < (zelInitFrameZoneStream zelCtxTiny 0).snd.layout.zoneCount →
      row < (zelInitFrameZoneStream zelCtxTiny 0).snd.layout.zoneHeight →
      col < (zelInitFrameZoneStream zelCtxTiny 0).snd.layout.zoneWidth →
      (zelDecodeFrameRgb565 zelCtxTiny 0 zelLz4None (fun _ => 99) 4).snd
          (zelZonePos (zelInitFrameZoneStream zelCtxTiny 0).snd.layout 4
            z row col)
        = ((zelGetFramePalette zelCtxTiny 0).snd.snd.entries).getD
            ((zelDecodeFrameIndex8 zelCtxTiny 0 zelLz4None (fun _ => 7) 4).snd
              (zelZonePos (zelInitFrameZoneStream zelCtxTiny 0).snd.layout 4
                z row col)) 0) := by
  have hR : zelDecodeFrameRgb565 zelCtxTiny 0 zelLz4None (fun _ => 99) 4
      = (ZEL_OK,
         (zelDecodeFrameRgb565 zelCtxTiny 0 zelLz4None (fun _ => 99) 4).snd) := by
    rfl
  have h3 := zelRgbDecode_palette_spec.2.2 zelCtxTiny 0 zelLz4None (fun _ => 99) (fun _ => 7) 4
    (zelDecodeFrameRgb565 zelCtxTiny 0 zelLz4None (fun _ => 99) 4).snd hR
  exact ⟨zelRgbDecode_palette_spec.1 zelStreamTiny.layout 0 (fun _ => 1) [248, 4660] 2
      (fun _ => 0) 2 (by decide) (fun _ _ _ _ => Nat.one_lt_two),
    (zelRgbDecode_palette_spec.2.1 zelStreamTiny.layout 0 (fun _ => 5) [248, 4660] 2
      (fun _ => 0) 2 0 0 (by decide) (by decide) (by decide) (by decide)
      (fun row col hc hlex => by rcases hlex with h1 | h2 <;> omega)).1,
    hR, h3.1, h3.2⟩
